import Mathlib

/-!
Verification development for the lino-cosi reconciliation and
account-number-derivation engine.

Part 1 embeds the account-identifier converter of
`lino_cosi/lib/sepa/utils.py` (`be2iban`, `iban2bic`,
`belgian_nban_to_iban_bic`).  Python strings are modelled as `List Char`;
Python `int()` is modelled by `pyInt`, which strips surrounding
whitespace, accepts an optional sign, and fails (`none`, the Python
`ValueError`) on anything that is not a decimal-digit string.

Part 2 embeds the statement reconciliation engine of
`lino_cosi/lib/b2c/models.py` (`ImportStatements.import_file`).  The
persistent store is modelled as lists of primary-keyed rows; Django's
`save()` on a fetched object is an in-place row replacement, creation
is an append with a fresh primary key.
-/

namespace LinoCosi

/-- Characters Python `int()` strips from both ends of its argument
(the Python whitespace set). -/
def pyWs (c : Char) : Bool :=
  c = ' ' || c = '\t' || c = '\n' || c = '\x0d' || c = '\x0b' || c = '\x0c'

/-- Strip Python whitespace from both ends of a character list. -/
def pyStrip (l : List Char) : List Char :=
  ((l.dropWhile pyWs).reverse.dropWhile pyWs).reverse

/-- Numeric value of a decimal-digit character list (most significant
digit first). -/
def digitsVal (l : List Char) : Nat :=
  l.foldl (fun a c => 10 * a + (c.toNat - '0'.toNat)) 0

/-- Value of a nonempty all-digit character list, `none` otherwise. -/
def digitsVal? (l : List Char) : Option Nat :=
  if l ≠ [] ∧ l.all Char.isDigit then some (digitsVal l) else none

/-- Python `int(s)`: strip whitespace, allow one leading sign, then
require a nonempty run of decimal digits; `none` models the raised
`ValueError`. -/
def pyInt (l : List Char) : Option Int :=
  match pyStrip l with
  | [] => none
  | c :: rest =>
    if c = '+' then (digitsVal? rest).map Int.ofNat
    else if c = '-' then (digitsVal? rest).map (fun n => -(n : Int))
    else (digitsVal? (c :: rest)).map Int.ofNat

/-- Python `"%02d" % n`: decimal rendering, left-padded with `0` to two
characters for small non-negative values. -/
def pyFmt02d (n : Int) : List Char :=
  if 0 ≤ n ∧ n < 10 then '0' :: (toString n).toList else (toString n).toList

/-- Outcomes of `be2iban` other than success.  `lengthError` and
`checksumMismatch` are the two `ValidationError`s raised explicitly by
the source; `valueError` is the uncaught Python `ValueError` that
`int()` raises on non-numeric text.  `checksumMismatch` carries the two
values interpolated into the error message: the expected remainder and
the last two characters actually found. -/
inductive BeError
  | lengthError
  | valueError
  | checksumMismatch (expected : Int) (found : List Char)
deriving DecidableEq, Repr

/-- Final part of `be2iban` after the checksum test has passed:
`data = nban + "1114" + "00"`, check digits `98 - int(data) % 97`
rendered with `"%02d"`, result `"BE" + check + nban`. -/
def be2ibanFinish (nban : List Char) : Except BeError (List Char) :=
  let data := nban ++ "1114".toList ++ "00".toList
  match pyInt data with
  | none => .error .valueError
  | some dv => .ok ("BE".toList ++ pyFmt02d (98 - dv % 97) ++ nban)

/-- `be2iban` of `lino_cosi/lib/sepa/utils.py`: remove spaces and
hyphens, require length 12, check that the last two characters equal
`int(nban[:10]) % 97` (with remainder 0 standing for the sentinel 97),
then build the IBAN. -/
def be2iban (nban0 : List Char) : Except BeError (List Char) :=
  let nban := (nban0.filter (fun c => c ≠ ' ')).filter (fun c => c ≠ '-')
  if nban.length ≠ 12 then .error .lengthError
  else
    match pyInt (nban.take 10) with
    | none => .error .valueError
    | some v =>
      let m : Int := v % 97
      let e := nban.drop 10
      if m = 0 then
        if e ≠ ['9', '7'] then .error (.checksumMismatch 97 e)
        else be2ibanFinish nban
      else
        match pyInt e with
        | none => .error .valueError
        | some ev =>
          if ev ≠ m then .error (.checksumMismatch m e)
          else be2ibanFinish nban

/-- The static Belgian bank-code table of
`lino_cosi/lib/sepa/utils.py`: the module-level loop over `BANK_CODES`
splits each line on the tab and removes the spaces from the BIC, so the
resulting dictionary maps each 3-digit bank code to its 8- or
11-character BIC.  The keys are pairwise distinct in the source table,
so dictionary lookup coincides with first-match association-list
lookup. -/
def BELGIAN_BICS : List (String × String) := [
  ("000", "BPOTBEB1"),
  ("001", "GEBABEBB"),
  ("002", "GEBABEBB"),
  ("003", "GEBABEBB"),
  ("004", "GEBABEBB"),
  ("005", "GEBABEBB"),
  ("006", "GEBABEBB"),
  ("007", "GEBABEBB"),
  ("008", "GEBABEBB"),
  ("009", "GEBABEBB"),
  ("010", "GEBABEBB"),
  ("011", "GEBABEBB"),
  ("012", "GEBABEBB"),
  ("013", "GEBABEBB"),
  ("014", "GEBABEBB"),
  ("015", "GEBABEBB"),
  ("016", "GEBABEBB"),
  ("017", "GEBABEBB"),
  ("018", "GEBABEBB"),
  ("019", "GEBABEBB"),
  ("020", "GEBABEBB"),
  ("021", "GEBABEBB"),
  ("022", "GEBABEBB"),
  ("023", "GEBABEBB"),
  ("024", "GEBABEBB"),
  ("025", "GEBABEBB"),
  ("026", "GEBABEBB"),
  ("027", "GEBABEBB"),
  ("028", "GEBABEBB"),
  ("029", "GEBABEBB"),
  ("030", "GEBABEBB"),
  ("031", "GEBABEBB"),
  ("032", "GEBABEBB"),
  ("033", "GEBABEBB"),
  ("034", "GEBABEBB"),
  ("035", "GEBABEBB"),
  ("036", "GEBABEBB"),
  ("037", "GEBABEBB"),
  ("038", "GEBABEBB"),
  ("039", "GEBABEBB"),
  ("040", "GEBABEBB"),
  ("041", "GEBABEBB"),
  ("042", "GEBABEBB"),
  ("043", "GEBABEBB"),
  ("044", "GEBABEBB"),
  ("045", "GEBABEBB"),
  ("046", "GEBABEBB"),
  ("047", "GEBABEBB"),
  ("048", "GEBABEBB"),
  ("049", "GEBABEBB"),
  ("050", "GKCCBEBB"),
  ("051", "GKCCBEBB"),
  ("052", "GKCCBEBB"),
  ("053", "GKCCBEBB"),
  ("054", "GKCCBEBB"),
  ("055", "GKCCBEBB"),
  ("056", "GKCCBEBB"),
  ("057", "GKCCBEBB"),
  ("058", "GKCCBEBB"),
  ("059", "GKCCBEBB"),
  ("060", "GKCCBEBB"),
  ("061", "GKCCBEBB"),
  ("062", "GKCCBEBB"),
  ("063", "GKCCBEBB"),
  ("064", "GKCCBEBB"),
  ("065", "GKCCBEBB"),
  ("066", "GKCCBEBB"),
  ("067", "GKCCBEBB"),
  ("068", "GKCCBEBB"),
  ("069", "GKCCBEBB"),
  ("070", "GKCCBEBB"),
  ("071", "GKCCBEBB"),
  ("072", "GKCCBEBB"),
  ("073", "GKCCBEBB"),
  ("074", "GKCCBEBB"),
  ("075", "GKCCBEBB"),
  ("076", "GKCCBEBB"),
  ("077", "GKCCBEBB"),
  ("078", "GKCCBEBB"),
  ("079", "GKCCBEBB"),
  ("080", "GKCCBEBB"),
  ("081", "GKCCBEBB"),
  ("082", "GKCCBEBB"),
  ("083", "GKCCBEBB"),
  ("084", "GKCCBEBB"),
  ("085", "GKCCBEBB"),
  ("086", "GKCCBEBB"),
  ("087", "GKCCBEBB"),
  ("088", "GKCCBEBB"),
  ("089", "GKCCBEBB"),
  ("090", "GKCCBEBB"),
  ("091", "GKCCBEBB"),
  ("092", "GKCCBEBB"),
  ("093", "GKCCBEBB"),
  ("094", "GKCCBEBB"),
  ("095", "GKCCBEBB"),
  ("096", "GKCCBEBB"),
  ("097", "GKCCBEBB"),
  ("098", "GKCCBEBB"),
  ("099", "GKCCBEBB"),
  ("100", "NBBEBEBB203"),
  ("101", "NBBEBEBB203"),
  ("103", "NICABEBB"),
  ("104", "NICABEBB"),
  ("105", "NICABEBB"),
  ("106", "NICABEBB"),
  ("107", "NICABEBB"),
  ("108", "NICABEBB"),
  ("109", "BKCPBEB1BKB"),
  ("110", "BKCPBEBB"),
  ("111", "ABERBE21"),
  ("113", "BKCPBEB1BKB"),
  ("114", "BKCPBEB1BKB"),
  ("119", "BKCPBEB1BKB"),
  ("120", "BKCPBEB1BKB"),
  ("121", "BKCPBEB1BKB"),
  ("122", "OBKBBE99"),
  ("123", "OBKBBE99"),
  ("124", "BKCPBEB1BKB"),
  ("125", "CPHBBE75"),
  ("126", "CPHBBE75"),
  ("127", "BKCPBEB1BKB"),
  ("129", "BKCPBEB1BKB"),
  ("131", "BKCPBEB1BKB"),
  ("132", "BNAGBEBB"),
  ("133", "BKCPBEB1BKB"),
  ("134", "BKCPBEB1BKB"),
  ("137", "GEBABEBB"),
  ("140", "GEBABEBB"),
  ("141", "GEBABEBB"),
  ("142", "GEBABEBB"),
  ("143", "GEBABEBB"),
  ("144", "GEBABEBB"),
  ("145", "GEBABEBB"),
  ("146", "GEBABEBB"),
  ("147", "GEBABEBB"),
  ("148", "GEBABEBB"),
  ("149", "GEBABEBB"),
  ("150", "BCMCBEBB"),
  ("171", "CPHBBE75"),
  ("172", "RABOBE22"),
  ("173", "RABOBE23"),
  ("176", "BSCHBEBR"),
  ("177", "BSCHBEBR"),
  ("178", "COBABEBX"),
  ("179", "COBABEBX"),
  ("183", "BARBBEBB"),
  ("185", "HBKABE22"),
  ("189", "SMBCBEBB"),
  ("190", "CREGBEBB"),
  ("191", "CREGBEBB"),
  ("192", "CREGBEBB"),
  ("193", "CREGBEBB"),
  ("194", "CREGBEBB"),
  ("195", "CREGBEBB"),
  ("196", "CREGBEBB"),
  ("197", "CREGBEBB"),
  ("198", "CREGBEBB"),
  ("199", "CREGBEBB"),
  ("200", "GEBABEBB"),
  ("201", "GEBABEBB"),
  ("202", "GEBABEBB"),
  ("203", "GEBABEBB"),
  ("204", "GEBABEBB"),
  ("205", "GEBABEBB"),
  ("206", "GEBABEBB"),
  ("207", "GEBABEBB"),
  ("208", "GEBABEBB"),
  ("209", "GEBABEBB"),
  ("210", "GEBABEBB"),
  ("211", "GEBABEBB"),
  ("212", "GEBABEBB"),
  ("213", "GEBABEBB"),
  ("214", "GEBABEBB"),
  ("220", "GEBABEBB"),
  ("221", "GEBABEBB"),
  ("222", "GEBABEBB"),
  ("223", "GEBABEBB"),
  ("224", "GEBABEBB"),
  ("225", "GEBABEBB"),
  ("226", "GEBABEBB"),
  ("227", "GEBABEBB"),
  ("228", "GEBABEBB"),
  ("229", "GEBABEBB"),
  ("230", "GEBABEBB"),
  ("231", "GEBABEBB"),
  ("232", "GEBABEBB"),
  ("233", "GEBABEBB"),
  ("234", "GEBABEBB"),
  ("235", "GEBABEBB"),
  ("236", "GEBABEBB"),
  ("237", "GEBABEBB"),
  ("238", "GEBABEBB"),
  ("239", "GEBABEBB"),
  ("240", "GEBABEBB"),
  ("241", "GEBABEBB"),
  ("242", "GEBABEBB"),
  ("243", "GEBABEBB"),
  ("244", "GEBABEBB"),
  ("245", "GEBABEBB"),
  ("246", "GEBABEBB"),
  ("247", "GEBABEBB"),
  ("248", "GEBABEBB"),
  ("249", "GEBABEBB"),
  ("250", "GEBABEBB"),
  ("251", "GEBABEBB"),
  ("257", "GEBABEBB"),
  ("259", "GEBABEBB"),
  ("260", "GEBABEBB"),
  ("261", "GEBABEBB"),
  ("262", "GEBABEBB"),
  ("263", "GEBABEBB"),
  ("264", "GEBABEBB"),
  ("265", "GEBABEBB"),
  ("266", "GEBABEBB"),
  ("267", "GEBABEBB"),
  ("268", "GEBABEBB"),
  ("269", "GEBABEBB"),
  ("270", "GEBABEBB"),
  ("271", "GEBABEBB"),
  ("272", "GEBABEBB"),
  ("273", "GEBABEBB"),
  ("274", "GEBABEBB"),
  ("275", "GEBABEBB"),
  ("276", "GEBABEBB"),
  ("277", "GEBABEBB"),
  ("278", "GEBABEBB"),
  ("279", "GEBABEBB"),
  ("280", "GEBABEBB"),
  ("281", "GEBABEBB"),
  ("282", "GEBABEBB"),
  ("283", "GEBABEBB"),
  ("284", "GEBABEBB"),
  ("285", "GEBABEBB"),
  ("286", "GEBABEBB"),
  ("287", "GEBABEBB"),
  ("288", "GEBABEBB"),
  ("289", "GEBABEBB"),
  ("290", "GEBABEBB"),
  ("291", "GEBABEBB"),
  ("292", "GEBABEBB"),
  ("293", "GEBABEBB"),
  ("294", "GEBABEBB"),
  ("295", "GEBABEBB"),
  ("296", "GEBABEBB"),
  ("297", "GEBABEBB"),
  ("298", "GEBABEBB"),
  ("299", "BPOTBEB1"),
  ("300", "BBRUBEBB"),
  ("301", "BBRUBEBB"),
  ("302", "BBRUBEBB"),
  ("303", "BBRUBEBB"),
  ("304", "BBRUBEBB"),
  ("305", "BBRUBEBB"),
  ("306", "BBRUBEBB"),
  ("307", "BBRUBEBB"),
  ("308", "BBRUBEBB"),
  ("309", "BBRUBEBB"),
  ("310", "BBRUBEBB"),
  ("311", "BBRUBEBB"),
  ("312", "BBRUBEBB"),
  ("313", "BBRUBEBB"),
  ("314", "BBRUBEBB"),
  ("315", "BBRUBEBB"),
  ("316", "BBRUBEBB"),
  ("317", "BBRUBEBB"),
  ("318", "BBRUBEBB"),
  ("319", "BBRUBEBB"),
  ("320", "BBRUBEBB"),
  ("321", "BBRUBEBB"),
  ("322", "BBRUBEBB"),
  ("323", "BBRUBEBB"),
  ("324", "BBRUBEBB"),
  ("325", "BBRUBEBB"),
  ("326", "BBRUBEBB"),
  ("327", "BBRUBEBB"),
  ("328", "BBRUBEBB"),
  ("329", "BBRUBEBB"),
  ("330", "BBRUBEBB"),
  ("331", "BBRUBEBB"),
  ("332", "BBRUBEBB"),
  ("333", "BBRUBEBB"),
  ("334", "BBRUBEBB"),
  ("335", "BBRUBEBB"),
  ("336", "BBRUBEBB"),
  ("337", "BBRUBEBB"),
  ("338", "BBRUBEBB"),
  ("339", "BBRUBEBB"),
  ("340", "BBRUBEBB"),
  ("341", "BBRUBEBB"),
  ("342", "BBRUBEBB"),
  ("343", "BBRUBEBB"),
  ("344", "BBRUBEBB"),
  ("345", "BBRUBEBB"),
  ("346", "BBRUBEBB"),
  ("347", "BBRUBEBB"),
  ("348", "BBRUBEBB"),
  ("349", "BBRUBEBB"),
  ("350", "BBRUBEBB"),
  ("351", "BBRUBEBB"),
  ("352", "BBRUBEBB"),
  ("353", "BBRUBEBB"),
  ("354", "BBRUBEBB"),
  ("355", "BBRUBEBB"),
  ("356", "BBRUBEBB"),
  ("357", "BBRUBEBB"),
  ("358", "BBRUBEBB"),
  ("359", "BBRUBEBB"),
  ("360", "BBRUBEBB"),
  ("361", "BBRUBEBB"),
  ("362", "BBRUBEBB"),
  ("363", "BBRUBEBB"),
  ("364", "BBRUBEBB"),
  ("365", "BBRUBEBB"),
  ("366", "BBRUBEBB"),
  ("367", "BBRUBEBB"),
  ("368", "BBRUBEBB"),
  ("369", "BBRUBEBB"),
  ("370", "BBRUBEBB"),
  ("371", "BBRUBEBB"),
  ("372", "BBRUBEBB"),
  ("373", "BBRUBEBB"),
  ("374", "BBRUBEBB"),
  ("375", "BBRUBEBB"),
  ("376", "BBRUBEBB"),
  ("377", "BBRUBEBB"),
  ("378", "BBRUBEBB"),
  ("379", "BBRUBEBB"),
  ("380", "BBRUBEBB"),
  ("381", "BBRUBEBB"),
  ("382", "BBRUBEBB"),
  ("383", "BBRUBEBB"),
  ("384", "BBRUBEBB"),
  ("385", "BBRUBEBB"),
  ("386", "BBRUBEBB"),
  ("387", "BBRUBEBB"),
  ("388", "BBRUBEBB"),
  ("389", "BBRUBEBB"),
  ("390", "BBRUBEBB"),
  ("391", "BBRUBEBB"),
  ("392", "BBRUBEBB"),
  ("393", "BBRUBEBB"),
  ("394", "BBRUBEBB"),
  ("395", "BBRUBEBB"),
  ("396", "BBRUBEBB"),
  ("397", "BBRUBEBB"),
  ("398", "BBRUBEBB"),
  ("399", "BBRUBEBB"),
  ("400", "KREDBEBB"),
  ("401", "KREDBEBB"),
  ("402", "KREDBEBB"),
  ("403", "KREDBEBB"),
  ("404", "KREDBEBB"),
  ("405", "KREDBEBB"),
  ("406", "KREDBEBB"),
  ("407", "KREDBEBB"),
  ("408", "KREDBEBB"),
  ("409", "KREDBEBB"),
  ("410", "KREDBEBB"),
  ("411", "KREDBEBB"),
  ("412", "KREDBEBB"),
  ("413", "KREDBEBB"),
  ("414", "KREDBEBB"),
  ("415", "KREDBEBB"),
  ("416", "KREDBEBB"),
  ("417", "KREDBEBB"),
  ("418", "KREDBEBB"),
  ("419", "KREDBEBB"),
  ("420", "KREDBEBB"),
  ("421", "KREDBEBB"),
  ("422", "KREDBEBB"),
  ("423", "KREDBEBB"),
  ("424", "KREDBEBB"),
  ("425", "KREDBEBB"),
  ("426", "KREDBEBB"),
  ("427", "KREDBEBB"),
  ("428", "KREDBEBB"),
  ("429", "KREDBEBB"),
  ("430", "KREDBEBB"),
  ("431", "KREDBEBB"),
  ("432", "KREDBEBB"),
  ("433", "KREDBEBB"),
  ("434", "KREDBEBB"),
  ("435", "KREDBEBB"),
  ("436", "KREDBEBB"),
  ("437", "KREDBEBB"),
  ("438", "KREDBEBB"),
  ("439", "KREDBEBB"),
  ("440", "KREDBEBB"),
  ("441", "KREDBEBB"),
  ("442", "KREDBEBB"),
  ("443", "KREDBEBB"),
  ("444", "KREDBEBB"),
  ("445", "KREDBEBB"),
  ("446", "KREDBEBB"),
  ("447", "KREDBEBB"),
  ("448", "KREDBEBB"),
  ("449", "KREDBEBB"),
  ("450", "KREDBEBB"),
  ("451", "KREDBEBB"),
  ("452", "KREDBEBB"),
  ("453", "KREDBEBB"),
  ("454", "KREDBEBB"),
  ("455", "KREDBEBB"),
  ("456", "KREDBEBB"),
  ("457", "KREDBEBB"),
  ("458", "KREDBEBB"),
  ("459", "KREDBEBB"),
  ("460", "KREDBEBB"),
  ("461", "KREDBEBB"),
  ("462", "KREDBEBB"),
  ("463", "KREDBEBB"),
  ("464", "KREDBEBB"),
  ("465", "KREDBEBB"),
  ("466", "KREDBEBB"),
  ("467", "KREDBEBB"),
  ("468", "KREDBEBB"),
  ("469", "KREDBEBB"),
  ("470", "KREDBEBB"),
  ("471", "KREDBEBB"),
  ("472", "KREDBEBB"),
  ("473", "KREDBEBB"),
  ("474", "KREDBEBB"),
  ("475", "KREDBEBB"),
  ("476", "KREDBEBB"),
  ("477", "KREDBEBB"),
  ("478", "KREDBEBB"),
  ("479", "KREDBEBB"),
  ("480", "KREDBEBB"),
  ("481", "KREDBEBB"),
  ("482", "KREDBEBB"),
  ("483", "KREDBEBB"),
  ("484", "KREDBEBB"),
  ("485", "KREDBEBB"),
  ("486", "KREDBEBB"),
  ("487", "KREDBEBB"),
  ("488", "KREDBEBB"),
  ("489", "KREDBEBB"),
  ("490", "KREDBEBB"),
  ("491", "KREDBEBB"),
  ("492", "KREDBEBB"),
  ("493", "KREDBEBB"),
  ("494", "KREDBEBB"),
  ("495", "KREDBEBB"),
  ("496", "KREDBEBB"),
  ("497", "KREDBEBB"),
  ("498", "KREDBEBB"),
  ("499", "KREDBEBB"),
  ("501", "DHBNBEBB"),
  ("507", "DIERBE21"),
  ("508", "PARBBEBZMDC"),
  ("509", "ABNABE2AIPC"),
  ("510", "VAPEBE21"),
  ("512", "DNIBBE21"),
  ("513", "SGPBBE99"),
  ("514", "PUILBEBB"),
  ("515", "IRVTBEBB"),
  ("517", "FORDBE21"),
  ("519", "BNYMBEBB"),
  ("521", "FVLBBE22"),
  ("522", "UTWBBEBB"),
  ("523", "TRIOBEBB"),
  ("524", "WAFABEBB"),
  ("525", "FVLBBE2E"),
  ("530", "SHIZBEBB"),
  ("535", "FBHLBE22"),
  ("541", "BKIDBE22"),
  ("546", "WAFABEBB"),
  ("548", "LOCYBEBB"),
  ("549", "CHASBEBX"),
  ("550", "GKCCBEBB"),
  ("551", "GKCCBEBB"),
  ("552", "GKCCBEBB"),
  ("553", "GKCCBEBB"),
  ("554", "GKCCBEBB"),
  ("555", "GKCCBEBB"),
  ("556", "GKCCBEBB"),
  ("557", "GKCCBEBB"),
  ("558", "GKCCBEBB"),
  ("559", "GKCCBEBB"),
  ("560", "GKCCBEBB"),
  ("561", "FTNOBEB1"),
  ("562", "GKCCBEBB"),
  ("563", "GKCCBEBB"),
  ("564", "GKCCBEBB"),
  ("565", "GKCCBEBB"),
  ("566", "GKCCBEBB"),
  ("567", "GKCCBEBB"),
  ("568", "GKCCBEBB"),
  ("569", "GKCCBEBB"),
  ("570", "CITIBEBX"),
  ("571", "CITIBEBX"),
  ("572", "CITIBEBX"),
  ("573", "CITIBEBX"),
  ("574", "CITIBEBX"),
  ("575", "CITIBEBX"),
  ("576", "CITIBEBX"),
  ("577", "CITIBEBX"),
  ("578", "CITIBEBX"),
  ("579", "CITIBEBX"),
  ("581", "MHCBBEBB"),
  ("583", "DEGRBEBB"),
  ("584", "ICICGB2L"),
  ("585", "RCBPBEBB"),
  ("586", "CFFRBEB1"),
  ("587", "BIBLBE21"),
  ("588", "CMCIBEB1"),
  ("590", "BSCHBEBB"),
  ("591", "BSCHBEBB"),
  ("592", "BSCHBEBB"),
  ("593", "BSCHBEBB"),
  ("594", "BSCHBEBB"),
  ("595", "CTBKBEBX"),
  ("596", "CTBKBEBX"),
  ("597", "CTBKBEBX"),
  ("598", "CTBKBEBX"),
  ("599", "CTBKBEBX"),
  ("600", "CTBKBEBX"),
  ("601", "CTBKBEBX"),
  ("605", "BKCHBEBB"),
  ("607", "ICBKBEBB"),
  ("610", "DEUTBEBE"),
  ("611", "DEUTBEBE"),
  ("612", "DEUTBEBE"),
  ("613", "DEUTBEBE"),
  ("624", "GKCCBEBB"),
  ("625", "GKCCBEBB"),
  ("626", "CPBIFRPP"),
  ("630", "BBRUBEBB"),
  ("631", "BBRUBEBB"),
  ("634", "BNAGBEBB"),
  ("635", "BNAGBEBB"),
  ("636", "BNAGBEBB"),
  ("638", "GKCCBEBB"),
  ("639", "ABNABE2AMYO"),
  ("640", "ADIABE22"),
  ("642", "BBVABEBB"),
  ("643", "BMPBBEBB"),
  ("645", "JVBABE22"),
  ("646", "BNAGBEBB"),
  ("647", "BNAGBEBB"),
  ("651", "KEYTBEBB"),
  ("652", "HBKABE22"),
  ("656", "ETHIBEBB"),
  ("657", "GKCCBEBB"),
  ("658", "HABBBEBB"),
  ("664", "BCDMBEBB"),
  ("665", "SPAABE22"),
  ("668", "SBINBE2X"),
  ("671", "EURBBE99"),
  ("672", "GKCCBEBB"),
  ("673", "HBKABE22"),
  ("674", "ABNABE2AIDJ"),
  ("675", "BYBBBEBB"),
  ("676", "DEGRBEBB"),
  ("678", "DELEBE22"),
  ("679", "PCHQBEBB"),
  ("680", "GKCCBEBB"),
  ("682", "GKCCBEBB"),
  ("683", "GKCCBEBB"),
  ("685", "BOFABE3X"),
  ("686", "BOFABE3X"),
  ("687", "MGTCBEBE"),
  ("688", "SGABBEB2"),
  ("690", "BNPABEBB"),
  ("691", "FTSBNL2R"),
  ("693", "BOTKBEBX"),
  ("694", "DEUTBEBE"),
  ("696", "CRLYBEBB"),
  ("700", "AXABBE22"),
  ("701", "AXABBE22"),
  ("702", "AXABBE22"),
  ("703", "AXABBE22"),
  ("704", "AXABBE22"),
  ("705", "AXABBE22"),
  ("706", "AXABBE22"),
  ("707", "AXABBE22"),
  ("708", "AXABBE22"),
  ("709", "AXABBE22"),
  ("719", "FTSBBE22"),
  ("720", "ABNABEBR"),
  ("721", "ABNABEBR"),
  ("722", "ABNABE2AIPC"),
  ("723", "ABNABEBR"),
  ("724", "ABNABEBR"),
  ("725", "KREDBEBB"),
  ("726", "KREDBEBB"),
  ("727", "KREDBEBB"),
  ("728", "CREGBEBB"),
  ("729", "CREGBEBB"),
  ("730", "KREDBEBB"),
  ("731", "KREDBEBB"),
  ("732", "CREGBEBB"),
  ("733", "KREDBEBB"),
  ("734", "KREDBEBB"),
  ("735", "KREDBEBB"),
  ("736", "KREDBEBB"),
  ("737", "KREDBEBB"),
  ("738", "KREDBEBB"),
  ("739", "KREDBEBB"),
  ("740", "KREDBEBB"),
  ("741", "KREDBEBB"),
  ("742", "CREGBEBB"),
  ("743", "KREDBEBB"),
  ("744", "KREDBEBB"),
  ("745", "KREDBEBB"),
  ("746", "KREDBEBB"),
  ("747", "KREDBEBB"),
  ("748", "KREDBEBB"),
  ("749", "KREDBEBB"),
  ("750", "AXABBE22"),
  ("751", "AXABBE22"),
  ("752", "AXABBE22"),
  ("753", "AXABBE22"),
  ("754", "AXABBE22"),
  ("755", "AXABBE22"),
  ("756", "AXABBE22"),
  ("757", "AXABBE22"),
  ("758", "AXABBE22"),
  ("759", "AXABBE22"),
  ("760", "AXABBE22"),
  ("761", "AXABBE22"),
  ("762", "AXABBE22"),
  ("763", "AXABBE22"),
  ("764", "AXABBE22"),
  ("765", "AXABBE22"),
  ("766", "AXABBE22"),
  ("767", "AXABBE22"),
  ("768", "AXABBE22"),
  ("769", "AXABBE22"),
  ("770", "AXABBE22"),
  ("771", "AXABBE22"),
  ("772", "AXABBE22"),
  ("773", "AXABBE22"),
  ("774", "AXABBE22"),
  ("775", "GKCCBEBB"),
  ("776", "GKCCBEBB"),
  ("777", "GKCCBEBB"),
  ("778", "GKCCBEBB"),
  ("779", "GKCCBEBB"),
  ("780", "GKCCBEBB"),
  ("781", "GKCCBEBB"),
  ("782", "GKCCBEBB"),
  ("783", "GKCCBEBB"),
  ("784", "GKCCBEBB"),
  ("785", "GKCCBEBB"),
  ("786", "GKCCBEBB"),
  ("787", "GKCCBEBB"),
  ("788", "GKCCBEBB"),
  ("789", "GKCCBEBB"),
  ("790", "GKCCBEBB"),
  ("791", "GKCCBEBB"),
  ("792", "GKCCBEBB"),
  ("793", "GKCCBEBB"),
  ("794", "GKCCBEBB"),
  ("795", "GKCCBEBB"),
  ("796", "GKCCBEBB"),
  ("797", "GKCCBEBB"),
  ("798", "GKCCBEBB"),
  ("799", "GKCCBEBB"),
  ("800", "AXABBE22"),
  ("801", "AXABBE22"),
  ("802", "AXABBE22"),
  ("803", "AXABBE22"),
  ("804", "AXABBE22"),
  ("805", "AXABBE22"),
  ("806", "AXABBE22"),
  ("807", "AXABBE22"),
  ("808", "AXABBE22"),
  ("809", "AXABBE22"),
  ("810", "AXABBE22"),
  ("811", "AXABBE22"),
  ("812", "AXABBE22"),
  ("813", "AXABBE22"),
  ("814", "AXABBE22"),
  ("815", "AXABBE22"),
  ("816", "AXABBE22"),
  ("823", "BLUXBE41"),
  ("825", "DEUTBEBE"),
  ("826", "DEUTBEBE"),
  ("827", "ETHIBEBB"),
  ("828", "HBKABE22"),
  ("829", "BMECBEB1"),
  ("830", "GKCCBEBB"),
  ("831", "GKCCBEBB"),
  ("832", "GKCCBEBB"),
  ("833", "GKCCBEBB"),
  ("834", "GKCCBEBB"),
  ("835", "GKCCBEBB"),
  ("836", "GKCCBEBB"),
  ("837", "GKCCBEBB"),
  ("838", "GKCCBEBB"),
  ("839", "GKCCBEBB"),
  ("840", "PRIBBEBB"),
  ("841", "COVEBE71"),
  ("842", "UBSWBEBB"),
  ("843", "FTNOBEB1"),
  ("844", "RABOBE22"),
  ("845", "DEGRBEBB"),
  ("850", "SPAABE22"),
  ("851", "SPAABE22"),
  ("852", "SPAABE22"),
  ("853", "SPAABE22"),
  ("859", "SPAABE22"),
  ("860", "SPAABE22"),
  ("861", "SPAABE22"),
  ("862", "SPAABE22"),
  ("863", "SPAABE22"),
  ("865", "SPAABE22"),
  ("866", "SPAABE22"),
  ("868", "KREDBEBB"),
  ("870", "BNAGBEBB"),
  ("871", "BNAGBEBB"),
  ("872", "BNAGBEBB"),
  ("873", "PCHQBEBB"),
  ("874", "BNAGBEBB"),
  ("876", "MBWMBEBB"),
  ("877", "BNAGBEBB"),
  ("878", "BNAGBEBB"),
  ("879", "BNAGBEBB"),
  ("880", "HBKABE22"),
  ("881", "HBKABE22"),
  ("882", "HBKABE22"),
  ("883", "HBKABE22"),
  ("884", "HBKABE22"),
  ("885", "HBKABE22"),
  ("886", "HBKABE22"),
  ("887", "HBKABE22"),
  ("888", "HBKABE22"),
  ("889", "HBKABE22"),
  ("890", "VDSPBE91"),
  ("891", "VDSPBE91"),
  ("892", "VDSPBE91"),
  ("893", "VDSPBE91"),
  ("894", "VDSPBE91"),
  ("895", "VDSPBE91"),
  ("896", "VDSPBE91"),
  ("897", "VDSPBE91"),
  ("898", "VDSPBE91"),
  ("899", "VDSPBE91"),
  ("906", "CEKVBE81"),
  ("907", "SPAABE22"),
  ("908", "CEKVBE81"),
  ("909", "FTNOBEB1"),
  ("910", "HBKABE22"),
  ("911", "TUNZBEB1"),
  ("913", "EPBFBEBB"),
  ("918", "BILLBEBB"),
  ("920", "HBKABE22"),
  ("921", "HBKABE22"),
  ("922", "HBKABE22"),
  ("923", "HBKABE22"),
  ("925", "HBKABE22"),
  ("929", "HBKABE22"),
  ("930", "HBKABE22"),
  ("931", "HBKABE22"),
  ("932", "HBKABE22"),
  ("933", "HBKABE22"),
  ("934", "HBKABE22"),
  ("935", "HBKABE22"),
  ("936", "HBKABE22"),
  ("937", "HBKABE22"),
  ("938", "HBKABE22"),
  ("939", "HBKABE22"),
  ("940", "CLIQBEB1"),
  ("941", "CVMCBEBB"),
  ("942", "PUILBEBB"),
  ("945", "JPMGBEBB"),
  ("947", "AARBBEB1"),
  ("949", "HSBCBEBB"),
  ("950", "CTBKBEBX"),
  ("951", "CTBKBEBX"),
  ("952", "CTBKBEBX"),
  ("953", "CTBKBEBX"),
  ("954", "CTBKBEBX"),
  ("955", "CTBKBEBX"),
  ("956", "CTBKBEBX"),
  ("957", "CTBKBEBX"),
  ("958", "CTBKBEBX"),
  ("959", "CTBKBEBX"),
  ("960", "ABNABE2AIPC"),
  ("961", "HBKABE22"),
  ("962", "ETHIBEBB"),
  ("963", "AXABBE22"),
  ("965", "ETHIBEBB"),
  ("968", "ENIBBEBB"),
  ("969", "PUILBEBB"),
  ("970", "HBKABE22"),
  ("971", "HBKABE22"),
  ("973", "ARSPBE22"),
  ("975", "AXABBE22"),
  ("976", "HBKABE22"),
  ("978", "ARSPBE22"),
  ("979", "ARSPBE22"),
  ("980", "ARSPBE22"),
  ("981", "PCHQBEBB"),
  ("982", "PCHQBEBB"),
  ("983", "PCHQBEBB"),
  ("984", "PCHQBEBB"),
  ("985", "BPOTBEB1"),
  ("986", "BPOTBEB1"),
  ("987", "BPOTBEB1"),
  ("988", "BPOTBEB1")
]

/-- `iban2bic`: remove spaces, and for identifiers starting with `BE`
look up characters `[4:7]` in the static table; `none` models the
Python `None` (unsupported country or unmapped bank code). -/
def iban2bic (iban0 : List Char) : Option String :=
  let iban := iban0.filter (fun c => c ≠ ' ')
  if iban.take 2 = ['B', 'E'] then
    List.lookup (String.mk ((iban.drop 4).take 3)) BELGIAN_BICS
  else none

/-- `belgian_nban_to_iban_bic`: compose `be2iban` with `iban2bic`. -/
def belgian_nban_to_iban_bic (s : List Char) :
    Except BeError (List Char × Option String) :=
  match be2iban s with
  | .error e => .error e
  | .ok iban => .ok (iban, iban2bic iban)

/-! Part 2: the statement reconciliation engine
(`ImportStatements.import_file` of `lino_cosi/lib/b2c/models.py`).

Dates are modelled as natural numbers (e.g. `20240301`), decimal
amounts as integers, character strings as `String`.  A table of the
store is a list of `(primary key, row)` pairs; Django's `save()` of a
fetched object replaces the row with that primary key in place, and
saving a fresh object appends it with the next free key.  The
`.filter(...)`/`.get(...)`/`.exists()` queries are list filters; a
`get` that matches more than one row raises `MultipleObjectsReturned`,
which `import_file` does not catch for statements and movements, so it
is modelled as an `Except.error` that aborts the file. -/

/-- Row of the `b2c.Account` model: `iban` (unique, non-blank), `bic`
(blank allowed, default empty), `last_movement` (nullable date). -/
structure AccountRow where
  iban : String
  bic : String
  last_movement : Option Nat
deriving DecidableEq, Repr

/-- Row of the `b2c.Statement` model; `account` is the primary key of
the owning Account. -/
structure StatementRow where
  account : Nat
  start_date : Nat
  end_date : Nat
  statement_number : String
  balance_start : Int
  balance_end : Int
  balance_end_real : Int
  currency_code : String
  sequence_number : Option Int
deriving DecidableEq, Repr

/-- Row of the `b2c.Movement` model; `statement` is the primary key of
the statement the movement currently belongs to. -/
structure MovementRow where
  statement : Nat
  unique_import_id : String
  movement_date : Nat
  amount : Int
  partner_name : Option String
  ref : String
  remote_account : String
  remote_bic : String
  message : String
  eref : String
  remote_owner : String
  remote_owner_address : String
  remote_owner_city : String
  remote_owner_postalcode : String
  remote_owner_country_code : String
  transfer_type : String
  execution_date : String
  value_date : String
deriving DecidableEq, Repr

/-- One transaction record as delivered by the external CAMT parser.
Fields that the import reads through `x or default` are `Option`s, with
`none` for Python `None`/absent.  `remote_owner_address` is the list of
address lines that the import joins with a newline. -/
structure MvmtRecord where
  date : Nat
  amount : Int
  unique_import_id : String
  ref : Option String
  remote_owner : Option String
  remote_owner_address : List String
  remote_owner_city : Option String
  remote_owner_postalcode : Option String
  remote_owner_country_code : Option String
  remote_account : Option String
  remote_bank_bic : Option String
  message : Option String
  eref : Option String
  transfer_type : Option String
  execution_date : Option String
  value_date : Option String
deriving DecidableEq, Repr

/-- One statement record as delivered by the external CAMT parser
(`stmt` in the source); `name` is the statement number used as natural
key, `account_number` may be absent. -/
structure StmtRecord where
  account_number : Option String
  name : String
  start_date : Nat
  end_date : Nat
  balance_start : Int
  balance_end : Int
  balance_end_real : Int
  currency_code : String
  legal_sequence_number : Option Int
  transactions : List MvmtRecord
deriving DecidableEq, Repr

/-- The persistent store: one keyed table per model plus the next free
primary key of each table. -/
structure DB where
  accounts : List (Nat × AccountRow)
  statements : List (Nat × StatementRow)
  movements : List (Nat × MovementRow)
  next_account_id : Nat
  next_statement_id : Nat
  next_movement_id : Nat
deriving DecidableEq, Repr

/-- The warnings `import_file` logs per statement or movement. -/
inductive LogEvent
  | statementWithoutIban (name : String)
  | multipleAccountsWithIban (iban : String)
  | existingTransactionInNewStatement (unique_import_id : String)
deriving DecidableEq, Repr

/-- Which counter a processed statement record feeds:
`created` for the CREATE branch (`new_statements`), `updated` for the
UPDATE branch (`updated_statements`), `failed` for a skipped record
(`failed_statements`). -/
inductive Outcome
  | failed
  | created
  | updated
deriving DecidableEq, Repr

/-- Exceptions `import_file` does not catch; they abort the file.
`multipleStatements`/`multipleMovements` model `MultipleObjectsReturned`
from the uncaught `get` calls, `validationError` a `full_clean`
failure. -/
inductive PyExc
  | multipleStatements
  | multipleMovements
  | validationError
deriving DecidableEq, Repr

/-- File disposition after all statement records are processed. -/
inductive Disposition
  | deleteFile
  | keepFile
deriving DecidableEq, Repr

/-- Python `x or d` for an optional string: `None` and the empty string
are falsy and give `d`. -/
def pyOr (v : Option String) (d : String) : String :=
  match v with
  | none => d
  | some s => if s = "" then d else s

/-- Python 2 `max(x, d)` as used for `last_movement`: `None` compares
below every date, so the result is always a date. -/
def pyMax (a : Option Nat) (d : Nat) : Option Nat :=
  some (match a with
        | none => d
        | some x => max x d)

/-- Replace the row with primary key `p` (Django `save()` on a fetched
object). -/
def setRow {α : Type} (t : List (Nat × α)) (p : Nat) (v : α) : List (Nat × α) :=
  t.map (fun q => if q.1 = p then (p, v) else q)

/-- The `Statement` row written by either branch of the statement
upsert: the UPDATE branch overwrites exactly the fields the CREATE
branch sets, so both leave the same row content. -/
def statementRowOf (apk : Nat) (r : StmtRecord) : StatementRow where
  account := apk
  start_date := r.start_date
  end_date := r.end_date
  statement_number := r.name
  balance_start := r.balance_start
  balance_end := r.balance_end
  balance_end_real := r.balance_end_real
  currency_code := r.currency_code
  sequence_number := r.legal_sequence_number

/-- The `Movement` row written by the found-by-import-id branch: all
fields overwritten, reattached to statement `spk`; the falsy text
fields default to `" "` (a single space) in this branch. -/
def updatedMovementRow (spk : Nat) (mv : MvmtRecord) : MovementRow where
  statement := spk
  unique_import_id := mv.unique_import_id
  movement_date := mv.date
  amount := mv.amount
  partner_name := mv.remote_owner
  ref := mv.ref.getD ""
  remote_account := pyOr mv.remote_account ""
  remote_bic := pyOr mv.remote_bank_bic ""
  message := pyOr mv.message " "
  eref := pyOr mv.eref " "
  remote_owner := pyOr mv.remote_owner " "
  remote_owner_address := String.intercalate "\n" mv.remote_owner_address
  remote_owner_city := pyOr mv.remote_owner_city " "
  remote_owner_postalcode := pyOr mv.remote_owner_postalcode " "
  remote_owner_country_code := pyOr mv.remote_owner_country_code " "
  transfer_type := pyOr mv.transfer_type " "
  execution_date := pyOr mv.execution_date " "
  value_date := pyOr mv.value_date " "

/-- The `Movement` row written by the not-found branch: same data, but
the falsy text fields default to `""` (empty) instead of `" "`. -/
def createdMovementRow (spk : Nat) (mv : MvmtRecord) : MovementRow where
  statement := spk
  unique_import_id := mv.unique_import_id
  movement_date := mv.date
  amount := mv.amount
  partner_name := mv.remote_owner
  ref := mv.ref.getD ""
  remote_account := pyOr mv.remote_account ""
  remote_bic := pyOr mv.remote_bank_bic ""
  message := pyOr mv.message ""
  eref := pyOr mv.eref ""
  remote_owner := pyOr mv.remote_owner ""
  remote_owner_address := String.intercalate "\n" mv.remote_owner_address
  remote_owner_city := pyOr mv.remote_owner_city ""
  remote_owner_postalcode := pyOr mv.remote_owner_postalcode ""
  remote_owner_country_code := pyOr mv.remote_owner_country_code ""
  transfer_type := pyOr mv.transfer_type ""
  execution_date := pyOr mv.execution_date ""
  value_date := pyOr mv.value_date ""

/-- `full_clean` of a `b2c.Account`.  Unlike `sepa.Account`, the
`b2c.Account` model declares no `full_clean` override, so only generic
model validation runs: the non-blank `iban` field must be non-empty.
In particular no BIC derivation and no NBAN conversion happens here. -/
def accountFullClean (a : AccountRow) : Except PyExc AccountRow :=
  if a.iban = "" then .error .validationError else .ok a

/-- Process one movement record (`for mvmt in stmt['transactions']`
loop body, dedup part): look up by `unique_import_id`; if found,
warn when the enclosing statement is new, then overwrite and reattach;
if not found, create; if more than one row matches, the uncaught
`get` raises. -/
def processMovement (db : DB) (log : List LogEvent) (spk : Nat)
    (movements_to_update : Bool) (mv : MvmtRecord) :
    Except (PyExc × DB × List LogEvent) (DB × List LogEvent) :=
  match db.movements.filter (fun q => q.2.unique_import_id == mv.unique_import_id) with
  | [] =>
      .ok ({ db with
               movements := db.movements ++ [(db.next_movement_id, createdMovementRow spk mv)],
               next_movement_id := db.next_movement_id + 1 }, log)
  | [(p, _)] =>
      let log' := if movements_to_update then log
                  else log ++ [.existingTransactionInNewStatement mv.unique_import_id]
      .ok ({ db with movements := setRow db.movements p (updatedMovementRow spk mv) }, log')
  | _ :: _ :: _ =>
      let log' := if movements_to_update then log
                  else log ++ [.existingTransactionInNewStatement mv.unique_import_id]
      .error (.multipleMovements, db, log')

/-- Process the transaction list of one statement record, threading the
running `last_movement = max(last_movement, mvmt['date'])`. -/
def processMovements (db : DB) (log : List LogEvent) (spk : Nat)
    (movements_to_update : Bool) (last : Option Nat) :
    List MvmtRecord → Except (PyExc × DB × List LogEvent) (DB × List LogEvent × Option Nat)
  | [] => .ok (db, log, last)
  | mv :: rest =>
    match processMovement db log spk movements_to_update mv with
    | .error e => .error e
    | .ok (db', log') =>
        processMovements db' log' spk movements_to_update (pyMax last mv.date) rest

/-- Tail of the per-statement processing once the Account (`apk`,
snapshot `acct`) and the saved Statement (`spk`, branch flag
`movements_to_update`) are known: process the movements, then update
the account's denormalized `last_movement` if it changed. -/
def importStatementTail (db : DB) (log : List LogEvent) (r : StmtRecord)
    (apk : Nat) (acct : AccountRow) (spk : Nat) (movements_to_update : Bool)
    (outcome : Outcome) :
    Except (PyExc × DB × List LogEvent) (DB × List LogEvent × Outcome) :=
  match processMovements db log spk movements_to_update none r.transactions with
  | .error e => .error e
  | .ok (db', log', last) =>
    if acct.last_movement ≠ last then
      match accountFullClean { acct with last_movement := last } with
      | .error e => .error (e, db', log')
      | .ok row => .ok ({ db' with accounts := setRow db'.accounts apk row }, log', outcome)
    else .ok (db', log', outcome)

/-- Statement-upsert stage: look up by the natural key
(account, statement number); found one row → UPDATE branch (overwrite
all mutable fields in place, `movements_to_update = True`); found none
→ CREATE branch (append a new row, `movements_to_update = False`);
found several → the uncaught `get` raises. -/
def importStatementResolved (db : DB) (log : List LogEvent) (r : StmtRecord)
    (apk : Nat) (acct : AccountRow) :
    Except (PyExc × DB × List LogEvent) (DB × List LogEvent × Outcome) :=
  match db.statements.filter
      (fun q => q.2.statement_number == r.name && q.2.account == apk) with
  | [] =>
      importStatementTail
        { db with
            statements := db.statements ++ [(db.next_statement_id, statementRowOf apk r)],
            next_statement_id := db.next_statement_id + 1 }
        log r apk acct db.next_statement_id false .created
  | [(spk, _)] =>
      importStatementTail
        { db with statements := setRow db.statements spk (statementRowOf apk r) }
        log r apk acct spk true .updated
  | _ :: _ :: _ => .error (.multipleStatements, db, log)

/-- Process one statement record (`for stmt in res` loop body): resolve
the account by IBAN (absent → warn and fail; none found → create,
validate and save a new Account; several found → warn and fail), then
upsert the statement and its movements. -/
def importStatement (db : DB) (log : List LogEvent) (r : StmtRecord) :
    Except (PyExc × DB × List LogEvent) (DB × List LogEvent × Outcome) :=
  match r.account_number with
  | none => .ok (db, log ++ [.statementWithoutIban r.name], .failed)
  | some iban =>
    match db.accounts.filter (fun q => q.2.iban == iban) with
    | [] =>
      match accountFullClean { iban := iban, bic := "", last_movement := none } with
      | .error e => .error (e, db, log)
      | .ok row =>
        importStatementResolved
          { db with accounts := db.accounts ++ [(db.next_account_id, row)],
                    next_account_id := db.next_account_id + 1 }
          log r db.next_account_id row
    | [(apk, row)] => importStatementResolved db log r apk row
    | _ :: _ :: _ => .ok (db, log ++ [.multipleAccountsWithIban iban], .failed)

/-- The per-file loop over statement records, accumulating the three
counters. -/
def importFileLoop (db : DB) (log : List LogEvent) (n u f : Nat) :
    List StmtRecord →
    Except (PyExc × DB × List LogEvent) (DB × List LogEvent × Nat × Nat × Nat)
  | [] => .ok (db, log, n, u, f)
  | r :: rest =>
    match importStatement db log r with
    | .error e => .error e
    | .ok (db', log', .failed) => importFileLoop db' log' n u (f + 1) rest
    | .ok (db', log', .created) => importFileLoop db' log' (n + 1) u f rest
    | .ok (db', log', .updated) => importFileLoop db' log' n (u + 1) f rest

/-- Result of importing one file: final store, log, the three counters
and the file disposition. -/
structure FileResult where
  db : DB
  log : List LogEvent
  new_statements : Nat
  updated_statements : Nat
  failed_statements : Nat
  disposition : Disposition
deriving DecidableEq, Repr

/-- `ImportStatements.import_file` for one parsed file: process every
statement record, then decide the file disposition — any failed
statement keeps the file regardless of the delete flag; otherwise the
flag decides. -/
def import_file (db : DB) (recs : List StmtRecord) (deleteFlag : Bool) :
    Except (PyExc × DB × List LogEvent) FileResult :=
  match importFileLoop db [] 0 0 0 recs with
  | .error e => .error e
  | .ok (db', log, n, u, f) =>
    .ok { db := db', log := log, new_statements := n, updated_statements := u,
          failed_statements := f,
          disposition := if f > 0 then .keepFile
                         else if deleteFlag then .deleteFile
                         else .keepFile }


/-- Python truthiness of an optional string: `None` and `""` are
falsy. -/
def pyTruthy (v : Option String) : Bool :=
  match v with
  | none => false
  | some s => s ≠ ""

/-- The nine optional text fields of a transaction record whose `or`
defaults differ between the movement CREATE branch (`or ""`) and the
movement UPDATE branch (`or " "`) are all truthy; for such records the
two branches write identical rows. -/
def mvTextTruthy (mv : MvmtRecord) : Bool :=
  pyTruthy mv.message && pyTruthy mv.eref && pyTruthy mv.remote_owner &&
  pyTruthy mv.remote_owner_city && pyTruthy mv.remote_owner_postalcode &&
  pyTruthy mv.remote_owner_country_code && pyTruthy mv.transfer_type &&
  pyTruthy mv.execution_date && pyTruthy mv.value_date

/-- Fixture: a transaction record with the given date and import id,
every optional field absent (Python `None`). -/
def mkMv (d : Nat) (id : String) : MvmtRecord :=
  ⟨d, 0, id, none, none, [], none, none, none, none, none, none, none, none, none, none⟩

/-- Fixture: a transaction record with the given date and import id,
every optional field present and non-falsy. -/
def mkMvFull (d : Nat) (id : String) : MvmtRecord :=
  ⟨d, 5, id, some "r", some "own", ["ad1", "ad2"], some "city", some "pc", some "cc",
    some "racct", some "rbic", some "msg", some "eref", some "tt", some "ed", some "vd"⟩

/-- Fixture: a statement record with the given account number, name
and transactions. -/
def mkRec (acc : Option String) (name : String) (trans : List MvmtRecord) : StmtRecord :=
  ⟨acc, name, 20240101, 20240131, 0, 100, 100, "EUR", some 1, trans⟩

/-- Fixture: the empty store. -/
def emptyDB : DB := ⟨[], [], [], 0, 0, 0⟩

def WFTable {α : Type} (t : List (Nat × α)) (next : Nat) : Prop :=
  (∀ q ∈ t, q.1 < next) ∧ (t.map Prod.fst).Nodup

def DB.WF (db : DB) : Prop :=
  WFTable db.accounts db.next_account_id ∧
  WFTable db.statements db.next_statement_id ∧
  WFTable db.movements db.next_movement_id

instance {α : Type} (t : List (Nat × α)) (next : Nat) : Decidable (WFTable t next) := by
  unfold WFTable; infer_instance

instance (db : DB) : Decidable db.WF := by
  unfold DB.WF; infer_instance

/-! Stability of a run: one successful `importStatement` (and hence a
whole `importFileLoop`) preserves each existing row's natural-key
fields, never shrinks a non-empty key-filter, and leaves rows with an
empty iban untouched.  These facts power the reimport analysis. -/

def keyMem {α κ : Type} (key : α → κ) (t t' : List (Nat × α)) : Prop :=
  ∀ p v, (p, v) ∈ t → ∃ w, (p, w) ∈ t' ∧ key w = key v

def filtMem {α : Type} (pr : Nat × α → Bool) (t t' : List (Nat × α)) : Prop :=
  t.filter pr ≠ [] → (t'.filter pr).map Prod.fst = (t.filter pr).map Prod.fst

def accKey (v : AccountRow) : String × String := (v.iban, v.bic)

def stKey (v : StatementRow) : String × Nat := (v.statement_number, v.account)

def accStable (t t' : List (Nat × AccountRow)) : Prop :=
  keyMem accKey t t' ∧
  (∀ i : String, filtMem (fun q => q.2.iban == i) t t') ∧
  (∀ p v, (p, v) ∈ t → v.iban = "" → (p, v) ∈ t')

def stStable (t t' : List (Nat × StatementRow)) : Prop :=
  keyMem stKey t t' ∧
  ∀ n a, filtMem (fun q => q.2.statement_number == n && q.2.account == a) t t'

def mvStable (t t' : List (Nat × MovementRow)) : Prop :=
  keyMem MovementRow.unique_import_id t t' ∧
  ∀ u, filtMem (fun q => q.2.unique_import_id == u) t t'

def DB.Stable (D D' : DB) : Prop :=
  accStable D.accounts D'.accounts ∧ stStable D.statements D'.statements ∧
  mvStable D.movements D'.movements

/-- Coupling invariant of the reimport simulation: `F` is the store
after the first run, `D` the first run's intermediate store at some
step, `E` the second run's store at the same step.  The second run has
the same primary keys as `F` throughout, and each of its rows is either
already at its final (`F`) value or at the first run's intermediate
(`D`) value. -/
def tblCoupled {α : Type} (F D E : List (Nat × α)) : Prop :=
  E.map Prod.fst = F.map Prod.fst ∧ ∀ x ∈ E, x ∈ F ∨ x ∈ D

def DB.Coupled (F D E : DB) : Prop :=
  tblCoupled F.accounts D.accounts E.accounts ∧
  tblCoupled F.statements D.statements E.statements ∧
  tblCoupled F.movements D.movements E.movements ∧
  E.next_account_id = F.next_account_id ∧
  E.next_statement_id = F.next_statement_id ∧
  E.next_movement_id = F.next_movement_id

def C1recFalsy : StmtRecord := mkRec (some "A1") "S1" [mkMv 20240101 "m1"]

def C1recTruthy : StmtRecord := mkRec (some "A1") "S1" [mkMvFull 20240101 "m1"]

def C1res1 : FileResult :=
  ⟨⟨[(0, ⟨"A1", "", some 20240101⟩)],
    [(0, ⟨0, 20240101, 20240131, "S1", 0, 100, 100, "EUR", some 1⟩)],
    [(0, ⟨0, "m1", 20240101, 5, some "own", "r", "racct", "rbic", "msg", "eref",
      "own", "ad1\nad2", "city", "pc", "cc", "tt", "ed", "vd"⟩)],
    1, 1, 1⟩,
   [], 1, 0, 0, .deleteFile⟩

end LinoCosi

deriving instance DecidableEq for Except

namespace LinoCosi

set_option maxRecDepth 8000

/-! Lemmas about the converter on all-digit inputs. -/

lemma pyWs_eq_false_of_isDigit {c : Char} (h : c.isDigit = true) : pyWs c = false := by
  have h1 : c ≠ ' ' := by rintro rfl; exact absurd h (by decide)
  have h2 : c ≠ '\t' := by rintro rfl; exact absurd h (by decide)
  have h3 : c ≠ '\n' := by rintro rfl; exact absurd h (by decide)
  have h4 : c ≠ '\x0d' := by rintro rfl; exact absurd h (by decide)
  have h5 : c ≠ '\x0b' := by rintro rfl; exact absurd h (by decide)
  have h6 : c ≠ '\x0c' := by rintro rfl; exact absurd h (by decide)
  simp [pyWs, h1, h2, h3, h4, h5, h6]

lemma pyStrip_all_digits {l : List Char} (h : l.all Char.isDigit = true) : pyStrip l = l := by
  unfold pyStrip
  have hall := List.all_eq_true.mp h
  have hd : l.dropWhile pyWs = l := by
    cases l with
    | nil => rfl
    | cons a as =>
      rw [List.dropWhile_cons]
      simp [pyWs_eq_false_of_isDigit (hall a (List.mem_cons_self a as))]
  rw [hd]
  have hr : l.reverse.dropWhile pyWs = l.reverse := by
    cases hre : l.reverse with
    | nil => rfl
    | cons a as =>
      rw [List.dropWhile_cons]
      have ha : a ∈ l := by
        rw [← List.mem_reverse, hre]; exact List.mem_cons_self a as
      simp [pyWs_eq_false_of_isDigit (hall a ha)]
  rw [hr, List.reverse_reverse]

lemma pyInt_digits {l : List Char} (hne : l ≠ []) (h : l.all Char.isDigit = true) :
    pyInt l = some ((digitsVal l : Int)) := by
  unfold pyInt
  rw [pyStrip_all_digits h]
  cases l with
  | nil => exact absurd rfl hne
  | cons a as =>
    have ha : a.isDigit = true := List.all_eq_true.mp h a (List.mem_cons_self a as)
    have h1 : a ≠ '+' := by rintro rfl; exact absurd ha (by decide)
    have h2 : a ≠ '-' := by rintro rfl; exact absurd ha (by decide)
    simp only [if_neg h1, if_neg h2, digitsVal?, ne_eq, reduceCtorEq, not_false_eq_true,
      true_and]
    rw [if_pos (by simpa using h)]
    rfl

lemma isDigit_toNat_bounds {c : Char} (h : c.isDigit = true) :
    48 ≤ c.toNat ∧ c.toNat ≤ 57 := by
  simp only [Char.isDigit, Bool.and_eq_true, decide_eq_true_eq] at h
  unfold Char.toNat
  exact ⟨h.1, h.2⟩

lemma char_toNat_inj {a b : Char} (h : a.toNat = b.toNat) : a = b :=
  Char.ext (UInt32.toNat.inj h)

lemma digitsVal_pair (a b : Char) :
    digitsVal [a, b] = 10 * (a.toNat - 48) + (b.toNat - 48) := by
  simp [digitsVal, List.foldl]

lemma digitsVal_pair_eq_97 {a b : Char} (ha : a.isDigit = true) (hb : b.isDigit = true) :
    digitsVal [a, b] = 97 ↔ ([a, b] = ['9', '7']) := by
  constructor
  · intro h
    rw [digitsVal_pair] at h
    obtain ⟨ha1, ha2⟩ := isDigit_toNat_bounds ha
    obtain ⟨hb1, hb2⟩ := isDigit_toNat_bounds hb
    have h9 : a = '9' := char_toNat_inj (show a.toNat = 57 by omega)
    have h7 : b = '7' := char_toNat_inj (show b.toNat = 55 by omega)
    rw [h9, h7]
  · rintro h
    injection h with h1 h2
    injection h2 with h2 _
    rw [h1, h2]
    rfl

lemma be2ibanFinish_digits {l : List Char} (hdig : l.all Char.isDigit = true) :
    be2ibanFinish l =
      .ok ("BE".toList ++
        pyFmt02d (98 - (digitsVal (l ++ "1114".toList ++ "00".toList) : Int) % 97) ++ l) := by
  simp only [be2ibanFinish]
  have hne : l ++ "1114".toList ++ "00".toList ≠ [] := by simp
  have hall : (l ++ "1114".toList ++ "00".toList).all Char.isDigit = true := by
    simp only [List.all_append, Bool.and_eq_true]
    exact ⟨⟨hdig, by decide⟩, by decide⟩
  rw [pyInt_digits hne hall]

lemma be2iban_digits {l : List Char} (hlen : l.length = 12)
    (hdig : l.all Char.isDigit = true) :
    be2iban l =
      if (digitsVal (l.take 10) : Int) % 97 = 0 then
        (if l.drop 10 ≠ ['9', '7'] then .error (.checksumMismatch 97 (l.drop 10))
         else be2ibanFinish l)
      else
        (if (digitsVal (l.drop 10) : Int) ≠ (digitsVal (l.take 10) : Int) % 97 then
           .error (.checksumMismatch ((digitsVal (l.take 10) : Int) % 97) (l.drop 10))
         else be2ibanFinish l) := by
  have hall := List.all_eq_true.mp hdig
  have hf1 : l.filter (fun c => (decide (c ≠ ' '))) = l := by
    rw [List.filter_eq_self]
    intro a ha
    simp only [decide_eq_true_eq, ne_eq]
    rintro rfl
    exact absurd (hall ' ' ha) (by decide)
  have hf2 : l.filter (fun c => (decide (c ≠ '-'))) = l := by
    rw [List.filter_eq_self]
    intro a ha
    simp only [decide_eq_true_eq, ne_eq]
    rintro rfl
    exact absurd (hall '-' ha) (by decide)
  have htake : pyInt (l.take 10) = some ((digitsVal (l.take 10) : Int)) := by
    apply pyInt_digits
    · have : (l.take 10).length = 10 := by rw [List.length_take, hlen]; decide
      intro hnil; rw [hnil] at this; simp at this
    · exact List.all_eq_true.mpr (fun a ha => hall a (List.take_subset _ _ ha))
  have hdrop : pyInt (l.drop 10) = some ((digitsVal (l.drop 10) : Int)) := by
    apply pyInt_digits
    · have : (l.drop 10).length = 2 := by rw [List.length_drop, hlen]
      intro hnil; rw [hnil] at this; simp at this
    · exact List.all_eq_true.mpr (fun a ha => hall a (List.drop_subset _ _ ha))
  unfold be2iban
  simp only [hf1, hf2, hlen, htake, hdrop]
  norm_num

/-- C2: for every normalized 12-digit national account number, deriving
the international identifier fails exactly when the checksum
mismatches — with `m` the first ten digits modulo 97, the expected end
value is `m`, or the sentinel 97 when `m = 0`; on mismatch the raised
error carries the expected value and the two characters found, and on
match the derivation succeeds. -/
theorem C2_checksum_iff (l : List Char) (hlen : l.length = 12)
    (hdig : l.all Char.isDigit = true) :
    ((digitsVal (l.drop 10) : Int) ≠
        (if (digitsVal (l.take 10) : Int) % 97 = 0 then 97
         else (digitsVal (l.take 10) : Int) % 97) →
      be2iban l = .error (.checksumMismatch
        (if (digitsVal (l.take 10) : Int) % 97 = 0 then 97
         else (digitsVal (l.take 10) : Int) % 97) (l.drop 10))) ∧
    ((digitsVal (l.drop 10) : Int) =
        (if (digitsVal (l.take 10) : Int) % 97 = 0 then 97
         else (digitsVal (l.take 10) : Int) % 97) →
      ∃ iban, be2iban l = .ok iban) ∧
    ((∃ e, be2iban l = .error e) ↔
      (digitsVal (l.drop 10) : Int) ≠
        (if (digitsVal (l.take 10) : Int) % 97 = 0 then 97
         else (digitsVal (l.take 10) : Int) % 97)) := by
  obtain ⟨c1, c2, hpair⟩ : ∃ a b, l.drop 10 = [a, b] :=
    List.length_eq_two.mp (by rw [List.length_drop, hlen])
  have hall := List.all_eq_true.mp hdig
  have hc1 : c1.isDigit = true :=
    hall c1 (List.drop_subset 10 l (by rw [hpair]; exact List.mem_cons_self _ _))
  have hc2 : c2.isDigit = true :=
    hall c2 (List.drop_subset 10 l (by rw [hpair]; simp))
  rw [be2iban_digits hlen hdig]
  by_cases hm : (digitsVal (l.take 10) : Int) % 97 = 0
  · simp only [if_pos hm]
    by_cases hfound : digitsVal (l.drop 10) = 97
    · have hdropeq : l.drop 10 = ['9', '7'] := by
        rw [hpair]
        exact (digitsVal_pair_eq_97 hc1 hc2).mp (by rw [← hpair]; exact hfound)
      have hcast : (digitsVal (l.drop 10) : Int) = 97 := by exact_mod_cast hfound
      rw [if_neg (by rw [hdropeq]; simp)]
      refine ⟨fun h => absurd hcast h, fun _ => ⟨_, be2ibanFinish_digits hdig⟩, ?_⟩
      rw [be2ibanFinish_digits hdig]
      constructor
      · rintro ⟨e, he⟩; exact absurd he (by simp)
      · intro h; exact absurd hcast h
    · have hdropne : l.drop 10 ≠ ['9', '7'] := by
        rw [hpair]
        intro h
        exact hfound (by rw [hpair]; exact (digitsVal_pair_eq_97 hc1 hc2).mpr h)
      have hcast : (digitsVal (l.drop 10) : Int) ≠ 97 := by exact_mod_cast hfound
      rw [if_pos hdropne]
      exact ⟨fun _ => rfl, fun h => absurd h hcast, fun _ => hcast, fun _ => ⟨_, rfl⟩⟩
  · simp only [if_neg hm]
    by_cases hfound : (digitsVal (l.drop 10) : Int) = (digitsVal (l.take 10) : Int) % 97
    · rw [if_neg (by simpa using hfound)]
      refine ⟨fun h => absurd hfound h, fun _ => ⟨_, be2ibanFinish_digits hdig⟩, ?_⟩
      rw [be2ibanFinish_digits hdig]
      constructor
      · rintro ⟨e, he⟩; exact absurd he (by simp)
      · intro h; exact absurd hfound h
    · rw [if_pos (by simpa using hfound)]
      exact ⟨fun _ => rfl, fun h => absurd h hfound, fun _ => hfound, fun _ => ⟨_, rfl⟩⟩

/-- Witness for C2 at the doctest input `"001-1148294-83"`: the
expected remainder is 84, the number ends in 83, and the raised error
names both. -/
theorem C2_checksum_iff_witness :
    be2iban "001114829483".toList = .error (.checksumMismatch 84 "83".toList) := by
  have h := (C2_checksum_iff "001114829483".toList (by decide) (by decide)).1 (by decide)
  rw [h]
  decide

/-- C3: for every valid Belgian NBAN the converter deterministically
returns `"BE"`, then `98 - (digits ++ "1114" ++ "00") mod 97` rendered
as two zero-padded digits, then the original 12 digits; and the three
concrete conversions of the spec hold, including the derived routing
codes. -/
theorem C3_iban_construction :
    (∀ l : List Char, l.length = 12 → l.all Char.isDigit = true →
      (digitsVal (l.drop 10) : Int) =
        (if (digitsVal (l.take 10) : Int) % 97 = 0 then 97
         else (digitsVal (l.take 10) : Int) % 97) →
      be2iban l = .ok ("BE".toList ++
        pyFmt02d (98 - (digitsVal (l ++ "1114".toList ++ "00".toList) : Int) % 97) ++ l)) ∧
    belgian_nban_to_iban_bic "340-1549215-66".toList =
      .ok ("BE07340154921566".toList, some "BBRUBEBB") ∧
    belgian_nban_to_iban_bic "001-6012719-56".toList =
      .ok ("BE20001601271956".toList, some "GEBABEBB") ∧
    belgian_nban_to_iban_bic "063-4975581-01".toList =
      .ok ("BE43063497558101".toList, some "GKCCBEBB") := by
  refine ⟨?_, by decide, by decide, by decide⟩
  intro l hlen hdig hsum
  obtain ⟨c1, c2, hpair⟩ : ∃ a b, l.drop 10 = [a, b] :=
    List.length_eq_two.mp (by rw [List.length_drop, hlen])
  have hall := List.all_eq_true.mp hdig
  have hc1 : c1.isDigit = true :=
    hall c1 (List.drop_subset 10 l (by rw [hpair]; exact List.mem_cons_self _ _))
  have hc2 : c2.isDigit = true :=
    hall c2 (List.drop_subset 10 l (by rw [hpair]; simp))
  rw [be2iban_digits hlen hdig]
  by_cases hm : (digitsVal (l.take 10) : Int) % 97 = 0
  · rw [if_pos hm]
    rw [if_pos hm] at hsum
    have hfound : digitsVal (l.drop 10) = 97 := by exact_mod_cast hsum
    have hdropeq : l.drop 10 = ['9', '7'] := by
      rw [hpair]
      exact (digitsVal_pair_eq_97 hc1 hc2).mp (by rw [← hpair]; exact hfound)
    rw [if_neg (by rw [hdropeq]; simp)]
    exact be2ibanFinish_digits hdig
  · rw [if_neg hm]
    rw [if_neg hm] at hsum
    rw [if_neg (by simpa using hsum)]
    exact be2ibanFinish_digits hdig

/-- Witness for C3 at the normalized digits of `"340-1549215-66"`. -/
theorem C3_iban_construction_witness :
    be2iban "340154921566".toList =
      .ok ("BE".toList ++
        pyFmt02d (98 -
          (digitsVal ("340154921566".toList ++ "1114".toList ++ "00".toList) : Int) % 97) ++
        "340154921566".toList) :=
  C3_iban_construction.1 _ (by decide) (by decide) (by decide)

/-- C4 fails as stated: the 12-character input `"1234567890AB"`
contains non-digit characters, and `be2iban` raises the unclassified
`ValueError` from `int()` on it — not the `MalformedAccountNumber`
length validation error. -/
theorem C4_counterexample :
    be2iban "1234567890AB".toList = .error .valueError ∧
    BeError.valueError ≠ BeError.lengthError :=
  ⟨by decide, by decide⟩

/-- C4 (amended): normalization removes space and hyphen characters,
and the `MalformedAccountNumber` validation error is raised exactly
when the stripped string is not 12 characters long; a 12-character
input containing non-digit characters instead fails with the
unclassified `ValueError` raised by integer parsing. -/
theorem C4_length_validation (l : List Char) :
    (be2iban l = .error .lengthError ↔
      ((l.filter (fun c => decide (c ≠ ' '))).filter (fun c => decide (c ≠ '-'))).length ≠ 12) ∧
    be2iban "1234567890AB".toList = .error .valueError := by
  refine ⟨⟨?_, ?_⟩, by decide⟩
  · intro herr
    by_contra hlen
    simp only [be2iban] at herr
    rw [if_neg (not_not_intro hlen)] at herr
    split at herr
    · simp at herr
    · split at herr
      · split at herr
        · simp at herr
        · simp only [be2ibanFinish] at herr
          split at herr
          · simp at herr
          · simp at herr
      · split at herr
        · simp at herr
        · split at herr
          · simp at herr
          · simp only [be2ibanFinish] at herr
            split at herr
            · simp at herr
            · simp at herr
  · intro h
    simp only [be2iban]
    rw [if_pos h]

/-- Witness for C4 at a 3-character input, which the length validation
rejects. -/
theorem C4_length_validation_witness :
    be2iban "123".toList = .error .lengthError :=
  (C4_length_validation "123".toList).1.mpr (by decide)

end LinoCosi
namespace LinoCosi

/-! Store well-formedness and generic keyed-table lemmas. -/

lemma setRow_map_fst {α : Type} (t : List (Nat × α)) (k : Nat) (v : α) :
    (setRow t k v).map Prod.fst = t.map Prod.fst := by
  unfold setRow
  rw [List.map_map]
  apply List.map_congr_left
  intro q _
  by_cases h : q.1 = k
  · simp [h]
  · simp [h]

lemma length_setRow {α : Type} (t : List (Nat × α)) (k : Nat) (v : α) :
    (setRow t k v).length = t.length := by
  unfold setRow; rw [List.length_map]

lemma WFTable_setRow {α : Type} {t : List (Nat × α)} {next : Nat}
    (h : WFTable t next) (k : Nat) (v : α) (hk : k < next) :
    WFTable (setRow t k v) next := by
  obtain ⟨hb, hn⟩ := h
  constructor
  · intro q hq
    unfold setRow at hq
    obtain ⟨w, hw, hweq⟩ := List.mem_map.mp hq
    by_cases he : w.1 = k
    · rw [if_pos he] at hweq; rw [← hweq]; exact hk
    · rw [if_neg he] at hweq; rw [← hweq]; exact hb w hw
  · rw [setRow_map_fst]; exact hn

lemma WFTable_append {α : Type} {t : List (Nat × α)} {next : Nat}
    (h : WFTable t next) (v : α) :
    WFTable (t ++ [(next, v)]) (next + 1) := by
  obtain ⟨hb, hn⟩ := h
  constructor
  · intro q hq
    rcases List.mem_append.mp hq with hq | hq
    · exact Nat.lt_succ_of_lt (hb q hq)
    · simp at hq; rw [hq]; exact Nat.lt_succ_self next
  · rw [List.map_append]
    simp only [List.map_cons, List.map_nil]
    rw [List.nodup_append]
    refine ⟨hn, List.nodup_singleton next, ?_⟩
    intro a ha hb'
    simp at hb'
    subst hb'
    obtain ⟨q, hq, hqe⟩ := List.mem_map.mp ha
    exact absurd (hb q hq) (by omega)

lemma WFTable_mono {α : Type} {t : List (Nat × α)} {next next' : Nat}
    (h : WFTable t next) (hle : next ≤ next') : WFTable t next' :=
  ⟨fun q hq => Nat.lt_of_lt_of_le (h.1 q hq) hle, h.2⟩

lemma setRow_eq_self {α : Type} {t : List (Nat × α)} {k : Nat} {v : α}
    (h : ∀ q ∈ t, q.1 ≠ k) : setRow t k v = t := by
  induction t with
  | nil => rfl
  | cons x xs ih =>
    unfold setRow at ih ⊢
    rw [List.map_cons, if_neg (h x (List.mem_cons_self _ _)),
      ih (fun q hq => h q (List.mem_cons_of_mem _ hq))]

lemma filter_setRow_single {α : Type} {t : List (Nat × α)} {p : Nat × α → Bool}
    {k : Nat} {w : α}
    (hnodup : (t.map Prod.fst).Nodup) (hf : t.filter p = [(k, w)]) (v : α)
    (hpv : p (k, v) = true) :
    (setRow t k v).filter p = [(k, v)] := by
  induction t with
  | nil => simp at hf
  | cons x xs ih =>
    obtain ⟨xk, xv⟩ := x
    rw [List.map_cons, List.nodup_cons] at hnodup
    obtain ⟨hx, hxs⟩ := hnodup
    rw [List.filter_cons] at hf
    by_cases hxk : xk = k
    · have hxs_nok : ∀ q ∈ xs, q.1 ≠ k := by
        intro q hq he
        apply hx
        rw [hxk]
        exact he ▸ List.mem_map.mpr ⟨q, hq, rfl⟩
      unfold setRow
      rw [List.map_cons, if_pos (show (Prod.mk xk xv).1 = k from hxk)]
      have hsr : List.map (fun q => if q.1 = k then (k, v) else q) xs = xs :=
        setRow_eq_self hxs_nok
      rw [hsr, List.filter_cons, if_pos hpv]
      by_cases hpx : p (xk, xv) = true
      · rw [if_pos hpx] at hf
        injection hf with hf1 hf2
        rw [hf2]
      · rw [if_neg hpx] at hf
        have hmem : (k, w) ∈ xs := by
          have : (k, w) ∈ xs.filter p := by rw [hf]; exact List.mem_cons_self _ _
          exact List.mem_of_mem_filter this
        have hk : k ∈ List.map Prod.fst xs := List.mem_map.mpr ⟨(k, w), hmem, rfl⟩
        rw [← hxk] at hk
        exact absurd hk hx
    · unfold setRow
      rw [List.map_cons, if_neg hxk]
      by_cases hpx : p (xk, xv) = true
      · rw [if_pos hpx] at hf
        injection hf with hf1 hf2
        exact absurd (congrArg Prod.fst hf1) hxk
      · rw [if_neg hpx] at hf
        rw [List.filter_cons, if_neg hpx]
        exact ih hxs hf

lemma filter_setRow_unmatched {α : Type} {t : List (Nat × α)} {p : Nat × α → Bool}
    {k : Nat} {v : α}
    (hold : ∀ w, (k, w) ∈ t → p (k, w) = false) (hpv : p (k, v) = false) :
    (setRow t k v).filter p = t.filter p := by
  induction t with
  | nil => rfl
  | cons x xs ih =>
    obtain ⟨xk, xv⟩ := x
    have ihx := ih (fun w hw => hold w (List.mem_cons_of_mem _ hw))
    unfold setRow at ihx ⊢
    rw [List.map_cons]
    by_cases hxk : xk = k
    · subst hxk
      rw [if_pos rfl]
      rw [List.filter_cons, List.filter_cons, if_neg (by rw [hpv]; simp),
        if_neg (by rw [hold xv (List.mem_cons_self _ _)]; simp)]
      exact ihx
    · rw [if_neg hxk, List.filter_cons, List.filter_cons]
      by_cases hpx : p (xk, xv) = true
      · rw [if_pos hpx, if_pos hpx, ihx]
      · rw [if_neg hpx, if_neg hpx, ihx]

lemma filter_and_eq_nil {α : Type} {t : List (Nat × α)} {a b : Nat × α → Bool}
    (h : t.filter a = []) : t.filter (fun q => a q && b q) = [] := by
  rw [List.filter_eq_nil_iff] at h ⊢
  intro q hq
  simp only [Bool.and_eq_true, not_and]
  intro ha
  exact absurd ha (h q hq)

/-! Inversion lemmas for the reconciliation engine, used to peel a
successful `importStatement` run into its stages. -/

lemma processMovement_ok {db : DB} {log : List LogEvent} {spk : Nat} {mtu : Bool}
    {mv : MvmtRecord} {db' : DB} {log' : List LogEvent}
    (h : processMovement db log spk mtu mv = .ok (db', log')) :
    db'.accounts = db.accounts ∧ db'.statements = db.statements ∧
    db'.next_account_id = db.next_account_id ∧
    db'.next_statement_id = db.next_statement_id ∧
    db.next_movement_id ≤ db'.next_movement_id ∧
    (WFTable db.movements db.next_movement_id →
      WFTable db'.movements db'.next_movement_id) := by
  unfold processMovement at h
  split at h
  · simp only [Except.ok.injEq, Prod.mk.injEq] at h
    obtain ⟨h1, h2⟩ := h
    subst h1
    refine ⟨rfl, rfl, rfl, rfl, by simp, fun hWF => ?_⟩
    exact WFTable_append hWF _
  · simp only [Except.ok.injEq, Prod.mk.injEq] at h
    obtain ⟨h1, h2⟩ := h
    subst h1
    rename_i p w heq
    refine ⟨rfl, rfl, rfl, rfl, le_refl _, fun hWF => ?_⟩
    have hmem : (p, w) ∈ db.movements :=
      List.mem_of_mem_filter (by rw [heq]; exact List.mem_cons_self _ _)
    exact WFTable_setRow hWF p _ (hWF.1 _ hmem)
  · exact absurd h (by simp)

lemma processMovements_ok {spk : Nat} {mtu : Bool} (mvs : List MvmtRecord) :
    ∀ {db : DB} {log : List LogEvent} {last : Option Nat}
      {db' : DB} {log' : List LogEvent} {last' : Option Nat},
    processMovements db log spk mtu last mvs = .ok (db', log', last') →
    db'.accounts = db.accounts ∧ db'.statements = db.statements ∧
    db'.next_account_id = db.next_account_id ∧
    db'.next_statement_id = db.next_statement_id ∧
    db.next_movement_id ≤ db'.next_movement_id ∧
    last' = mvs.foldl (fun a mv => pyMax a mv.date) last ∧
    (WFTable db.movements db.next_movement_id →
      WFTable db'.movements db'.next_movement_id) := by
  induction mvs with
  | nil =>
    intro db log last db' log' last' h
    simp only [processMovements, Except.ok.injEq, Prod.mk.injEq] at h
    obtain ⟨h1, h2, h3⟩ := h
    subst h1; subst h3
    exact ⟨rfl, rfl, rfl, rfl, le_refl _, rfl, fun hWF => hWF⟩
  | cons mv rest ih =>
    intro db log last db' log' last' h
    simp only [processMovements] at h
    cases hpm : processMovement db log spk mtu mv with
    | error e => rw [hpm] at h; exact absurd h (by simp)
    | ok pr =>
      obtain ⟨db1, log1⟩ := pr
      rw [hpm] at h
      obtain ⟨ha, hs, hna, hns, hnm, hWF1⟩ := processMovement_ok hpm
      obtain ⟨ha2, hs2, hna2, hns2, hnm2, hlast, hWF2⟩ := ih h
      refine ⟨ha2.trans ha, hs2.trans hs, hna2.trans hna, hns2.trans hns,
        le_trans hnm hnm2, ?_, ?_⟩
      · rw [hlast]; rfl
      · intro hWF
        exact hWF2 (hWF1 hWF)

lemma importStatementTail_ok {db : DB} {log : List LogEvent} {r : StmtRecord}
    {apk : Nat} {acct : AccountRow} {spk : Nat} {mtu : Bool} {out : Outcome}
    {db' : DB} {log' : List LogEvent} {out' : Outcome}
    (h : importStatementTail db log r apk acct spk mtu out = .ok (db', log', out')) :
    out' = out ∧
    ∃ dbm logm last,
      processMovements db log spk mtu none r.transactions = .ok (dbm, logm, last) ∧
      log' = logm ∧
      last = r.transactions.foldl (fun a mv => pyMax a mv.date) none ∧
      ((acct.last_movement ≠ last ∧ acct.iban ≠ "" ∧
        db' = { dbm with accounts := setRow dbm.accounts apk { acct with last_movement := last } }) ∨
       (acct.last_movement = last ∧ db' = dbm)) := by
  unfold importStatementTail at h
  split at h
  · exact absurd h (by simp)
  · rename_i pr dbm logm last heq
    obtain ⟨-, -, -, -, -, hlast, -⟩ := processMovements_ok r.transactions heq
    by_cases hne : acct.last_movement ≠ last
    · rw [if_pos hne] at h
      unfold accountFullClean at h
      by_cases hib : acct.iban = ""
      · rw [if_pos (show ({ acct with last_movement := last } : AccountRow).iban = ""
          from hib)] at h
        exact absurd h (by simp)
      · rw [if_neg (show ¬({ acct with last_movement := last } : AccountRow).iban = ""
          from hib)] at h
        simp only [Except.ok.injEq, Prod.mk.injEq] at h
        obtain ⟨h1, h2, h3⟩ := h
        exact ⟨h3.symm, dbm, logm, last, heq, h2.symm, hlast,
          Or.inl ⟨hne, hib, h1.symm⟩⟩
    · rw [if_neg hne] at h
      simp only [Except.ok.injEq, Prod.mk.injEq] at h
      obtain ⟨h1, h2, h3⟩ := h
      exact ⟨h3.symm, dbm, logm, last, heq, h2.symm, hlast,
        Or.inr ⟨not_not.mp hne, h1.symm⟩⟩

lemma importStatementResolved_ok {db : DB} {log : List LogEvent} {r : StmtRecord}
    {apk : Nat} {acct : AccountRow} {db' : DB} {log' : List LogEvent} {out' : Outcome}
    (h : importStatementResolved db log r apk acct = .ok (db', log', out')) :
    ∃ spk mtu dbS,
      importStatementTail dbS log r apk acct spk mtu out' = .ok (db', log', out') ∧
      ((db.statements.filter
          (fun q => q.2.statement_number == r.name && q.2.account == apk) = [] ∧
        spk = db.next_statement_id ∧ mtu = false ∧ out' = .created ∧
        dbS = { db with statements := db.statements ++ [(spk, statementRowOf apk r)], next_statement_id := db.next_statement_id + 1 }) ∨
       (∃ w, db.statements.filter
          (fun q => q.2.statement_number == r.name && q.2.account == apk) = [(spk, w)] ∧
        mtu = true ∧ out' = .updated ∧
        dbS = { db with statements := setRow db.statements spk (statementRowOf apk r) })) := by
  unfold importStatementResolved at h
  split at h
  · rename_i heq
    have hout := (importStatementTail_ok h).1
    refine ⟨db.next_statement_id, false, _, ?_, Or.inl ⟨heq, rfl, rfl, hout, rfl⟩⟩
    rw [hout] at h ⊢
    exact h
  · rename_i pr spk w heq
    have hout := (importStatementTail_ok h).1
    refine ⟨spk, true, _, ?_, Or.inr ⟨w, heq, rfl, hout, rfl⟩⟩
    rw [hout] at h ⊢
    exact h
  · exact absurd h (by simp)

lemma importStatement_ok {db : DB} {log : List LogEvent} {r : StmtRecord}
    {db' : DB} {log' : List LogEvent} {out : Outcome}
    (h : importStatement db log r = .ok (db', log', out)) (hout : out ≠ .failed) :
    ∃ i apk acct dbA,
      r.account_number = some i ∧
      importStatementResolved dbA log r apk acct = .ok (db', log', out) ∧
      ((db.accounts.filter (fun q => q.2.iban == i) = [] ∧ i ≠ "" ∧
        apk = db.next_account_id ∧ acct = ⟨i, "", none⟩ ∧
        dbA = { db with accounts := db.accounts ++ [(apk, acct)], next_account_id := db.next_account_id + 1 }) ∨
       (db.accounts.filter (fun q => q.2.iban == i) = [(apk, acct)] ∧ dbA = db)) := by
  unfold importStatement at h
  split at h
  · simp only [Except.ok.injEq, Prod.mk.injEq] at h
    exact absurd h.2.2.symm hout
  · rename_i i hacc
    split at h
    · rename_i hfil
      unfold accountFullClean at h
      by_cases hib : i = ""
      · rw [if_pos (show ({ iban := i, bic := "", last_movement := none } :
          AccountRow).iban = "" from hib)] at h
        exact absurd h (by simp)
      · rw [if_neg (show ¬({ iban := i, bic := "", last_movement := none } :
          AccountRow).iban = "" from hib)] at h
        exact ⟨i, db.next_account_id, ⟨i, "", none⟩, _, hacc, h,
          Or.inl ⟨hfil, hib, rfl, rfl, rfl⟩⟩
    · rename_i pr apk row hfil
      exact ⟨i, apk, row, db, hacc, h, Or.inr ⟨hfil, rfl⟩⟩
    · simp only [Except.ok.injEq, Prod.mk.injEq] at h
      exact absurd h.2.2.symm hout

lemma importStatement_noIban {db : DB} {log : List LogEvent} {r : StmtRecord}
    (h : r.account_number = none) :
    importStatement db log r = .ok (db, log ++ [.statementWithoutIban r.name], .failed) := by
  unfold importStatement
  rw [h]

lemma importStatement_multiAccount {db : DB} {log : List LogEvent} {r : StmtRecord}
    {i : String} {x y : Nat × AccountRow} {rest : List (Nat × AccountRow)}
    (hi : r.account_number = some i)
    (hf : db.accounts.filter (fun q => q.2.iban == i) = x :: y :: rest) :
    importStatement db log r = .ok (db, log ++ [.multipleAccountsWithIban i], .failed) := by
  unfold importStatement
  rw [hi]
  simp only [hf]

lemma importStatement_failed {db : DB} {log : List LogEvent} {r : StmtRecord}
    {db' : DB} {log' : List LogEvent}
    (h : importStatement db log r = .ok (db', log', .failed)) :
    db' = db ∧ ∃ w, log' = log ++ [w] := by
  unfold importStatement at h
  split at h
  · simp only [Except.ok.injEq, Prod.mk.injEq] at h
    exact ⟨h.1.symm, _, h.2.1.symm⟩
  · rename_i i hacc
    split at h
    · rename_i hfil
      unfold accountFullClean at h
      by_cases hib : i = ""
      · rw [if_pos (show ({ iban := i, bic := "", last_movement := none } :
          AccountRow).iban = "" from hib)] at h
        exact absurd h (by simp)
      · rw [if_neg (show ¬({ iban := i, bic := "", last_movement := none } :
          AccountRow).iban = "" from hib)] at h
        obtain ⟨spk, mtu, dbS, htail, hcase⟩ := importStatementResolved_ok h
        rcases hcase with ⟨h1, h2, h3, hcr, h5⟩ | ⟨w, h2, h3, hcr, h5⟩ <;> exact absurd hcr (by simp)
    · rename_i pr apk row hfil
      obtain ⟨spk, mtu, dbS, htail, hcase⟩ := importStatementResolved_ok h
      rcases hcase with ⟨h1, h2, h3, hcr, h5⟩ | ⟨w, h2, h3, hcr, h5⟩ <;> exact absurd hcr (by simp)
    · simp only [Except.ok.injEq, Prod.mk.injEq] at h
      exact ⟨h.1.symm, _, h.2.1.symm⟩

lemma importStatement_WF {db : DB} {log : List LogEvent} {r : StmtRecord}
    {db' : DB} {log' : List LogEvent} {out : Outcome}
    (hWF : db.WF) (h : importStatement db log r = .ok (db', log', out)) :
    db'.WF ∧ db.next_account_id ≤ db'.next_account_id ∧
    db.next_statement_id ≤ db'.next_statement_id ∧
    db.next_movement_id ≤ db'.next_movement_id := by
  by_cases hout : out = .failed
  · subst hout
    obtain ⟨hdb, -⟩ := importStatement_failed h
    subst hdb
    exact ⟨hWF, le_refl _, le_refl _, le_refl _⟩
  · obtain ⟨i, apk, acct, dbA, hacc, hres, hcase⟩ := importStatement_ok h hout
    obtain ⟨hWFA, hapk, hidA, hidAs, hidAm⟩ :
        dbA.WF ∧ apk < dbA.next_account_id ∧
        db.next_account_id ≤ dbA.next_account_id ∧
        dbA.next_statement_id = db.next_statement_id ∧
        dbA.next_movement_id = db.next_movement_id := by
      rcases hcase with ⟨hfil, hib, hapkeq, haccteq, hdbA⟩ | ⟨hfil, hdbA⟩
      · rw [hdbA, hapkeq]
        exact ⟨⟨WFTable_append hWF.1 _, hWF.2.1, hWF.2.2⟩, Nat.lt_succ_self _,
          Nat.le_succ _, rfl, rfl⟩
      · have hmem : (apk, acct) ∈ db.accounts :=
          List.mem_of_mem_filter (by rw [hfil]; exact List.mem_cons_self _ _)
        rw [hdbA]
        exact ⟨hWF, hWF.1.1 _ hmem, le_refl _, rfl, rfl⟩
    obtain ⟨spk, mtu, dbS, htail, hcase2⟩ := importStatementResolved_ok hres
    obtain ⟨hWFS, hspk, hidS, hidSa, hidSm⟩ :
        dbS.WF ∧ spk < dbS.next_statement_id ∧
        dbA.next_statement_id ≤ dbS.next_statement_id ∧
        dbS.next_account_id = dbA.next_account_id ∧
        dbS.next_movement_id = dbA.next_movement_id := by
      rcases hcase2 with ⟨hfil, hspkeq, hmtueq, houteq, hdbS⟩ | ⟨w, hfil, hmtueq, houteq, hdbS⟩
      · rw [hdbS, hspkeq]
        exact ⟨⟨hWFA.1, WFTable_append hWFA.2.1 _, hWFA.2.2⟩, Nat.lt_succ_self _,
          Nat.le_succ _, rfl, rfl⟩
      · have hmem : (spk, w) ∈ dbA.statements :=
          List.mem_of_mem_filter (by rw [hfil]; exact List.mem_cons_self _ _)
        rw [hdbS]
        exact ⟨⟨hWFA.1, WFTable_setRow hWFA.2.1 spk _ (hWFA.2.1.1 _ hmem), hWFA.2.2⟩,
          hWFA.2.1.1 _ hmem, le_refl _, rfl, rfl⟩
    obtain ⟨-, dbm, logm, last, hpm, hlogm, hlast, hfin⟩ := importStatementTail_ok htail
    obtain ⟨hma, hms, hmna, hmns, hmnm, -, hmWF⟩ := processMovements_ok r.transactions hpm
    have hWFm : dbm.WF := by
      refine ⟨?_, ?_, hmWF hWFS.2.2⟩
      · rw [hma, hmna]; exact hWFS.1
      · rw [hms, hmns]; exact hWFS.2.1
    have hapkm : apk < dbm.next_account_id := by omega
    rcases hfin with ⟨hne, hib2, hdb'⟩ | ⟨heq2, hdb'⟩
    · rw [hdb']
      refine ⟨⟨WFTable_setRow hWFm.1 apk _ hapkm, hWFm.2.1, hWFm.2.2⟩, ?_, ?_, ?_⟩
      · show db.next_account_id ≤ dbm.next_account_id
        omega
      · show db.next_statement_id ≤ dbm.next_statement_id
        omega
      · show db.next_movement_id ≤ dbm.next_movement_id
        omega
    · rw [hdb']
      exact ⟨hWFm, by omega, by omega, by omega⟩

lemma importStatement_account {db : DB} {log : List LogEvent} {r : StmtRecord}
    {db' : DB} {log' : List LogEvent} {out : Outcome} {i : String}
    (hWF : db.WF)
    (h : importStatement db log r = .ok (db', log', out)) (hout : out ≠ .failed)
    (hi : r.account_number = some i) :
    ∃ apk bic,
      db'.accounts.filter (fun q => q.2.iban == i) =
        [(apk, ⟨i, bic, r.transactions.foldl (fun a mv => pyMax a mv.date) none⟩)] ∧
      (db.accounts.filter (fun q => q.2.iban == i) = [] →
        apk = db.next_account_id ∧ bic = "") ∧
      (∀ w, db.accounts.filter (fun q => q.2.iban == i) = [w] →
        w.1 = apk ∧ w.2.bic = bic) := by
  obtain ⟨i2, apk, acct, dbA, hacc, hres, hcase⟩ := importStatement_ok h hout
  rw [hi] at hacc
  injection hacc with hi2
  subst hi2
  have hAfil : dbA.accounts.filter (fun q => q.2.iban == i) = [(apk, acct)] ∧
      (dbA.accounts.map Prod.fst).Nodup ∧ acct.iban = i := by
    rcases hcase with ⟨hfil, hib, hapkeq, haccteq, hdbA⟩ | ⟨hfil, hdbA⟩
    · subst haccteq
      subst hapkeq
      rw [hdbA]
      refine ⟨?_, (WFTable_append hWF.1 _).2, rfl⟩
      rw [List.filter_append, hfil]
      simp
    · rw [hdbA]
      have hmem : (apk, acct) ∈ db.accounts.filter (fun q => q.2.iban == i) := by
        rw [hfil]; exact List.mem_cons_self _ _
      have hbeq := (List.mem_filter.mp hmem).2
      exact ⟨hfil, hWF.1.2, by simpa using hbeq⟩
  obtain ⟨hAf, hAnod, hAib⟩ := hAfil
  obtain ⟨spk, mtu, dbS, htail, hcase2⟩ := importStatementResolved_ok hres
  have hSacc : dbS.accounts = dbA.accounts := by
    rcases hcase2 with ⟨h1, h2, h3, h4, hdbS⟩ | ⟨w, h1, h2, h3, hdbS⟩ <;> rw [hdbS]
  obtain ⟨houteq, dbm, logm, last, hpm, hlogm, hlast, hfin⟩ := importStatementTail_ok htail
  obtain ⟨hma, -, -, -, -, -, -⟩ := processMovements_ok r.transactions hpm
  have hdbmacc : dbm.accounts.filter (fun q => q.2.iban == i) = [(apk, acct)] := by
    rw [hma, hSacc]; exact hAf
  have hnodm : (dbm.accounts.map Prod.fst).Nodup := by
    rw [hma, hSacc]; exact hAnod
  have hside : (db.accounts.filter (fun q => q.2.iban == i) = [] →
        apk = db.next_account_id ∧ acct.bic = "") ∧
      (∀ w, db.accounts.filter (fun q => q.2.iban == i) = [w] →
        w.1 = apk ∧ w.2.bic = acct.bic) := by
    rcases hcase with ⟨hfil, hib, hapkeq, haccteq, hdbA⟩ | ⟨hfil, hdbA⟩
    · refine ⟨fun _ => ⟨hapkeq, by rw [haccteq]⟩, fun w hw => ?_⟩
      rw [hfil] at hw
      exact absurd hw (by simp)
    · refine ⟨fun hnil => ?_, fun w hw => ?_⟩
      · rw [hfil] at hnil
        exact absurd hnil (by simp)
      · rw [hfil] at hw
        injection hw with hw1 _
        rw [← hw1]
        exact ⟨rfl, rfl⟩
  rcases hfin with ⟨hne, hib2, hdb'⟩ | ⟨heq2, hdb'⟩
  · refine ⟨apk, acct.bic, ?_, hside.1, hside.2⟩
    rw [hdb']
    show (setRow dbm.accounts apk { acct with last_movement := last }).filter
      (fun q => q.2.iban == i) = _
    rw [filter_setRow_single hnodm hdbmacc _
      (by show (({ acct with last_movement := last } : AccountRow).iban == i) = true
          simp [hAib]), hlast]
    obtain ⟨aib, abic, alm⟩ := acct
    simp only at hAib
    rw [hAib]
  · refine ⟨apk, acct.bic, ?_, hside.1, hside.2⟩
    rw [hdb', hdbmacc]
    obtain ⟨aib, abic, alm⟩ := acct
    simp only at heq2 hAib
    rw [hAib, heq2, hlast]

lemma foldl_pyMax_some (mvs : List MvmtRecord) :
    ∀ d : Nat, mvs.foldl (fun a mv => pyMax a mv.date) (some d) =
      some (mvs.foldl (fun a mv => max a mv.date) d) := by
  induction mvs with
  | nil => intro d; rfl
  | cons mv rest ih => intro d; simp only [List.foldl_cons, pyMax]; exact ih _

lemma foldl_pyMax_cons (mv : MvmtRecord) (rest : List MvmtRecord) :
    (mv :: rest).foldl (fun a m => pyMax a m.date) none =
      some (rest.foldl (fun a m => max a m.date) mv.date) := by
  simp only [List.foldl_cons, pyMax]
  exact foldl_pyMax_some rest mv.date

lemma foldl_max_spec (l : List Nat) :
    ∀ d : Nat, (l.foldl max d = d ∨ l.foldl max d ∈ l) ∧
      d ≤ l.foldl max d ∧ ∀ x ∈ l, x ≤ l.foldl max d := by
  induction l with
  | nil => intro d; exact ⟨Or.inl rfl, le_refl _, by simp⟩
  | cons a as ih =>
    intro d
    obtain ⟨hmem, hd, hall⟩ := ih (max d a)
    refine ⟨?_, ?_, ?_⟩
    · rw [List.foldl_cons]
      rcases hmem with hmem | hmem
      · rcases max_choice d a with hc | hc
        · rw [hmem, hc]; exact Or.inl rfl
        · rw [hmem, hc]; exact Or.inr (List.mem_cons_self _ _)
      · exact Or.inr (List.mem_cons_of_mem _ hmem)
    · rw [List.foldl_cons]
      exact le_trans (le_max_left d a) hd
    · intro x hx
      rw [List.foldl_cons]
      rcases List.mem_cons.mp hx with hx | hx
      · rw [hx]; exact le_trans (le_max_right d a) hd
      · exact hall x hx

/-- C7: after a successful import of a statement record with a
nonempty transaction list, the owning account's stored last-movement
date is the maximum of all the record's movement dates (a running max,
not the last-seen element); concretely, movement dates
[2024-03-01, 2024-01-15, 2024-02-10] in that record order yield
2024-03-01. -/
theorem C7_last_movement_is_max :
    (∀ (db : DB) (log : List LogEvent) (r : StmtRecord) (db' : DB)
       (log' : List LogEvent) (out : Outcome) (i : String) (mv : MvmtRecord)
       (rest : List MvmtRecord),
      db.WF → importStatement db log r = .ok (db', log', out) → out ≠ .failed →
      r.account_number = some i → r.transactions = mv :: rest →
      ∃ apk bic M,
        db'.accounts.filter (fun q => q.2.iban == i) = [(apk, ⟨i, bic, some M⟩)] ∧
        M ∈ r.transactions.map (fun m => m.date) ∧
        ∀ d ∈ r.transactions.map (fun m => m.date), d ≤ M) ∧
    (match importStatement emptyDB []
        (mkRec (some "ACC1") "S1"
          [mkMv 20240301 "m1", mkMv 20240115 "m2", mkMv 20240210 "m3"]) with
     | .ok (db', _, _) => db'.accounts
     | .error _ => []) = [(0, ⟨"ACC1", "", some 20240301⟩)] := by
  refine ⟨?_, by decide⟩
  intro db log r db' log' out i mv rest hWF h hout hi htr
  obtain ⟨apk, bic, hfil, -, -⟩ := importStatement_account hWF h hout hi
  rw [htr, foldl_pyMax_cons] at hfil
  obtain ⟨hmem, hd, hall⟩ := foldl_max_spec (rest.map (fun m => m.date)) mv.date
  have hfold : rest.foldl (fun a m => max a m.date) mv.date =
      (rest.map (fun m => m.date)).foldl max mv.date := by
    rw [List.foldl_map]
  refine ⟨apk, bic, rest.foldl (fun a m => max a m.date) mv.date, hfil, ?_, ?_⟩
  · rw [htr, List.map_cons]
    rcases hmem with hm | hm
    · rw [hfold, hm]; exact List.mem_cons_self _ _
    · rw [hfold]; exact List.mem_cons_of_mem _ hm
  · intro d hd2
    rw [htr, List.map_cons] at hd2
    rcases List.mem_cons.mp hd2 with hx | hx
    · rw [hx, hfold]; exact hd
    · rw [hfold]; exact hall d hx


/-- Witness for C7 at a one-movement record imported into the empty
store. -/
theorem C7_last_movement_is_max_witness :
    ∃ apk bic M,
      (⟨[(0, ⟨"ACC1", "", some 20240301⟩)],
        [(0, statementRowOf 0 (mkRec (some "ACC1") "S1" [mkMv 20240301 "m1"]))],
        [(0, createdMovementRow 0 (mkMv 20240301 "m1"))], 1, 1, 1⟩ : DB).accounts.filter
          (fun q => q.2.iban == "ACC1") = [(apk, ⟨"ACC1", bic, some M⟩)] ∧
      M ∈ (mkRec (some "ACC1") "S1" [mkMv 20240301 "m1"]).transactions.map
            (fun m => m.date) ∧
      ∀ d ∈ (mkRec (some "ACC1") "S1" [mkMv 20240301 "m1"]).transactions.map
              (fun m => m.date), d ≤ M :=
  C7_last_movement_is_max.1 emptyDB [] (mkRec (some "ACC1") "S1" [mkMv 20240301 "m1"])
    ⟨[(0, ⟨"ACC1", "", some 20240301⟩)],
      [(0, statementRowOf 0 (mkRec (some "ACC1") "S1" [mkMv 20240301 "m1"]))],
      [(0, createdMovementRow 0 (mkMv 20240301 "m1"))], 1, 1, 1⟩
    [] .created "ACC1" (mkMv 20240301 "m1") [] (by decide) (by decide) (by decide)
    (by decide) (by decide)

/-- C9 fails as stated: importing a statement for the unseen account
`BE07340154921566` (bank code 340, mapped to `BBRUBEBB` in the static
table) creates an Account whose routing code is blank — `b2c.Account`
has no `full_clean` override, so the routing-code lookup never runs. -/
theorem C9_counterexample :
    (match importStatement emptyDB [] (mkRec (some "BE07340154921566") "S1" []) with
     | .ok (db', _, _) => db'.accounts
     | .error _ => []) = [(0, ⟨"BE07340154921566", "", none⟩)] ∧
    iban2bic "BE07340154921566".toList = some "BBRUBEBB" ∧
    ("" : String) ≠ "BBRUBEBB" :=
  ⟨by decide, by decide, by decide⟩

/-- C9 (amended): resolving a statement record against an unseen,
non-blank account identifier creates and persists a new Account after
generic model validation, with exactly the identifier set; its routing
code is left blank even when the identifier's bank code is in the
static mapping, because the import's `b2c.Account` runs no
routing-code lookup. -/
theorem C9_account_created_blank_bic (db : DB) (log : List LogEvent) (r : StmtRecord)
    (db' : DB) (log' : List LogEvent) (out : Outcome) (i : String)
    (hWF : db.WF) (h : importStatement db log r = .ok (db', log', out))
    (hout : out ≠ .failed) (hi : r.account_number = some i)
    (hnone : db.accounts.filter (fun q => q.2.iban == i) = []) :
    db'.accounts.filter (fun q => q.2.iban == i) =
      [(db.next_account_id,
        ⟨i, "", r.transactions.foldl (fun a mv => pyMax a mv.date) none⟩)] := by
  obtain ⟨apk, bic, hfil, hside, -⟩ := importStatement_account hWF h hout hi
  obtain ⟨hapk, hbic⟩ := hside hnone
  rw [hapk, hbic] at hfil
  exact hfil

/-- Witness for C9 (amended) at the counterexample input. -/
theorem C9_account_created_blank_bic_witness :
    (⟨[(0, ⟨"BE07340154921566", "", none⟩)],
      [(0, statementRowOf 0 (mkRec (some "BE07340154921566") "S1" []))],
      [], 1, 1, 0⟩ : DB).accounts.filter
        (fun q => q.2.iban == "BE07340154921566") =
      [(0, ⟨"BE07340154921566", "",
        (mkRec (some "BE07340154921566") "S1" []).transactions.foldl
          (fun a mv => pyMax a mv.date) none⟩)] :=
  C9_account_created_blank_bic emptyDB [] (mkRec (some "BE07340154921566") "S1" [])
    ⟨[(0, ⟨"BE07340154921566", "", none⟩)],
      [(0, statementRowOf 0 (mkRec (some "BE07340154921566") "S1" []))],
      [], 1, 1, 0⟩
    [] .created "BE07340154921566" (by decide) (by decide) (by decide) (by decide)
    (by decide)

/-- C10 fails as stated: for an account whose stored last-movement
date is 2024-04-01, importing a statement whose single movement is
dated 2024-01-01 overwrites the stored date with 2024-01-01 — a
decrease, because the code writes whenever the recomputed value merely
differs from the stored one. -/
theorem C10_counterexample :
    (match importStatement ⟨[(0, ⟨"ACC1", "", some 20240401⟩)], [], [], 1, 0, 0⟩ []
        (mkRec (some "ACC1") "S1" [mkMv 20240101 "m1"]) with
     | .ok (db', _, _) => db'.accounts
     | .error _ => []) = [(0, ⟨"ACC1", "", some 20240101⟩)] ∧
    20240101 < 20240401 :=
  ⟨by decide, by decide⟩

/-- C10 (amended): after a successful import of a statement record,
the owning account's stored last-movement date equals the running
maximum (in Python 2 semantics, with `None` below every date) of that
record's movement dates — the stored value is overwritten whenever it
differs, so it can decrease, and an empty transaction list resets it
to null. -/
theorem C10_last_movement_overwritten (db : DB) (log : List LogEvent) (r : StmtRecord)
    (db' : DB) (log' : List LogEvent) (out : Outcome) (i : String)
    (hWF : db.WF) (h : importStatement db log r = .ok (db', log', out))
    (hout : out ≠ .failed) (hi : r.account_number = some i) :
    ∃ apk bic,
      db'.accounts.filter (fun q => q.2.iban == i) =
        [(apk, ⟨i, bic, r.transactions.foldl (fun a mv => pyMax a mv.date) none⟩)] := by
  obtain ⟨apk, bic, hfil, -, -⟩ := importStatement_account hWF h hout hi
  exact ⟨apk, bic, hfil⟩

/-- Witness for C10 (amended) at the counterexample input: the stored
date decreases to the recomputed value. -/
theorem C10_last_movement_overwritten_witness :
    ∃ apk bic,
      (⟨[(0, ⟨"ACC1", "", some 20240101⟩)],
        [(0, statementRowOf 0 (mkRec (some "ACC1") "S1" [mkMv 20240101 "m1"]))],
        [(0, createdMovementRow 0 (mkMv 20240101 "m1"))], 1, 1, 1⟩ : DB).accounts.filter
          (fun q => q.2.iban == "ACC1") =
        [(apk, ⟨"ACC1", bic,
          (mkRec (some "ACC1") "S1" [mkMv 20240101 "m1"]).transactions.foldl
            (fun a mv => pyMax a mv.date) none⟩)] :=
  C10_last_movement_overwritten ⟨[(0, ⟨"ACC1", "", some 20240401⟩)], [], [], 1, 0, 0⟩ []
    (mkRec (some "ACC1") "S1" [mkMv 20240101 "m1"])
    ⟨[(0, ⟨"ACC1", "", some 20240101⟩)],
      [(0, statementRowOf 0 (mkRec (some "ACC1") "S1" [mkMv 20240101 "m1"]))],
      [(0, createdMovementRow 0 (mkMv 20240101 "m1"))], 1, 1, 1⟩
    [] .created "ACC1" (by decide) (by decide) (by decide) (by decide)

/-- C8: a statement record with no account identifier, or whose
identifier matches more than one Account, is counted as failed and
skipped without touching the store; the remaining records of the file
are still processed; and a file with any failed statement is kept
regardless of the delete-imported-files flag.  Concretely, a
three-record file whose second record lacks the identifier imports the
other two and is retained under either flag value. -/
theorem C8_partial_failure :
    (∀ (db : DB) (log : List LogEvent) (r : StmtRecord),
      r.account_number = none →
      importStatement db log r =
        .ok (db, log ++ [.statementWithoutIban r.name], .failed)) ∧
    (∀ (db : DB) (log : List LogEvent) (r : StmtRecord) (i : String)
       (x y : Nat × AccountRow) (rest : List (Nat × AccountRow)),
      r.account_number = some i →
      db.accounts.filter (fun q => q.2.iban == i) = x :: y :: rest →
      importStatement db log r =
        .ok (db, log ++ [.multipleAccountsWithIban i], .failed)) ∧
    (∀ (db : DB) (recs : List StmtRecord) (flag : Bool) (res : FileResult),
      import_file db recs flag = .ok res →
      0 < res.failed_statements → res.disposition = .keepFile) ∧
    (∀ flag : Bool,
      (match import_file emptyDB
          [mkRec (some "A1") "S1" [], mkRec none "S2" [], mkRec (some "A3") "S3" []]
          flag with
       | .ok res => (res.new_statements + res.updated_statements,
                     res.failed_statements, res.disposition)
       | .error _ => (0, 0, .deleteFile)) = (2, 1, .keepFile)) := by
  refine ⟨?_, ?_, ?_, ?_⟩
  · intro db log r h
    exact importStatement_noIban h
  · intro db log r i x y rest hi hf
    exact importStatement_multiAccount hi hf
  · intro db recs flag res h hpos
    unfold import_file at h
    split at h
    · exact absurd h (by simp)
    · rename_i pr db2 log2 n u f heq
      simp only [Except.ok.injEq] at h
      rw [← h] at hpos ⊢
      simp only at hpos ⊢
      rw [if_pos hpos]
  · intro flag
    cases flag <;> decide

/-- Witness for C8: a record without an account identifier fails and
leaves the store untouched. -/
theorem C8_partial_failure_witness :
    importStatement emptyDB [] (mkRec none "S2" []) =
      .ok (emptyDB, [] ++ [.statementWithoutIban (mkRec none "S2" []).name], .failed) :=
  C8_partial_failure.1 emptyDB [] (mkRec none "S2" []) (by decide)

lemma importStatement_not_failed {db : DB} {log : List LogEvent} {r : StmtRecord}
    {i : String} {db' : DB} {log' : List LogEvent}
    (hi : r.account_number = some i)
    (hle : (db.accounts.filter (fun q => q.2.iban == i)).length ≤ 1)
    (h : importStatement db log r = .ok (db', log', .failed)) : False := by
  unfold importStatement at h
  split at h
  · rename_i heq
    rw [hi] at heq
    exact absurd heq (by simp)
  · rename_i i2 hacc
    rw [hi] at hacc
    injection hacc with hieq
    subst hieq
    split at h
    · unfold accountFullClean at h
      split at h
      · exact absurd h (by simp)
      · obtain ⟨spk, mtu, dbS, htail, hcase⟩ := importStatementResolved_ok h
        rcases hcase with ⟨h1, h2, h3, hcr, h5⟩ | ⟨w, h2, h3, hcr, h5⟩ <;>
          exact absurd hcr (by simp)
    · obtain ⟨spk, mtu, dbS, htail, hcase⟩ := importStatementResolved_ok h
      rcases hcase with ⟨h1, h2, h3, hcr, h5⟩ | ⟨w, h2, h3, hcr, h5⟩ <;>
        exact absurd hcr (by simp)
    · rename_i x y rest heq
      rw [heq] at hle
      simp at hle

lemma importStatement_run {db : DB} {log : List LogEvent} {r : StmtRecord}
    {db' : DB} {log' : List LogEvent} {out : Outcome} {i : String}
    (h : importStatement db log r = .ok (db', log', out))
    (hout : out ≠ .failed) (hi : r.account_number = some i) :
    ∃ apk acct spk mtu dbS dbm logm last,
      ((db.accounts.filter (fun q => q.2.iban == i) = [] ∧
        apk = db.next_account_id ∧ acct = (⟨i, "", none⟩ : AccountRow) ∧
        dbS.accounts = db.accounts ++ [(apk, acct)] ∧
        dbS.next_account_id = db.next_account_id + 1) ∨
       (db.accounts.filter (fun q => q.2.iban == i) = [(apk, acct)] ∧
        dbS.accounts = db.accounts ∧
        dbS.next_account_id = db.next_account_id)) ∧
      ((db.statements.filter
          (fun q => q.2.statement_number == r.name && q.2.account == apk) = [] ∧
        spk = db.next_statement_id ∧ mtu = false ∧ out = .created ∧
        dbS.statements = db.statements ++ [(spk, statementRowOf apk r)] ∧
        dbS.next_statement_id = db.next_statement_id + 1) ∨
       (∃ w, db.statements.filter
          (fun q => q.2.statement_number == r.name && q.2.account == apk) = [(spk, w)] ∧
        mtu = true ∧ out = .updated ∧
        dbS.statements = setRow db.statements spk (statementRowOf apk r) ∧
        dbS.next_statement_id = db.next_statement_id)) ∧
      dbS.movements = db.movements ∧
      dbS.next_movement_id = db.next_movement_id ∧
      processMovements dbS log spk mtu none r.transactions = .ok (dbm, logm, last) ∧
      log' = logm ∧
      last = r.transactions.foldl (fun a mv => pyMax a mv.date) none ∧
      db'.statements = dbm.statements ∧
      db'.movements = dbm.movements ∧
      db'.next_statement_id = dbm.next_statement_id ∧
      db'.next_movement_id = dbm.next_movement_id ∧
      db'.next_account_id = dbS.next_account_id ∧
      ((acct.last_movement ≠ last ∧ acct.iban ≠ "" ∧
        db'.accounts = setRow dbS.accounts apk { acct with last_movement := last }) ∨
       (acct.last_movement = last ∧ db'.accounts = dbS.accounts)) := by
  obtain ⟨i2, apk, acct, dbA, hacc, hres, hcase⟩ := importStatement_ok h hout
  rw [hi] at hacc
  injection hacc with hieq
  subst hieq
  obtain ⟨spk, mtu, dbS, htail, hcase2⟩ := importStatementResolved_ok hres
  obtain ⟨houteq, dbm, logm, last, hpm, hlogm, hlast, hfin⟩ := importStatementTail_ok htail
  obtain ⟨hma, hms, hmna, hmns, -, -, -⟩ := processMovements_ok r.transactions hpm
  have hAfields : dbA.statements = db.statements ∧
      dbA.next_statement_id = db.next_statement_id ∧
      dbA.movements = db.movements ∧
      dbA.next_movement_id = db.next_movement_id := by
    rcases hcase with ⟨h1, h2, h3, h4, hdbA⟩ | ⟨h1, hdbA⟩ <;> rw [hdbA] <;>
      exact ⟨rfl, rfl, rfl, rfl⟩
  have hSfields : dbS.movements = db.movements ∧
      dbS.next_movement_id = db.next_movement_id ∧
      dbS.accounts = dbA.accounts ∧
      dbS.next_account_id = dbA.next_account_id := by
    rcases hcase2 with ⟨h1, h2, h3, h4, hdbS⟩ | ⟨w, h1, h2, h3, hdbS⟩ <;> rw [hdbS] <;>
      exact ⟨hAfields.2.2.1, hAfields.2.2.2, rfl, rfl⟩
  refine ⟨apk, acct, spk, mtu, dbS, dbm, logm, last, ?_, ?_, hSfields.1, hSfields.2.1,
    hpm, hlogm, hlast, ?_, ?_, ?_, ?_, ?_, ?_⟩
  · rcases hcase with ⟨h1, h2, h3, h4, hdbA⟩ | ⟨h1, hdbA⟩
    · refine Or.inl ⟨h1, h3, h4, ?_, ?_⟩
      · rw [hSfields.2.2.1, hdbA, h3]
      · rw [hSfields.2.2.2, hdbA, h3]
    · refine Or.inr ⟨h1, ?_, ?_⟩
      · rw [hSfields.2.2.1, hdbA]
      · rw [hSfields.2.2.2, hdbA]
  · rcases hcase2 with ⟨h1, h2, h3, h4, hdbS⟩ | ⟨w, h1, h2, h3, hdbS⟩
    · refine Or.inl ⟨by rw [← hAfields.1]; exact h1, by rw [h2, hAfields.2.1], h3, h4, ?_, ?_⟩
      · rw [hdbS]
        simp only []
        rw [hAfields.1]
      · rw [hdbS]
        simp only []
        rw [hAfields.2.1]
    · refine Or.inr ⟨w, by rw [← hAfields.1]; exact h1, h2, h3, ?_, ?_⟩
      · rw [hdbS]
        simp only []
        rw [hAfields.1]
      · rw [hdbS]
        simp only []
        rw [hAfields.2.1]
  · rcases hfin with ⟨h1, h2, hdb'⟩ | ⟨h1, hdb'⟩ <;> rw [hdb']
  · rcases hfin with ⟨h1, h2, hdb'⟩ | ⟨h1, hdb'⟩ <;> rw [hdb']
  · rcases hfin with ⟨h1, h2, hdb'⟩ | ⟨h1, hdb'⟩ <;> rw [hdb']
  · rcases hfin with ⟨h1, h2, hdb'⟩ | ⟨h1, hdb'⟩ <;> rw [hdb']
  · rcases hfin with ⟨h1, h2, hdb'⟩ | ⟨h1, hdb'⟩ <;> rw [hdb'] <;> exact hmna
  · rcases hfin with ⟨h1, h2, hdb'⟩ | ⟨h1, hdb'⟩
    · refine Or.inl ⟨h1, h2, ?_⟩
      rw [hdb']
      simp only []
      rw [hma]
    · refine Or.inr ⟨h1, ?_⟩
      rw [hdb']
      exact hma

/-- C5: two statement records sharing the natural key (same account
identifier, same statement number) processed in one file leave exactly
one Statement row, holding the second record's field values; the first
sight of the key feeds the new-statements counter, the repeat sight
the updated-statements counter. -/
theorem C5_statement_upsert (db : DB) (r1 r2 : StmtRecord) (i n : String)
    (flag : Bool) (res : FileResult)
    (hWF : db.WF)
    (hi1 : r1.account_number = some i) (hi2 : r2.account_number = some i)
    (hn1 : r1.name = n) (hn2 : r2.name = n)
    (hacc : (db.accounts.filter (fun q => q.2.iban == i)).length ≤ 1)
    (hno : db.statements.filter (fun q => q.2.statement_number == n) = [])
    (hrun : import_file db [r1, r2] flag = .ok res) :
    res.new_statements = 1 ∧ res.updated_statements = 1 ∧
    res.failed_statements = 0 ∧
    ∃ apk, res.db.statements.filter (fun q => q.2.statement_number == n) =
      [(db.next_statement_id, statementRowOf apk r2)] := by
  -- peel the first record off the loop
  unfold import_file at hrun
  cases hs1 : importStatement db [] r1 with
  | error e =>
    rw [show importFileLoop db [] 0 0 0 [r1, r2] = .error e by
      simp only [importFileLoop, hs1]] at hrun
    exact absurd hrun (by simp)
  | ok t1 =>
  obtain ⟨db1, log1, out1⟩ := t1
  have hnf1 : out1 ≠ .failed := fun he =>
    importStatement_not_failed hi1 hacc (he ▸ hs1)
  obtain ⟨apk1, acct1, spk1, mtu1, dbS1, dbm1, logm1, last1, hA1, hS1, hSm1, hSn1,
    hpm1, hlog1, hlast1, hst1, hmv1, hsn1, hmn1, han1, hfin1⟩ :=
    importStatement_run hs1 hnf1 hi1
  -- first record takes the CREATE branch
  have hkey1 : db.statements.filter
      (fun q => q.2.statement_number == r1.name && q.2.account == apk1) = [] := by
    apply filter_and_eq_nil
    rw [hn1]
    exact hno
  rcases hS1 with ⟨-, hspk1, -, hout1, hdbS1st, hdbS1n⟩ | ⟨w, hfs1, -, -, -, -⟩
  swap
  · rw [hkey1] at hfs1
    exact absurd hfs1 (by simp)
  obtain ⟨hmvacc1, hmvst1, -, hmvns1, -, -, -⟩ := processMovements_ok r1.transactions hpm1
  have hdb1st : db1.statements = db.statements ++ [(spk1, statementRowOf apk1 r1)] := by
    rw [hst1, hmvst1, hdbS1st]
  have hWF1 := (importStatement_WF hWF hs1).1
  -- the account of the first record, seen from db1
  obtain ⟨apkA, bicA, hfilA, hsideN, hsideS⟩ := importStatement_account hWF hs1 hnf1 hi1
  have hapkA : apkA = apk1 := by
    rcases hA1 with ⟨hfil, hapk, -, -, -⟩ | ⟨hfil, -, -⟩
    · rw [hapk, (hsideN hfil).1]
    · exact ((hsideS _ hfil).1 : apk1 = apkA).symm
  subst hapkA
  -- peel the second record
  rw [hout1] at hs1
  cases hs2 : importStatement db1 log1 r2 with
  | error e =>
    rw [show importFileLoop db [] 0 0 0 [r1, r2] = .error e by
      simp only [importFileLoop, hs1, hs2]] at hrun
    exact absurd hrun (by simp)
  | ok t2 =>
  obtain ⟨db2, log2, out2⟩ := t2
  have hnf2 : out2 ≠ .failed := fun he =>
    importStatement_not_failed hi2 (by rw [hfilA]; simp) (he ▸ hs2)
  obtain ⟨apk2, acct2, spk2, mtu2, dbS2, dbm2, logm2, last2, hA2, hS2, hSm2, hSn2,
    hpm2, hlog2, hlast2, hst2, hmv2, hsn2, hmn2, han2, hfin2⟩ :=
    importStatement_run hs2 hnf2 hi2
  have hapk2 : apk2 = apkA ∧ acct2 = ⟨i, bicA,
      r1.transactions.foldl (fun a mv => pyMax a mv.date) none⟩ := by
    rcases hA2 with ⟨hfil, -, -, -, -⟩ | ⟨hfil, -, -⟩
    · rw [hfilA] at hfil
      exact absurd hfil (by simp)
    · rw [hfilA] at hfil
      injection hfil with hfil1 _
      injection hfil1 with hfa hfb
      exact ⟨hfa.symm, hfb.symm⟩
  -- the second record finds the statement created by the first
  have hkey2 : db1.statements.filter
      (fun q => q.2.statement_number == r2.name && q.2.account == apk2) =
      [(spk1, statementRowOf apkA r1)] := by
    rw [hdb1st, List.filter_append, filter_and_eq_nil (by rw [hn2]; exact hno),
      List.nil_append]
    have : (statementRowOf apkA r1).statement_number == r2.name ∧
        (statementRowOf apkA r1).account == apk2 := by
      constructor
      · show (r1.name == r2.name) = true
        rw [hn1, hn2]
        simp
      · rw [hapk2.1]
        simp [statementRowOf]
    simp only [List.filter_cons, List.filter_nil]
    rw [if_pos (by simp [this.1, this.2])]
  rcases hS2 with ⟨hfs2, -, -, -, -, -⟩ | ⟨w2, hfs2, -, hout2, hdbS2st, hdbS2n⟩
  · rw [hkey2] at hfs2
    exact absurd hfs2 (by simp)
  obtain ⟨-, hmvst2, -, -, -, -, -⟩ := processMovements_ok r2.transactions hpm2
  rw [hkey2] at hfs2
  injection hfs2 with hfs2a hfs2b
  injection hfs2a with hspk2 hw2
  have hdb2st : db2.statements = setRow db1.statements spk1 (statementRowOf apkA r2) := by
    rw [hst2, hmvst2, hdbS2st, ← hspk2, hapk2.1]
  -- final counter values
  rw [hout2] at hs2
  rw [show importFileLoop db [] 0 0 0 [r1, r2] = .ok (db2, log2, 1, 1, 0) by
    simp only [importFileLoop, hs1, hs2]] at hrun
  simp only [Except.ok.injEq] at hrun
  rw [← hrun]
  refine ⟨rfl, rfl, rfl, apkA, ?_⟩
  show db2.statements.filter (fun q => q.2.statement_number == n) = _
  rw [hdb2st]
  have hnfil1 : db1.statements.filter (fun q => q.2.statement_number == n) =
      [(spk1, statementRowOf apkA r1)] := by
    rw [hdb1st, List.filter_append, hno, List.nil_append]
    simp only [List.filter_cons, List.filter_nil]
    rw [if_pos (by show ((statementRowOf apkA r1).statement_number == n) = true
                   show (r1.name == n) = true
                   rw [hn1]
                   simp)]
  rw [filter_setRow_single hWF1.2.1.2 hnfil1 _
    (by show ((statementRowOf apkA r2).statement_number == n) = true
        show (r2.name == n) = true
        rw [hn2]
        simp), hspk1]

/-- Witness for C5: the same natural key imported twice into the empty
store, the second record with different balances; one row remains,
holding the second record's values. -/
theorem C5_statement_upsert_witness :
    (⟨⟨[(0, ⟨"A1", "", none⟩)],
      [(0, statementRowOf 0
        (⟨some "A1", "S1", 20240201, 20240228, 50, 150, 150, "EUR", some 2, []⟩ :
          StmtRecord))],
      [], 1, 1, 0⟩, [], 1, 1, 0, .deleteFile⟩ : FileResult).new_statements = 1 ∧
    (⟨⟨[(0, ⟨"A1", "", none⟩)],
      [(0, statementRowOf 0
        (⟨some "A1", "S1", 20240201, 20240228, 50, 150, 150, "EUR", some 2, []⟩ :
          StmtRecord))],
      [], 1, 1, 0⟩, [], 1, 1, 0, .deleteFile⟩ : FileResult).updated_statements = 1 ∧
    (⟨⟨[(0, ⟨"A1", "", none⟩)],
      [(0, statementRowOf 0
        (⟨some "A1", "S1", 20240201, 20240228, 50, 150, 150, "EUR", some 2, []⟩ :
          StmtRecord))],
      [], 1, 1, 0⟩, [], 1, 1, 0, .deleteFile⟩ : FileResult).failed_statements = 0 ∧
    ∃ apk,
      (⟨⟨[(0, ⟨"A1", "", none⟩)],
        [(0, statementRowOf 0
          (⟨some "A1", "S1", 20240201, 20240228, 50, 150, 150, "EUR", some 2, []⟩ :
            StmtRecord))],
        [], 1, 1, 0⟩, [], 1, 1, 0, .deleteFile⟩ : FileResult).db.statements.filter
          (fun q => q.2.statement_number == "S1") =
        [(emptyDB.next_statement_id, statementRowOf apk
          (⟨some "A1", "S1", 20240201, 20240228, 50, 150, 150, "EUR", some 2, []⟩ :
            StmtRecord))] :=
  C5_statement_upsert emptyDB (mkRec (some "A1") "S1" [])
    (⟨some "A1", "S1", 20240201, 20240228, 50, 150, 150, "EUR", some 2, []⟩ : StmtRecord)
    "A1" "S1" true _
    (by decide) (by decide) (by decide) (by decide) (by decide) (by decide) (by decide)
    (by decide)

lemma processMovement_char {db : DB} {log : List LogEvent} {spk : Nat} {mtu : Bool}
    {mv : MvmtRecord} {db' : DB} {log' : List LogEvent}
    (h : processMovement db log spk mtu mv = .ok (db', log')) :
    (db.movements.filter (fun q => q.2.unique_import_id == mv.unique_import_id) = [] ∧
     db'.movements = db.movements ++ [(db.next_movement_id, createdMovementRow spk mv)] ∧
     db'.next_movement_id = db.next_movement_id + 1 ∧ log' = log) ∨
    (∃ p w,
     db.movements.filter (fun q => q.2.unique_import_id == mv.unique_import_id) = [(p, w)] ∧
     db'.movements = setRow db.movements p (updatedMovementRow spk mv) ∧
     db'.next_movement_id = db.next_movement_id ∧
     log' = (if mtu then log
             else log ++ [.existingTransactionInNewStatement mv.unique_import_id])) := by
  unfold processMovement at h
  split at h
  · rename_i heq
    simp only [Except.ok.injEq, Prod.mk.injEq] at h
    obtain ⟨h1, h2⟩ := h
    rw [← h1, ← h2]
    exact Or.inl ⟨heq, rfl, rfl, rfl⟩
  · rename_i pr p w heq
    simp only [Except.ok.injEq, Prod.mk.injEq] at h
    obtain ⟨h1, h2⟩ := h
    rw [← h1, ← h2]
    exact Or.inr ⟨p, w, heq, rfl, rfl, rfl⟩
  · exact absurd h (by simp)

lemma processMovements_single {db : DB} {log : List LogEvent} {spk : Nat} {mtu : Bool}
    {mv : MvmtRecord} {db' : DB} {log' : List LogEvent} {last : Option Nat}
    (h : processMovements db log spk mtu none [mv] = .ok (db', log', last)) :
    processMovement db log spk mtu mv = .ok (db', log') ∧ last = pyMax none mv.date := by
  simp only [processMovements] at h
  cases hpm : processMovement db log spk mtu mv with
  | error e => rw [hpm] at h; exact absurd h (by simp)
  | ok pr =>
    obtain ⟨dbx, logx⟩ := pr
    rw [hpm] at h
    simp only [processMovements, Except.ok.injEq, Prod.mk.injEq] at h
    obtain ⟨h1, h2, h3⟩ := h
    subst h1
    subst h2
    subst h3
    exact ⟨rfl, rfl⟩

/-- C6: two one-movement statement records whose movements share the
same unique import identifier collapse to one Movement row, attached to
the statement processed last with every field taken from the later
record; since the later record's statement is brand new, the
"existing transaction in a new statement" warning is logged, but the
overwrite still proceeds. -/
theorem C6_movement_dedup (db : DB) (r1 r2 : StmtRecord) (i n1 n2 X : String)
    (mv1 mv2 : MvmtRecord) (flag : Bool) (res : FileResult)
    (hWF : db.WF)
    (hi1 : r1.account_number = some i) (hi2 : r2.account_number = some i)
    (hn1 : r1.name = n1) (hn2 : r2.name = n2) (hnn : n1 ≠ n2)
    (ht1 : r1.transactions = [mv1]) (ht2 : r2.transactions = [mv2])
    (hX1 : mv1.unique_import_id = X) (hX2 : mv2.unique_import_id = X)
    (hacc : (db.accounts.filter (fun q => q.2.iban == i)).length ≤ 1)
    (hno1 : db.statements.filter (fun q => q.2.statement_number == n1) = [])
    (hno2 : db.statements.filter (fun q => q.2.statement_number == n2) = [])
    (hnomv : db.movements.filter (fun q => q.2.unique_import_id == X) = [])
    (hrun : import_file db [r1, r2] flag = .ok res) :
    ∃ spk2 mpk,
      res.db.movements.filter (fun q => q.2.unique_import_id == X) =
        [(mpk, updatedMovementRow spk2 mv2)] ∧
      (∃ apk, (spk2, statementRowOf apk r2) ∈ res.db.statements) ∧
      LogEvent.existingTransactionInNewStatement X ∈ res.log := by
  unfold import_file at hrun
  cases hs1 : importStatement db [] r1 with
  | error e =>
    rw [show importFileLoop db [] 0 0 0 [r1, r2] = .error e by
      simp only [importFileLoop, hs1]] at hrun
    exact absurd hrun (by simp)
  | ok t1 =>
  obtain ⟨db1, log1, out1⟩ := t1
  have hnf1 : out1 ≠ .failed := fun he =>
    importStatement_not_failed hi1 hacc (he ▸ hs1)
  obtain ⟨apk1, acct1, spk1, mtu1, dbS1, dbm1, logm1, last1, hA1, hS1, hSm1, hSn1,
    hpm1, hlog1, hlast1, hst1, hmv1, hsn1, hmn1, han1, hfin1⟩ :=
    importStatement_run hs1 hnf1 hi1
  have hkey1 : db.statements.filter
      (fun q => q.2.statement_number == r1.name && q.2.account == apk1) = [] := by
    apply filter_and_eq_nil
    rw [hn1]
    exact hno1
  rcases hS1 with ⟨-, hspk1, hmtu1, hout1, hdbS1st, hdbS1n⟩ | ⟨w, hfs1, -, -, -, -⟩
  swap
  · rw [hkey1] at hfs1
    exact absurd hfs1 (by simp)
  obtain ⟨hmvacc1, hmvst1, -, hmvns1, -, -, -⟩ := processMovements_ok r1.transactions hpm1
  rw [ht1] at hpm1
  obtain ⟨hpmu1, -⟩ := processMovements_single hpm1
  rcases processMovement_char hpmu1 with ⟨-, hcre1, hcnm1, -⟩ | ⟨p, w1, hex1, -, -, -⟩
  swap
  · rw [hSm1, hX1] at hex1
    rw [hnomv] at hex1
    exact absurd hex1 (by simp)
  have hdb1mv : db1.movements =
      db.movements ++ [(db.next_movement_id, createdMovementRow spk1 mv1)] := by
    rw [hmv1, hcre1, hSm1, hSn1]
  have hdb1st : db1.statements = db.statements ++ [(spk1, statementRowOf apk1 r1)] := by
    rw [hst1, hmvst1, hdbS1st]
  have hWF1 := (importStatement_WF hWF hs1).1
  obtain ⟨apkA, bicA, hfilA, hsideN, hsideS⟩ := importStatement_account hWF hs1 hnf1 hi1
  rw [hout1] at hs1
  cases hs2 : importStatement db1 log1 r2 with
  | error e =>
    rw [show importFileLoop db [] 0 0 0 [r1, r2] = .error e by
      simp only [importFileLoop, hs1, hs2]] at hrun
    exact absurd hrun (by simp)
  | ok t2 =>
  obtain ⟨db2, log2, out2⟩ := t2
  have hnf2 : out2 ≠ .failed := fun he =>
    importStatement_not_failed hi2 (by rw [hfilA]; simp) (he ▸ hs2)
  obtain ⟨apk2, acct2, spk2, mtu2, dbS2, dbm2, logm2, last2, hA2, hS2, hSm2, hSn2,
    hpm2, hlog2, hlast2, hst2, hmv2, hsn2, hmn2, han2, hfin2⟩ :=
    importStatement_run hs2 hnf2 hi2
  -- the second record creates a fresh statement
  have hkey2 : db1.statements.filter
      (fun q => q.2.statement_number == r2.name && q.2.account == apk2) = [] := by
    rw [hdb1st, List.filter_append, filter_and_eq_nil (by rw [hn2]; exact hno2),
      List.nil_append]
    simp only [List.filter_cons, List.filter_nil]
    rw [if_neg (by
      show ¬(((statementRowOf apk1 r1).statement_number == r2.name &&
        (statementRowOf apk1 r1).account == apk2) = true)
      show ¬((r1.name == r2.name && apk1 == apk2) = true)
      rw [hn1, hn2]
      simp only [Bool.and_eq_true, beq_iff_eq]
      intro hcon
      exact hnn hcon.1)]
  rcases hS2 with ⟨-, hspk2, hmtu2, hout2, hdbS2st, hdbS2n⟩ | ⟨w2, hfs2, -, -, -, -⟩
  swap
  · rw [hkey2] at hfs2
    exact absurd hfs2 (by simp)
  -- the movement of the second record finds the existing row
  have hfilX : db1.movements.filter
      (fun q => q.2.unique_import_id == mv2.unique_import_id) =
      [(db.next_movement_id, createdMovementRow spk1 mv1)] := by
    rw [hdb1mv, List.filter_append, hX2, hnomv, List.nil_append]
    simp only [List.filter_cons, List.filter_nil]
    rw [if_pos (by
      show ((createdMovementRow spk1 mv1).unique_import_id == X) = true
      show (mv1.unique_import_id == X) = true
      rw [hX1]
      simp)]
  obtain ⟨-, hmvst2, -, -, -, -, -⟩ := processMovements_ok r2.transactions hpm2
  rw [ht2] at hpm2
  obtain ⟨hpmu2, -⟩ := processMovements_single hpm2
  rcases processMovement_char hpmu2 with ⟨hex2, -, -, -⟩ | ⟨p2, w2, hex2, hupd2, -, hlogw2⟩
  · rw [hSm2, hfilX] at hex2
    exact absurd hex2 (by simp)
  rw [hSm2, hfilX] at hex2
  injection hex2 with hex2a hex2b
  injection hex2a with hp2 hw2x
  -- assemble
  rw [hout2] at hs2
  rw [show importFileLoop db [] 0 0 0 [r1, r2] = .ok (db2, log2, 2, 0, 0) by
    simp only [importFileLoop, hs1, hs2]] at hrun
  simp only [Except.ok.injEq] at hrun
  rw [← hrun]
  refine ⟨spk2, db.next_movement_id, ?_, ⟨apk2, ?_⟩, ?_⟩
  · show db2.movements.filter (fun q => q.2.unique_import_id == X) = _
    rw [hmv2, hupd2, hSm2, ← hp2]
    rw [@filter_setRow_single _ db1.movements
      (fun q => q.2.unique_import_id == X) _ _ hWF1.2.2.2
      (by rw [← hX2]; exact hfilX) _
      (by show ((updatedMovementRow spk2 mv2).unique_import_id == X) = true
          show (mv2.unique_import_id == X) = true
          rw [hX2]
          simp)]
  · show (spk2, statementRowOf apk2 r2) ∈ db2.statements
    rw [hst2, hmvst2, hdbS2st]
    exact List.mem_append_right _ (List.mem_singleton.mpr rfl)
  · show LogEvent.existingTransactionInNewStatement X ∈ log2
    rw [hlog2]
    have : logm2 = log1 ++ [.existingTransactionInNewStatement mv2.unique_import_id] := by
      rw [hlogw2, hmtu2]
      simp
    rw [this, hX2]
    exact List.mem_append_right _ (List.mem_singleton.mpr rfl)

/-- Witness for C6: the same import id in two records of one file; the
single surviving Movement row hangs off the second statement and the
warning is in the log. -/
theorem C6_movement_dedup_witness :
    ∃ spk2 mpk,
      (⟨⟨[(0, ⟨"A1", "", some 20240115⟩)],
        [(0, statementRowOf 0 (mkRec (some "A1") "S1" [mkMv 20240101 "X1"])),
         (1, statementRowOf 0 (mkRec (some "A1") "S2" [mkMv 20240115 "X1"]))],
        [(0, updatedMovementRow 1 (mkMv 20240115 "X1"))], 1, 2, 1⟩,
        [.existingTransactionInNewStatement "X1"], 2, 0, 0,
        .keepFile⟩ : FileResult).db.movements.filter
          (fun q => q.2.unique_import_id == "X1") =
        [(mpk, updatedMovementRow spk2 (mkMv 20240115 "X1"))] ∧
      (∃ apk, (spk2, statementRowOf apk (mkRec (some "A1") "S2" [mkMv 20240115 "X1"])) ∈
        (⟨⟨[(0, ⟨"A1", "", some 20240115⟩)],
          [(0, statementRowOf 0 (mkRec (some "A1") "S1" [mkMv 20240101 "X1"])),
           (1, statementRowOf 0 (mkRec (some "A1") "S2" [mkMv 20240115 "X1"]))],
          [(0, updatedMovementRow 1 (mkMv 20240115 "X1"))], 1, 2, 1⟩,
          [.existingTransactionInNewStatement "X1"], 2, 0, 0,
          .keepFile⟩ : FileResult).db.statements) ∧
      LogEvent.existingTransactionInNewStatement "X1" ∈
        (⟨⟨[(0, ⟨"A1", "", some 20240115⟩)],
          [(0, statementRowOf 0 (mkRec (some "A1") "S1" [mkMv 20240101 "X1"])),
           (1, statementRowOf 0 (mkRec (some "A1") "S2" [mkMv 20240115 "X1"]))],
          [(0, updatedMovementRow 1 (mkMv 20240115 "X1"))], 1, 2, 1⟩,
          [.existingTransactionInNewStatement "X1"], 2, 0, 0,
          .keepFile⟩ : FileResult).log :=
  C6_movement_dedup emptyDB
    (mkRec (some "A1") "S1" [mkMv 20240101 "X1"])
    (mkRec (some "A1") "S2" [mkMv 20240115 "X1"])
    "A1" "S1" "S2" "X1" (mkMv 20240101 "X1") (mkMv 20240115 "X1") false _
    (by decide) (by decide) (by decide) (by decide) (by decide) (by decide)
    (by decide) (by decide) (by decide) (by decide) (by decide) (by decide)
    (by decide) (by decide) (by decide)

lemma pyOr_truthy {v : Option String} (h : pyTruthy v = true) (d d' : String) :
    pyOr v d = pyOr v d' := by
  unfold pyTruthy at h
  unfold pyOr
  cases v with
  | none => simp at h
  | some s =>
    simp only [ne_eq, decide_eq_true_eq] at h
    simp [h]

lemma movementRow_truthy {spk : Nat} {mv : MvmtRecord} (h : mvTextTruthy mv = true) :
    updatedMovementRow spk mv = createdMovementRow spk mv := by
  unfold mvTextTruthy at h
  simp only [Bool.and_eq_true] at h
  obtain ⟨⟨⟨⟨⟨⟨⟨⟨h1, h2⟩, h3⟩, h4⟩, h5⟩, h6⟩, h7⟩, h8⟩, h9⟩ := h
  unfold updatedMovementRow createdMovementRow
  rw [pyOr_truthy h1 " " "", pyOr_truthy h2 " " "", pyOr_truthy h3 " " "",
    pyOr_truthy h4 " " "", pyOr_truthy h5 " " "", pyOr_truthy h6 " " "",
    pyOr_truthy h7 " " "", pyOr_truthy h8 " " "", pyOr_truthy h9 " " ""]

/-! Generic membership lemmas about keyed tables, used for the replay
(idempotency) proof. -/

lemma mem_setRow_of_ne {α : Type} {t : List (Nat × α)} {q : Nat × α} {p : Nat} {v : α}
    (hq : q ∈ t) (hne : q.1 ≠ p) : q ∈ setRow t p v := by
  unfold setRow
  exact List.mem_map.mpr ⟨q, hq, by rw [if_neg hne]⟩

lemma mem_setRow_self {α : Type} {t : List (Nat × α)} {w : α} {p : Nat} (v : α)
    (hq : (p, w) ∈ t) : (p, v) ∈ setRow t p v := by
  unfold setRow
  exact List.mem_map.mpr ⟨(p, w), hq, by rw [if_pos rfl]⟩

lemma mem_of_mem_setRow {α : Type} {t : List (Nat × α)} {q : Nat × α} {p : Nat} {v : α}
    (hq : q ∈ setRow t p v) : (q = (p, v)) ∨ (q ∈ t ∧ q.1 ≠ p) := by
  unfold setRow at hq
  obtain ⟨x, hx, hxe⟩ := List.mem_map.mp hq
  by_cases he : x.1 = p
  · rw [if_pos he] at hxe
    exact Or.inl hxe.symm
  · rw [if_neg he] at hxe
    subst hxe
    exact Or.inr ⟨hx, he⟩

lemma nodup_mem_unique {α : Type} {t : List (Nat × α)} {p : Nat} {a b : α}
    (hnd : (t.map Prod.fst).Nodup) (ha : (p, a) ∈ t) (hb : (p, b) ∈ t) : a = b := by
  induction t with
  | nil => simp at ha
  | cons x xs ih =>
    rw [List.map_cons, List.nodup_cons] at hnd
    rcases List.mem_cons.mp ha with ha1 | ha1 <;> rcases List.mem_cons.mp hb with hb1 | hb1
    · exact congrArg Prod.snd (ha1.trans hb1.symm)
    · exfalso
      apply hnd.1
      rw [← ha1]
      exact List.mem_map.mpr ⟨(p, b), hb1, rfl⟩
    · exfalso
      apply hnd.1
      rw [← hb1]
      exact List.mem_map.mpr ⟨(p, a), ha1, rfl⟩
    · exact ih hnd.2 ha1 hb1

lemma eq_of_fst_mem {α : Type} : ∀ {E F : List (Nat × α)},
    E.map Prod.fst = F.map Prod.fst → (F.map Prod.fst).Nodup →
    (∀ x ∈ E, x ∈ F) → E = F := by
  intro E
  induction E with
  | nil =>
    intro F hfst _ _
    cases F with
    | nil => rfl
    | cons f fs => simp at hfst
  | cons e es ih =>
    intro F hfst hnd hmem
    cases F with
    | nil => simp at hfst
    | cons f fs =>
      rw [List.map_cons, List.map_cons] at hfst
      injection hfst with hfst1 hfst2
      rw [List.map_cons, List.nodup_cons] at hnd
      have hef : e = f := by
        rcases List.mem_cons.mp (hmem e (List.mem_cons_self _ _)) with h | h
        · exact h
        · exfalso
          apply hnd.1
          rw [← hfst1]
          exact List.mem_map.mpr ⟨e, h, rfl⟩
      rw [hef]
      congr 1
      apply ih hfst2 hnd.2
      intro x hx
      have hxF := hmem x (List.mem_cons_of_mem _ hx)
      rcases List.mem_cons.mp hxF with h | h
      · exfalso
        apply hnd.1
        have hxm : x.1 ∈ List.map Prod.fst es := List.mem_map.mpr ⟨x, hx, rfl⟩
        rw [hfst2] at hxm
        rw [h] at hxm
        exact hxm
      · exact h

lemma forall2_of_fst {α : Type} {R : (Nat × α) → (Nat × α) → Prop} :
    ∀ {E F : List (Nat × α)},
    E.map Prod.fst = F.map Prod.fst →
    (∀ x ∈ E, ∀ y ∈ F, x.1 = y.1 → R x y) → List.Forall₂ R E F := by
  intro E
  induction E with
  | nil =>
    intro F hfst _
    cases F with
    | nil => exact List.Forall₂.nil
    | cons f fs => simp at hfst
  | cons e es ih =>
    intro F hfst hR
    cases F with
    | nil => simp at hfst
    | cons f fs =>
      rw [List.map_cons, List.map_cons] at hfst
      injection hfst with hfst1 hfst2
      exact List.Forall₂.cons
        (hR e (List.mem_cons_self _ _) f (List.mem_cons_self _ _) hfst1)
        (ih hfst2 (fun x hx y hy he =>
          hR x (List.mem_cons_of_mem _ hx) y (List.mem_cons_of_mem _ hy) he))

lemma filter_map_fst_congr {α : Type} {p : Nat × α → Bool} :
    ∀ {E F : List (Nat × α)},
    List.Forall₂ (fun e f => e.1 = f.1 ∧ p e = p f) E F →
    (E.filter p).map Prod.fst = (F.filter p).map Prod.fst := by
  intro E F h
  induction h with
  | nil => rfl
  | cons hef hrest ih =>
    rename_i e f es fs
    rw [List.filter_cons, List.filter_cons]
    by_cases hpe : p e = true
    · rw [if_pos hpe, if_pos (hef.2 ▸ hpe), List.map_cons, List.map_cons, ih, hef.1]
    · rw [if_neg hpe, if_neg (fun hc => hpe (hef.2 ▸ hc))]
      exact ih

lemma filter_map_fst_setRow {α : Type} {t : List (Nat × α)} {p : Nat} {v w : α}
    {pr : Nat × α → Bool}
    (hnd : (t.map Prod.fst).Nodup) (hmem : (p, w) ∈ t) (hpr : pr (p, v) = pr (p, w)) :
    ((setRow t p v).filter pr).map Prod.fst = (t.filter pr).map Prod.fst := by
  apply filter_map_fst_congr
  apply forall2_of_fst (setRow_map_fst t p v)
  intro x hx y hy hxy
  obtain ⟨yk, yv⟩ := y
  rcases mem_of_mem_setRow hx with hx1 | ⟨hx1, hx2⟩
  · subst hx1
    have hyk : yk = p := by
      have : (p, v).1 = yk := hxy
      exact this.symm
    subst hyk
    have hyw : yv = w := nodup_mem_unique hnd hy hmem
    subst hyw
    exact ⟨rfl, hpr⟩
  · obtain ⟨xk, xv⟩ := x
    have hyk : yk = xk := by
      have : (xk, xv).1 = yk := hxy
      exact this.symm
    subst hyk
    have hyx : yv = xv := nodup_mem_unique hnd hy hx1
    subst hyx
    exact ⟨rfl, rfl⟩

lemma keyMem_refl {α κ : Type} (key : α → κ) (t : List (Nat × α)) :
    keyMem key t t := fun _ v h => ⟨v, h, rfl⟩

lemma keyMem_trans {α κ : Type} {key : α → κ} {t t' t'' : List (Nat × α)}
    (h1 : keyMem key t t') (h2 : keyMem key t' t'') : keyMem key t t'' := by
  intro p v hv
  obtain ⟨w, hw, hwk⟩ := h1 p v hv
  obtain ⟨w2, hw2, hw2k⟩ := h2 p w hw
  exact ⟨w2, hw2, hw2k.trans hwk⟩

lemma keyMem_append {α κ : Type} (key : α → κ) (t l : List (Nat × α)) :
    keyMem key t (t ++ l) := fun _ v h => ⟨v, List.mem_append_left _ h, rfl⟩

lemma keyMem_setRow {α κ : Type} {key : α → κ} {t : List (Nat × α)} {p : Nat}
    {v w : α} (hnd : (t.map Prod.fst).Nodup) (hmem : (p, w) ∈ t)
    (hkey : key v = key w) : keyMem key t (setRow t p v) := by
  intro q u hq
  by_cases hqp : q = p
  · subst hqp
    have huw : u = w := nodup_mem_unique hnd hq hmem
    subst huw
    exact ⟨v, mem_setRow_self v hq, hkey⟩
  · exact ⟨u, mem_setRow_of_ne hq hqp, rfl⟩

lemma filtMem_refl {α : Type} (pr : Nat × α → Bool) (t : List (Nat × α)) :
    filtMem pr t t := fun _ => rfl

lemma filtMem_trans {α : Type} {pr : Nat × α → Bool} {t t' t'' : List (Nat × α)}
    (h1 : filtMem pr t t') (h2 : filtMem pr t' t'') : filtMem pr t t'' := by
  intro hne
  have he := h1 hne
  have hne' : t'.filter pr ≠ [] := by
    intro hc
    rw [hc] at he
    cases hf : t.filter pr with
    | nil => exact hne hf
    | cons x xs => rw [hf] at he; simp at he
  rw [h2 hne', he]

lemma filtMem_append {α : Type} {pr : Nat × α → Bool} {t : List (Nat × α)}
    {x : Nat × α} (h : pr x = true → t.filter pr = []) :
    filtMem pr t (t ++ [x]) := by
  intro hne
  have hx : pr x = false := by
    cases hpx : pr x with
    | false => rfl
    | true => exact absurd (h hpx) hne
  rw [List.filter_append, List.filter_cons, if_neg (by rw [hx]; simp),
    List.filter_nil, List.append_nil]

lemma filtMem_setRow {α : Type} {pr : Nat × α → Bool} {t : List (Nat × α)}
    {p : Nat} {v w : α} (hnd : (t.map Prod.fst).Nodup) (hmem : (p, w) ∈ t)
    (hpr : pr (p, v) = pr (p, w)) : filtMem pr t (setRow t p v) :=
  fun _ => filter_map_fst_setRow hnd hmem hpr

lemma accStable_refl (t : List (Nat × AccountRow)) : accStable t t :=
  ⟨keyMem_refl _ _, fun _ => filtMem_refl _ _, fun _ _ h _ => h⟩

lemma accStable_trans {t t' t'' : List (Nat × AccountRow)}
    (h1 : accStable t t') (h2 : accStable t' t'') : accStable t t'' :=
  ⟨keyMem_trans h1.1 h2.1, fun i => filtMem_trans (h1.2.1 i) (h2.2.1 i),
   fun p v hv hib => h2.2.2 p v (h1.2.2 p v hv hib) hib⟩

lemma stStable_refl (t : List (Nat × StatementRow)) : stStable t t :=
  ⟨keyMem_refl _ _, fun _ _ => filtMem_refl _ _⟩

lemma stStable_trans {t t' t'' : List (Nat × StatementRow)}
    (h1 : stStable t t') (h2 : stStable t' t'') : stStable t t'' :=
  ⟨keyMem_trans h1.1 h2.1, fun n a => filtMem_trans (h1.2 n a) (h2.2 n a)⟩

lemma mvStable_refl (t : List (Nat × MovementRow)) : mvStable t t :=
  ⟨keyMem_refl _ _, fun _ => filtMem_refl _ _⟩

lemma mvStable_trans {t t' t'' : List (Nat × MovementRow)}
    (h1 : mvStable t t') (h2 : mvStable t' t'') : mvStable t t'' :=
  ⟨keyMem_trans h1.1 h2.1, fun u => filtMem_trans (h1.2 u) (h2.2 u)⟩

lemma DB.Stable_refl (D : DB) : DB.Stable D D :=
  ⟨accStable_refl _, stStable_refl _, mvStable_refl _⟩

lemma DB.Stable_trans {D D' D'' : DB} (h1 : DB.Stable D D')
    (h2 : DB.Stable D' D'') : DB.Stable D D'' :=
  ⟨accStable_trans h1.1 h2.1, stStable_trans h1.2.1 h2.2.1,
   mvStable_trans h1.2.2 h2.2.2⟩

lemma map_fst_singleton {α : Type} {t : List (Nat × α)} {k : Nat}
    (h : t.map Prod.fst = [k]) : ∃ w, t = [(k, w)] := by
  cases t with
  | nil => simp at h
  | cons x xs =>
    cases xs with
    | nil =>
      rw [List.map_cons, List.map_nil] at h
      injection h with h1 _
      exact ⟨x.2, by rw [← h1]⟩
    | cons y ys => simp at h

lemma coupled_filter_map_fst {α κ : Type} {key : α → κ} {F D E : List (Nat × α)}
    {pr : Nat × α → Bool}
    (hc : tblCoupled F D E) (hnd : (F.map Prod.fst).Nodup)
    (hkm : keyMem key D F)
    (hpr : ∀ p v w, key v = key w → pr (p, v) = pr (p, w)) :
    (E.filter pr).map Prod.fst = (F.filter pr).map Prod.fst := by
  apply filter_map_fst_congr
  apply forall2_of_fst hc.1
  intro x hx y hy hxy
  obtain ⟨yk, yv⟩ := y
  obtain ⟨xk, xv⟩ := x
  have hk : yk = xk := hxy.symm
  subst hk
  refine ⟨rfl, ?_⟩
  rcases hc.2 _ hx with hF | hD
  · have : xv = yv := nodup_mem_unique hnd hF hy
    rw [this]
  · obtain ⟨w, hwF, hwk⟩ := hkm _ _ hD
    have : w = yv := nodup_mem_unique hnd hwF hy
    subst this
    exact hpr _ _ _ hwk.symm

lemma processMovement_stable {db : DB} {log : List LogEvent} {spk : Nat} {mtu : Bool}
    {mv : MvmtRecord} {db1 : DB} {log1 : List LogEvent}
    (hWF : WFTable db.movements db.next_movement_id)
    (h : processMovement db log spk mtu mv = .ok (db1, log1)) :
    mvStable db.movements db1.movements := by
  unfold processMovement at h
  split at h
  · rename_i hfil
    simp only [Except.ok.injEq, Prod.mk.injEq] at h
    obtain ⟨h1, -⟩ := h
    rw [← h1]
    refine ⟨keyMem_append _ _ _, ?_⟩
    intro u
    show filtMem _ db.movements
      (db.movements ++ [(db.next_movement_id, createdMovementRow spk mv)])
    apply filtMem_append
    intro hpx
    have huid : mv.unique_import_id = u := by
      simpa [createdMovementRow] using hpx
    rw [← huid]
    exact hfil
  · simp only [Except.ok.injEq, Prod.mk.injEq] at h
    obtain ⟨h1, -⟩ := h
    rename_i p w heq
    rw [← h1]
    have hmem : (p, w) ∈ db.movements :=
      List.mem_of_mem_filter (by rw [heq]; exact List.mem_cons_self _ _)
    have hwid : w.unique_import_id = mv.unique_import_id := by
      have hf := (List.mem_filter.mp
        (show (p, w) ∈ db.movements.filter
            (fun q => q.2.unique_import_id == mv.unique_import_id) by
          rw [heq]; exact List.mem_cons_self _ _)).2
      simpa using hf
    refine ⟨?_, ?_⟩
    · show keyMem _ db.movements (setRow db.movements p (updatedMovementRow spk mv))
      apply keyMem_setRow hWF.2 hmem
      show (updatedMovementRow spk mv).unique_import_id = w.unique_import_id
      rw [hwid]
      rfl
    · intro u
      show filtMem _ db.movements (setRow db.movements p (updatedMovementRow spk mv))
      apply filtMem_setRow hWF.2 hmem
      show ((updatedMovementRow spk mv).unique_import_id == u) =
        (w.unique_import_id == u)
      rw [hwid]
      rfl
  · exact absurd h (by simp)

lemma processMovements_stable {spk : Nat} {mtu : Bool} (mvs : List MvmtRecord) :
    ∀ {db : DB} {log : List LogEvent} {last : Option Nat}
      {db' : DB} {log' : List LogEvent} {last' : Option Nat},
    WFTable db.movements db.next_movement_id →
    processMovements db log spk mtu last mvs = .ok (db', log', last') →
    mvStable db.movements db'.movements := by
  induction mvs with
  | nil =>
    intro db log last db' log' last' hWF h
    simp only [processMovements, Except.ok.injEq, Prod.mk.injEq] at h
    rw [← h.1]
    exact mvStable_refl _
  | cons mv rest ih =>
    intro db log last db' log' last' hWF h
    simp only [processMovements] at h
    cases hpm : processMovement db log spk mtu mv with
    | error e => rw [hpm] at h; exact absurd h (by simp)
    | ok pr =>
      obtain ⟨db1, log1⟩ := pr
      rw [hpm] at h
      have hWF1 := (processMovement_ok hpm).2.2.2.2.2 hWF
      exact mvStable_trans (processMovement_stable hWF hpm) (ih hWF1 h)

lemma importStatement_stable {db : DB} {log : List LogEvent} {r : StmtRecord}
    {db' : DB} {log' : List LogEvent} {out : Outcome}
    (hWF : db.WF) (h : importStatement db log r = .ok (db', log', out)) :
    DB.Stable db db' := by
  by_cases hout : out = .failed
  · subst hout
    obtain ⟨hdb, -⟩ := importStatement_failed h
    rw [hdb]
    exact DB.Stable_refl _
  · cases hacc : r.account_number with
    | none =>
      have := (@importStatement_noIban db log _ hacc).symm.trans h
      simp only [Except.ok.injEq, Prod.mk.injEq] at this
      exact absurd this.2.2.symm hout
    | some i =>
      obtain ⟨apk, acct, spk, mtu, dbS, dbm, logm, last, hA, hS, hSm, hSnm, hpm, hlogm,
        hlast, hstm, hmvm, hnsm, hnmm, hnaS, hfin⟩ := importStatement_run h hout hacc
      have hacct_iban : acct.iban = i := by
        rcases hA with ⟨hfil, hapk, hacct, hdbS, hdbSn⟩ | ⟨hfil, hdbS, hdbSn⟩
        · rw [hacct]
        · have hm := List.mem_filter.mp
            (show (apk, acct) ∈ db.accounts.filter (fun q => q.2.iban == i) by
              rw [hfil]; exact List.mem_cons_self _ _)
          simpa using hm.2
      have hstep1 : accStable db.accounts dbS.accounts ∧
          (dbS.accounts.map Prod.fst).Nodup ∧ (apk, acct) ∈ dbS.accounts := by
        rcases hA with ⟨hfil, hapk, hacct, hdbS, hdbSn⟩ | ⟨hfil, hdbS, hdbSn⟩
        · rw [hdbS]
          refine ⟨⟨keyMem_append _ _ _, fun j => ?_,
              fun p v hv hib => List.mem_append_left _ hv⟩, ?_,
            List.mem_append_right _ (List.mem_cons_self _ _)⟩
          · apply filtMem_append
            intro hpx
            have hij : i = j := by
              rw [hacct] at hpx
              simpa using hpx
            rw [← hij]
            exact hfil
          · rw [hapk]
            exact (WFTable_append hWF.1 acct).2
        · rw [hdbS]
          exact ⟨accStable_refl _, hWF.1.2,
            List.mem_of_mem_filter (by rw [hfil]; exact List.mem_cons_self _ _)⟩
      have hstep2 : accStable dbS.accounts db'.accounts := by
        rcases hfin with ⟨hne, hib, hdb'⟩ | ⟨heq, hdb'⟩
        · rw [hdb']
          refine ⟨keyMem_setRow hstep1.2.1 hstep1.2.2 rfl,
            fun j => filtMem_setRow hstep1.2.1 hstep1.2.2 rfl, ?_⟩
          intro p v hv hib0
          by_cases hp : p = apk
          · subst hp
            have hva : v = acct := nodup_mem_unique hstep1.2.1 hv hstep1.2.2
            rw [hva] at hib0
            exact absurd hib0 hib
          · exact mem_setRow_of_ne hv hp
        · rw [hdb']
          exact accStable_refl _
      have hdbmS : dbm.statements = dbS.statements :=
        (processMovements_ok r.transactions hpm).2.1
      have hstmts : stStable db.statements db'.statements := by
        rw [hstm, hdbmS]
        rcases hS with ⟨hfil, hspk, hmtu, houte, hdbS, hdbSn⟩ |
          ⟨w, hfil, hmtu, houte, hdbS, hdbSn⟩
        · rw [hdbS]
          refine ⟨keyMem_append _ _ _, fun n a => ?_⟩
          apply filtMem_append
          intro hpx
          have hna : r.name = n ∧ apk = a := by
            simpa [statementRowOf] using hpx
          rw [← hna.1, ← hna.2]
          exact hfil
        · have hmem : (spk, w) ∈ db.statements :=
            List.mem_of_mem_filter (by rw [hfil]; exact List.mem_cons_self _ _)
          have hkey : w.statement_number = r.name ∧ w.account = apk := by
            have hf := (List.mem_filter.mp
              (show (spk, w) ∈ db.statements.filter
                  (fun q => q.2.statement_number == r.name && q.2.account == apk) by
                rw [hfil]; exact List.mem_cons_self _ _)).2
            simpa using hf
          rw [hdbS]
          refine ⟨keyMem_setRow hWF.2.1.2 hmem ?_, fun n a => ?_⟩
          · show (r.name, apk) = (w.statement_number, w.account)
            rw [hkey.1, hkey.2]
          · apply filtMem_setRow hWF.2.1.2 hmem
            show ((r.name == n) && (apk == a)) =
              ((w.statement_number == n) && (w.account == a))
            rw [hkey.1, hkey.2]
      have hWFSm : WFTable dbS.movements dbS.next_movement_id := by
        rw [hSm, hSnm]
        exact hWF.2.2
      have hmvs : mvStable db.movements db'.movements := by
        rw [hmvm, ← hSm]
        exact processMovements_stable r.transactions hWFSm hpm
      exact ⟨accStable_trans hstep1.1 hstep2, hstmts, hmvs⟩

lemma importFileLoop_WF (recs : List StmtRecord) :
    ∀ {db : DB} {log : List LogEvent} {n u f : Nat} {db' : DB}
      {log' : List LogEvent} {n' u' f' : Nat},
    db.WF → importFileLoop db log n u f recs = .ok (db', log', n', u', f') →
    db'.WF := by
  induction recs with
  | nil =>
    intro db log n u f db' log' n' u' f' hWF h
    simp only [importFileLoop, Except.ok.injEq, Prod.mk.injEq] at h
    rw [← h.1]
    exact hWF
  | cons r rest ih =>
    intro db log n u f db' log' n' u' f' hWF h
    simp only [importFileLoop] at h
    cases hst : importStatement db log r with
    | error e => rw [hst] at h; exact absurd h (by simp)
    | ok pr =>
      obtain ⟨db1, log1, out1⟩ := pr
      rw [hst] at h
      have hWF1 := (importStatement_WF hWF hst).1
      cases out1 with
      | failed => exact ih hWF1 h
      | created => exact ih hWF1 h
      | updated => exact ih hWF1 h

lemma importFileLoop_stable (recs : List StmtRecord) :
    ∀ {db : DB} {log : List LogEvent} {n u f : Nat} {db' : DB}
      {log' : List LogEvent} {n' u' f' : Nat},
    db.WF → importFileLoop db log n u f recs = .ok (db', log', n', u', f') →
    DB.Stable db db' := by
  induction recs with
  | nil =>
    intro db log n u f db' log' n' u' f' hWF h
    simp only [importFileLoop, Except.ok.injEq, Prod.mk.injEq] at h
    rw [← h.1]
    exact DB.Stable_refl _
  | cons r rest ih =>
    intro db log n u f db' log' n' u' f' hWF h
    simp only [importFileLoop] at h
    cases hst : importStatement db log r with
    | error e => rw [hst] at h; exact absurd h (by simp)
    | ok pr =>
      obtain ⟨db1, log1, out1⟩ := pr
      rw [hst] at h
      have hWF1 := (importStatement_WF hWF hst).1
      have hs1 := importStatement_stable hWF hst
      cases out1 with
      | failed => exact DB.Stable_trans hs1 (ih hWF1 h)
      | created => exact DB.Stable_trans hs1 (ih hWF1 h)
      | updated => exact DB.Stable_trans hs1 (ih hWF1 h)

lemma importFileLoop_counters_le (recs : List StmtRecord) :
    ∀ {db : DB} {log : List LogEvent} {n u f : Nat} {db' : DB}
      {log' : List LogEvent} {n' u' f' : Nat},
    importFileLoop db log n u f recs = .ok (db', log', n', u', f') →
    n ≤ n' ∧ u ≤ u' ∧ f ≤ f' := by
  induction recs with
  | nil =>
    intro db log n u f db' log' n' u' f' h
    simp only [importFileLoop, Except.ok.injEq, Prod.mk.injEq] at h
    omega
  | cons r rest ih =>
    intro db log n u f db' log' n' u' f' h
    simp only [importFileLoop] at h
    cases hst : importStatement db log r with
    | error e => rw [hst] at h; exact absurd h (by simp)
    | ok pr =>
      obtain ⟨db1, log1, out1⟩ := pr
      rw [hst] at h
      cases out1 with
      | failed => have := ih h; omega
      | created => have := ih h; omega
      | updated => have := ih h; omega

lemma importStatement_failed_inv {db : DB} {log : List LogEvent} {r : StmtRecord}
    {db' : DB} {log' : List LogEvent}
    (h : importStatement db log r = .ok (db', log', .failed)) :
    db' = db ∧
    (r.account_number = none ∨
     ∃ i x y rest, r.account_number = some i ∧
       db.accounts.filter (fun q => q.2.iban == i) = x :: y :: rest) := by
  unfold importStatement at h
  split at h
  · rename_i hacc
    simp only [Except.ok.injEq, Prod.mk.injEq] at h
    exact ⟨h.1.symm, Or.inl hacc⟩
  · rename_i i hacc
    split at h
    · unfold accountFullClean at h
      split at h
      · exact absurd h (by simp)
      · obtain ⟨spk, mtu, dbS, htail, hcase⟩ := importStatementResolved_ok h
        rcases hcase with ⟨h1, h2, h3, hcr, h5⟩ | ⟨w, h2, h3, hcr, h5⟩ <;>
          exact absurd hcr (by simp)
    · obtain ⟨spk, mtu, dbS, htail, hcase⟩ := importStatementResolved_ok h
      rcases hcase with ⟨h1, h2, h3, hcr, h5⟩ | ⟨w, h2, h3, hcr, h5⟩ <;>
        exact absurd hcr (by simp)
    · rename_i x y rest hfil
      simp only [Except.ok.injEq, Prod.mk.injEq] at h
      exact ⟨h.1.symm, Or.inr ⟨i, x, y, rest, hacc, hfil⟩⟩

/-! Replay (second run) simulation, movement level. -/

lemma processMovement_update {E : DB} {logE : List LogEvent} {spk : Nat}
    {mv : MvmtRecord} {p : Nat} {w : MovementRow}
    (hfil : E.movements.filter
      (fun q => q.2.unique_import_id == mv.unique_import_id) = [(p, w)]) :
    processMovement E logE spk true mv =
      .ok ({ E with movements := setRow E.movements p (updatedMovementRow spk mv) },
        logE) := by
  unfold processMovement
  rw [hfil]
  rfl

lemma processMovements_replay {spk : Nat} {mtu1 : Bool} {Fm : List (Nat × MovementRow)}
    (hndF : (Fm.map Prod.fst).Nodup) (mvs : List MvmtRecord) :
    ∀ {D E : DB} {logD logE : List LogEvent} {lastD lastE : Option Nat}
      {Dm : DB} {logDm : List LogEvent} {lastDm : Option Nat},
    processMovements D logD spk mtu1 lastD mvs = .ok (Dm, logDm, lastDm) →
    WFTable D.movements D.next_movement_id →
    (∀ mv ∈ mvs, mvTextTruthy mv = true) →
    mvStable Dm.movements Fm →
    tblCoupled Fm D.movements E.movements →
    ∃ Em logEm lastEm,
      processMovements E logE spk true lastE mvs = .ok (Em, logEm, lastEm) ∧
      tblCoupled Fm Dm.movements Em.movements ∧
      Em.accounts = E.accounts ∧ Em.statements = E.statements ∧
      Em.next_account_id = E.next_account_id ∧
      Em.next_statement_id = E.next_statement_id ∧
      Em.next_movement_id = E.next_movement_id := by
  induction mvs with
  | nil =>
    intro D E logD logE lastD lastE Dm logDm lastDm h hWF htru hFstab hC
    simp only [processMovements, Except.ok.injEq, Prod.mk.injEq] at h
    refine ⟨E, logE, lastE, rfl, ?_, rfl, rfl, rfl, rfl, rfl⟩
    rw [← h.1]
    exact hC
  | cons mv rest ih =>
    intro D E logD logE lastD lastE Dm logDm lastDm h hWF htru hFstab hC
    simp only [processMovements] at h
    cases hpm : processMovement D logD spk mtu1 mv with
    | error e => rw [hpm] at h; exact absurd h (by simp)
    | ok prD =>
      obtain ⟨D1, logD1⟩ := prD
      rw [hpm] at h
      have hWF1 : WFTable D1.movements D1.next_movement_id :=
        (processMovement_ok hpm).2.2.2.2.2 hWF
      have htmv : mvTextTruthy mv = true := htru mv (List.mem_cons_self _ _)
      have hpredc : ((createdMovementRow spk mv).unique_import_id ==
          mv.unique_import_id) = true := by
        simp [createdMovementRow]
      have hpredu : ((updatedMovementRow spk mv).unique_import_id ==
          mv.unique_import_id) = true := by
        simp [updatedMovementRow]
      obtain ⟨mpk, hD1fil, hD1row, hDkeep⟩ :
          ∃ mpk, D1.movements.filter
              (fun q => q.2.unique_import_id == mv.unique_import_id) =
              [(mpk, updatedMovementRow spk mv)] ∧
            (mpk, updatedMovementRow spk mv) ∈ D1.movements ∧
            ∀ x ∈ D.movements, x.1 ≠ mpk → x ∈ D1.movements := by
        unfold processMovement at hpm
        split at hpm
        · rename_i hfil
          simp only [Except.ok.injEq, Prod.mk.injEq] at hpm
          obtain ⟨h1, -⟩ := hpm
          rw [← h1]
          refine ⟨D.next_movement_id, ?_, ?_, ?_⟩
          · show (D.movements ++
              [(D.next_movement_id, createdMovementRow spk mv)]).filter _ = _
            rw [List.filter_append, hfil, List.filter_cons, if_pos hpredc,
              movementRow_truthy htmv]
            rfl
          · show _ ∈ D.movements ++ [(D.next_movement_id, createdMovementRow spk mv)]
            rw [movementRow_truthy htmv]
            exact List.mem_append_right _ (List.mem_cons_self _ _)
          · intro x hx _
            exact List.mem_append_left _ hx
        · rename_i p w heq
          simp only [Except.ok.injEq, Prod.mk.injEq] at hpm
          obtain ⟨h1, -⟩ := hpm
          rw [← h1]
          have hmemw : (p, w) ∈ D.movements :=
            List.mem_of_mem_filter (by rw [heq]; exact List.mem_cons_self _ _)
          refine ⟨p, ?_, ?_, ?_⟩
          · show (setRow D.movements p (updatedMovementRow spk mv)).filter _ = _
            exact filter_setRow_single hWF.2 heq _ hpredu
          · exact mem_setRow_self _ hmemw
          · intro x hx hne
            exact mem_setRow_of_ne hx hne
        · exact absurd hpm (by simp)
      have hD1Dm : mvStable D1.movements Dm.movements :=
        processMovements_stable rest hWF1 h
      have hDF : mvStable D.movements Fm :=
        mvStable_trans (processMovement_stable hWF hpm)
          (mvStable_trans hD1Dm hFstab)
      have hFfil : (Fm.filter
          (fun q => q.2.unique_import_id == mv.unique_import_id)).map Prod.fst =
          [mpk] := by
        have h1 := (mvStable_trans hD1Dm hFstab).2 mv.unique_import_id
          (by rw [hD1fil]; simp)
        rw [h1, hD1fil]
        rfl
      have hprm : ∀ (p : Nat) (v w : MovementRow),
          v.unique_import_id = w.unique_import_id →
          ((fun q : Nat × MovementRow =>
            q.2.unique_import_id == mv.unique_import_id) (p, v)) =
          ((fun q : Nat × MovementRow =>
            q.2.unique_import_id == mv.unique_import_id) (p, w)) := by
        intro p v w hk
        show (v.unique_import_id == _) = (w.unique_import_id == _)
        rw [hk]
      have hEfil_fst : (E.movements.filter
          (fun q => q.2.unique_import_id == mv.unique_import_id)).map Prod.fst =
          [mpk] :=
        (coupled_filter_map_fst hC hndF hDF.1 hprm).trans hFfil
      obtain ⟨wE, hEfil⟩ := map_fst_singleton hEfil_fst
      have hstep2 := @processMovement_update E logE spk _ _ _ hEfil
      have hcpl1 : tblCoupled Fm D1.movements
          (setRow E.movements mpk (updatedMovementRow spk mv)) := by
        refine ⟨by rw [setRow_map_fst]; exact hC.1, ?_⟩
        intro x hx
        rcases mem_of_mem_setRow hx with hx1 | ⟨hx1, hx2⟩
        · rw [hx1]
          exact Or.inr hD1row
        · rcases hC.2 x hx1 with hF | hD
          · exact Or.inl hF
          · exact Or.inr (hDkeep x hD hx2)
      obtain ⟨Em, logEm, lastEm, hpmE, hcpl, hEa, hEs, hEna, hEns, hEnm⟩ :=
        @ih _ ({ E with movements := setRow E.movements mpk (updatedMovementRow spk mv) })
          _ logE _ (pyMax lastE mv.date) _ _ _
          h hWF1 (fun mv' hm => htru mv' (List.mem_cons_of_mem _ hm)) hFstab hcpl1
      refine ⟨Em, logEm, lastEm, ?_, hcpl, hEa, hEs, hEna, hEns, hEnm⟩
      show processMovements E logE spk true lastE (mv :: rest) = _
      simp only [processMovements]
      rw [hstep2]
      exact hpmE

lemma importStatement_found {db : DB} {log : List LogEvent} {r : StmtRecord}
    {i : String} {apk : Nat} {row : AccountRow}
    (hi : r.account_number = some i)
    (hf : db.accounts.filter (fun q => q.2.iban == i) = [(apk, row)]) :
    importStatement db log r = importStatementResolved db log r apk row := by
  unfold importStatement
  rw [hi]
  simp only [hf]

lemma importStatementResolved_found {db : DB} {log : List LogEvent} {r : StmtRecord}
    {apk : Nat} {acct : AccountRow} {spk : Nat} {w : StatementRow}
    (hf : db.statements.filter
      (fun q => q.2.statement_number == r.name && q.2.account == apk) = [(spk, w)]) :
    importStatementResolved db log r apk acct =
      importStatementTail
        { db with statements := setRow db.statements spk (statementRowOf apk r) }
        log r apk acct spk true .updated := by
  unfold importStatementResolved
  rw [hf]

lemma importStatementTail_run2 {db : DB} {log : List LogEvent} {r : StmtRecord}
    {apk : Nat} {acct : AccountRow} {spk : Nat} {dbm' : DB} {logm' : List LogEvent}
    {last : Option Nat}
    (hpm : processMovements db log spk true none r.transactions =
      .ok (dbm', logm', last)) :
    (acct.last_movement = last →
      importStatementTail db log r apk acct spk true .updated =
        .ok (dbm', logm', .updated)) ∧
    (acct.last_movement ≠ last → acct.iban ≠ "" →
      importStatementTail db log r apk acct spk true .updated =
        .ok ({ dbm' with
          accounts := setRow dbm'.accounts apk { acct with last_movement := last } },
          logm', .updated)) := by
  have hred : importStatementTail db log r apk acct spk true .updated =
      (if acct.last_movement ≠ last then
        match accountFullClean { acct with last_movement := last } with
        | .error e => .error (e, dbm', logm')
        | .ok row => .ok ({ dbm' with accounts := setRow dbm'.accounts apk row },
            logm', Outcome.updated)
      else .ok (dbm', logm', Outcome.updated)) := by
    unfold importStatementTail
    rw [hpm]
  constructor
  · intro heq
    rw [hred, if_neg (not_not_intro heq)]
  · intro hne hib
    have hfc : accountFullClean { acct with last_movement := last } =
        .ok { acct with last_movement := last } := by
      unfold accountFullClean
      rw [if_neg (show ¬({ acct with last_movement := last } : AccountRow).iban = ""
        from hib)]
    rw [hred, if_pos hne, hfc]

lemma importStatement_replay {F D D' E : DB} {log1 log1' log2 : List LogEvent}
    {r : StmtRecord} {out : Outcome}
    (hWFD : D.WF) (hWFF : F.WF)
    (hstep : importStatement D log1 r = .ok (D', log1', out))
    (htru : ∀ mv ∈ r.transactions, mvTextTruthy mv = true)
    (hsuf : DB.Stable D' F)
    (hC : DB.Coupled F D E) :
    ∃ E' log2' out2, importStatement E log2 r = .ok (E', log2', out2) ∧
      DB.Coupled F D' E' ∧
      (out = .failed → out2 = .failed) ∧ (out ≠ .failed → out2 = .updated) := by
  by_cases hout : out = .failed
  · subst hout
    obtain ⟨hD'D, hcase⟩ := importStatement_failed_inv hstep
    rw [hD'D] at hsuf
    rcases hcase with hnone | ⟨i, x, y, rest, hacc, hfil⟩
    · exact ⟨E, log2 ++ [.statementWithoutIban r.name], .failed,
        importStatement_noIban hnone, by rw [hD'D]; exact hC, fun _ => rfl,
        fun hne => absurd rfl hne⟩
    · have hEfst : (E.accounts.filter (fun q => q.2.iban == i)).map Prod.fst =
          (F.accounts.filter (fun q => q.2.iban == i)).map Prod.fst := by
        apply coupled_filter_map_fst hC.1 hWFF.1.2 hsuf.1.1
        intro p v w hk
        show (v.iban == i) = (w.iban == i)
        have h1 : v.iban = w.iban := congrArg Prod.fst hk
        rw [h1]
      have hFfst : (F.accounts.filter (fun q => q.2.iban == i)).map Prod.fst =
          (D.accounts.filter (fun q => q.2.iban == i)).map Prod.fst :=
        hsuf.1.2.1 i (by rw [hfil]; simp)
      obtain ⟨x', y', rest', hEfil⟩ :
          ∃ x' y' rest', E.accounts.filter (fun q => q.2.iban == i) =
            x' :: y' :: rest' := by
        have h2 : (E.accounts.filter (fun q => q.2.iban == i)).map Prod.fst =
            (x :: y :: rest).map Prod.fst := by rw [hEfst, hFfst, hfil]
        cases hE : E.accounts.filter (fun q => q.2.iban == i) with
        | nil => rw [hE] at h2; simp at h2
        | cons a as =>
          cases as with
          | nil => rw [hE] at h2; simp at h2
          | cons b bs => exact ⟨a, b, bs, rfl⟩
      exact ⟨E, log2 ++ [.multipleAccountsWithIban i], .failed,
        importStatement_multiAccount hacc hEfil, by rw [hD'D]; exact hC,
        fun _ => rfl, fun hne => absurd rfl hne⟩
  · cases hacc : r.account_number with
    | none =>
      have hh := (@importStatement_noIban D log1 _ hacc).symm.trans hstep
      simp only [Except.ok.injEq, Prod.mk.injEq] at hh
      exact absurd hh.2.2.symm hout
    | some i =>
      obtain ⟨apk, acct, spk, mtu, dbS, dbm, logm, last, hA, hS, hSm, hSnm, hpm, hlogm,
        hlast, hstm, hmvm, hnsm, hnmm, hnaS, hfin⟩ := importStatement_run hstep hout hacc
      have hacct_iban : acct.iban = i := by
        rcases hA with ⟨hfil, hapk, hacct, hdbSa, hdbSn⟩ | ⟨hfil, hdbSa, hdbSn⟩
        · rw [hacct]
        · have hm := List.mem_filter.mp
            (show (apk, acct) ∈ D.accounts.filter (fun q => q.2.iban == i) by
              rw [hfil]; exact List.mem_cons_self _ _)
          simpa using hm.2
      obtain ⟨hdbSfil, hndS, hmemS, hkeepA, hatA⟩ :
          (dbS.accounts.filter (fun q => q.2.iban == i) = [(apk, acct)]) ∧
          (dbS.accounts.map Prod.fst).Nodup ∧ ((apk, acct) ∈ dbS.accounts) ∧
          (∀ x ∈ D.accounts, x.1 ≠ apk → x ∈ dbS.accounts) ∧
          (∀ v, (apk, v) ∈ D.accounts → v = acct) := by
        rcases hA with ⟨hfil, hapk, hacct, hdbSa, hdbSn⟩ | ⟨hfil, hdbSa, hdbSn⟩
        · refine ⟨?_, ?_, ?_, ?_, ?_⟩
          · rw [hdbSa, List.filter_append, hfil, List.filter_cons,
              if_pos (show (acct.iban == i) = true by rw [hacct_iban]; simp)]
            rfl
          · rw [hdbSa, hapk]
            exact (WFTable_append hWFD.1 acct).2
          · rw [hdbSa]
            exact List.mem_append_right _ (List.mem_cons_self _ _)
          · intro x hx _
            rw [hdbSa]
            exact List.mem_append_left _ hx
          · intro v hv
            have hlt := hWFD.1.1 _ hv
            rw [hapk] at hlt
            exact absurd hlt (lt_irrefl _)
        · have hmemD : (apk, acct) ∈ D.accounts :=
            List.mem_of_mem_filter (by rw [hfil]; exact List.mem_cons_self _ _)
          refine ⟨?_, ?_, ?_, ?_, ?_⟩
          · rw [hdbSa]
            exact hfil
          · rw [hdbSa]
            exact hWFD.1.2
          · rw [hdbSa]
            exact hmemD
          · intro x hx _
            rw [hdbSa]
            exact hx
          · intro v hv
            exact nodup_mem_unique hWFD.1.2 hv hmemD
      obtain ⟨hD'filA, hkeepA'⟩ :
          (D'.accounts.filter (fun q => q.2.iban == i) =
            [(apk, (⟨acct.iban, acct.bic, last⟩ : AccountRow))]) ∧
          (∀ x ∈ dbS.accounts, x.1 ≠ apk → x ∈ D'.accounts) := by
        rcases hfin with ⟨hne, hib, hdb'⟩ | ⟨heq, hdb'⟩
        · constructor
          · rw [hdb']
            exact filter_setRow_single hndS hdbSfil _
              (show (acct.iban == i) = true by rw [hacct_iban]; simp)
          · intro x hx hne2
            rw [hdb']
            exact mem_setRow_of_ne hx hne2
        · constructor
          · rw [hdb', hdbSfil, ← heq]
          · intro x hx _
            rw [hdb']
            exact hx
      have hmemD'A : ((apk, (⟨acct.iban, acct.bic, last⟩ : AccountRow)) ∈
          D'.accounts) :=
        List.mem_of_mem_filter
          (show _ ∈ D'.accounts.filter (fun q => q.2.iban == i) by
            rw [hD'filA]; exact List.mem_cons_self _ _)
      have hkmA : keyMem accKey D.accounts F.accounts :=
        keyMem_trans (importStatement_stable hWFD hstep).1.1 hsuf.1.1
      have hEfilA_fst : (E.accounts.filter (fun q => q.2.iban == i)).map Prod.fst =
          [apk] := by
        have h1 := @coupled_filter_map_fst _ _ _ _ _ _
          (fun q => q.2.iban == i) hC.1 hWFF.1.2 hkmA
          (by intro p v w hk
              show (v.iban == i) = (w.iban == i)
              have h2 : v.iban = w.iban := congrArg Prod.fst hk
              rw [h2])
        have h3 := hsuf.1.2.1 i (by rw [hD'filA]; simp)
        rw [h1, h3, hD'filA]
        rfl
      obtain ⟨acctE, hEfilA⟩ := map_fst_singleton hEfilA_fst
      have hmemEA : (apk, acctE) ∈ E.accounts :=
        List.mem_of_mem_filter
          (show _ ∈ E.accounts.filter (fun q => q.2.iban == i) by
            rw [hEfilA]; exact List.mem_cons_self _ _)
      have hEiban : acctE.iban = i := by
        have hf := (List.mem_filter.mp
          (show (apk, acctE) ∈ E.accounts.filter (fun q => q.2.iban == i) by
            rw [hEfilA]; exact List.mem_cons_self _ _)).2
        simpa using hf
      have hndE : (E.accounts.map Prod.fst).Nodup := by
        rw [hC.1.1]
        exact hWFF.1.2
      have hEprov : ((apk, acctE) ∈ F.accounts) ∨ acctE = acct := by
        rcases hC.1.2 _ hmemEA with hF | hD
        · exact Or.inl hF
        · exact Or.inr (hatA _ hD)
      have hEbic : acctE.bic = acct.bic := by
        rcases hEprov with hF | hDa
        · obtain ⟨w, hwF, hwk⟩ := hsuf.1.1 apk _ hmemD'A
          have hw : w = acctE := nodup_mem_unique hWFF.1.2 hwF hF
          rw [← hw]
          exact congrArg Prod.snd hwk
        · rw [hDa]
      have hrowOf_pred : (((statementRowOf apk r).statement_number == r.name) &&
          ((statementRowOf apk r).account == apk)) = true := by
        simp [statementRowOf]
      have hdbmS : dbm.statements = dbS.statements :=
        (processMovements_ok r.transactions hpm).2.1
      obtain ⟨hD'filS, hkeepS⟩ :
          (D'.statements.filter
            (fun q => q.2.statement_number == r.name && q.2.account == apk) =
            [(spk, statementRowOf apk r)]) ∧
          (∀ x ∈ D.statements, x.1 ≠ spk → x ∈ D'.statements) := by
        rw [hstm, hdbmS]
        rcases hS with ⟨hfil, hspk, hmtu, houte, hdbSs, hdbSn⟩ |
          ⟨w, hfil, hmtu, houte, hdbSs, hdbSn⟩
        · rw [hdbSs]
          refine ⟨?_, ?_⟩
          · rw [List.filter_append, hfil, List.filter_cons, if_pos hrowOf_pred]
            rfl
          · intro x hx _
            exact List.mem_append_left _ hx
        · rw [hdbSs]
          refine ⟨filter_setRow_single hWFD.2.1.2 hfil _ hrowOf_pred, ?_⟩
          intro x hx hne
          exact mem_setRow_of_ne hx hne
      have hmemD'S : (spk, statementRowOf apk r) ∈ D'.statements :=
        List.mem_of_mem_filter
          (show _ ∈ D'.statements.filter
              (fun q => q.2.statement_number == r.name && q.2.account == apk) by
            rw [hD'filS]; exact List.mem_cons_self _ _)
      have hkmS : keyMem stKey D.statements F.statements :=
        keyMem_trans (importStatement_stable hWFD hstep).2.1.1 hsuf.2.1.1
      have hEfilS_fst : (E.statements.filter
          (fun q => q.2.statement_number == r.name && q.2.account == apk)).map
            Prod.fst = [spk] := by
        have h1 := @coupled_filter_map_fst _ _ _ _ _ _
          (fun q => q.2.statement_number == r.name && q.2.account == apk)
          hC.2.1 hWFF.2.1.2 hkmS
          (by intro p v w hk
              show ((v.statement_number == r.name) && (v.account == apk)) =
                ((w.statement_number == r.name) && (w.account == apk))
              have h2 : v.statement_number = w.statement_number := congrArg Prod.fst hk
              have h3 : v.account = w.account := congrArg Prod.snd hk
              rw [h2, h3])
        have h3 := hsuf.2.1.2 r.name apk (by rw [hD'filS]; simp)
        rw [h1, h3, hD'filS]
        rfl
      obtain ⟨wES, hEfilS⟩ := map_fst_singleton hEfilS_fst
      have hrun2a : importStatement E log2 r =
          importStatementTail
            { E with statements := setRow E.statements spk (statementRowOf apk r) }
            log2 r apk acctE spk true .updated :=
        (importStatement_found hacc hEfilA).trans (importStatementResolved_found hEfilS)
      obtain ⟨Em, logEm, lastEm, hpmE, hcplM, hEmA, hEmS, hEmNA, hEmNS, hEmNM⟩ :=
        @processMovements_replay spk mtu _ hWFF.2.2.2 r.transactions
          _ ({ E with statements := setRow E.statements spk (statementRowOf apk r) })
          _ log2 _ none _ _ _
          hpm (by rw [hSm, hSnm]; exact hWFD.2.2) htru
          (by rw [← hmvm]; exact hsuf.2.2)
          (by show tblCoupled F.movements dbS.movements E.movements
              rw [hSm]; exact hC.2.2.1)
      have hlastEm : lastEm = last := by
        have h1 := (processMovements_ok r.transactions hpmE).2.2.2.2.2.1
        rw [h1, hlast]
      rw [hlastEm] at hpmE
      have hcplS : tblCoupled F.statements D'.statements
          (setRow E.statements spk (statementRowOf apk r)) := by
        refine ⟨by rw [setRow_map_fst]; exact hC.2.1.1, ?_⟩
        intro x hx
        rcases mem_of_mem_setRow hx with hx1 | ⟨hx1, hx2⟩
        · rw [hx1]
          exact Or.inr hmemD'S
        · rcases hC.2.1.2 x hx1 with hF | hD
          · exact Or.inl hF
          · exact Or.inr (hkeepS x hD hx2)
      have hcplM' : tblCoupled F.movements D'.movements Em.movements := by
        rw [hmvm]
        exact hcplM
      have hidA : Em.next_account_id = F.next_account_id := by
        rw [hEmNA]
        exact hC.2.2.2.1
      have hidS : Em.next_statement_id = F.next_statement_id := by
        rw [hEmNS]
        exact hC.2.2.2.2.1
      have hidM : Em.next_movement_id = F.next_movement_id := by
        rw [hEmNM]
        exact hC.2.2.2.2.2
      by_cases hlm : acctE.last_movement = last
      · have hA_skip : ∀ x ∈ E.accounts, x ∈ F.accounts ∨ x ∈ D'.accounts := by
          intro x hx
          rcases hC.1.2 x hx with hF | hD
          · exact Or.inl hF
          · by_cases hxp : x.1 = apk
            · obtain ⟨xk, xv⟩ := x
              have hxk : xk = apk := hxp
              subst hxk
              have hxv : xv = acct := hatA _ hD
              have hxe : xv = acctE := nodup_mem_unique hndE hx hmemEA
              have hacct_lm : acct.last_movement = last := by
                rw [← hxv, hxe]
                exact hlm
              rcases hfin with ⟨hne, hib, hdb'⟩ | ⟨heq, hdb'⟩
              · exact absurd hacct_lm hne
              · rw [hxv]
                refine Or.inr ?_
                rw [hdb']
                exact hmemS
            · exact Or.inr (hkeepA' _ (hkeepA x hD hxp) hxp)
        refine ⟨Em, logEm, .updated,
          hrun2a.trans ((importStatementTail_run2 hpmE).1 hlm), ?_,
          fun hf => absurd hf hout, fun _ => rfl⟩
        refine ⟨?_, ?_, hcplM', hidA, hidS, hidM⟩
        · rw [hEmA]
          show tblCoupled F.accounts D'.accounts E.accounts
          exact ⟨hC.1.1, hA_skip⟩
        · rw [hEmS]
          exact hcplS
      · have hlm_empty : acct.iban = "" → acctE.last_movement = last := by
          intro hib0
          have hskip : acct.last_movement = last ∧ D'.accounts = dbS.accounts := by
            rcases hfin with ⟨hne, hib, hdb'⟩ | ⟨heq, hdb'⟩
            · exact absurd hib0 hib
            · exact ⟨heq, hdb'⟩
          have hmemD' : (apk, acct) ∈ D'.accounts := by
            rw [hskip.2]
            exact hmemS
          have hmemF : (apk, acct) ∈ F.accounts := hsuf.1.2.2 apk acct hmemD' hib0
          rcases hEprov with hF | hDa
          · have hea : acctE = acct := nodup_mem_unique hWFF.1.2 hF hmemF
            rw [hea, hskip.1]
          · rw [hDa, hskip.1]
        have hib2 : acctE.iban ≠ "" := by
          intro hc
          exact hlm (hlm_empty ((hacct_iban.trans hEiban.symm).trans hc))
        have hv2 : ({ acctE with last_movement := last } : AccountRow) =
            ⟨acct.iban, acct.bic, last⟩ := by
          have h1 : acctE.iban = acct.iban := hEiban.trans hacct_iban.symm
          show (⟨acctE.iban, acctE.bic, last⟩ : AccountRow) = _
          rw [h1, hEbic]
        have hcplA_write : tblCoupled F.accounts D'.accounts
            (setRow E.accounts apk { acctE with last_movement := last }) := by
          refine ⟨by rw [setRow_map_fst]; exact hC.1.1, ?_⟩
          intro x hx
          rcases mem_of_mem_setRow hx with hx1 | ⟨hx1, hx2⟩
          · rw [hx1, hv2]
            exact Or.inr hmemD'A
          · rcases hC.1.2 x hx1 with hF | hD
            · exact Or.inl hF
            · exact Or.inr (hkeepA' _ (hkeepA x hD hx2) hx2)
        refine ⟨{ Em with
            accounts := setRow Em.accounts apk { acctE with last_movement := last } },
          logEm, .updated,
          hrun2a.trans ((importStatementTail_run2 hpmE).2 hlm hib2), ?_,
          fun hf => absurd hf hout, fun _ => rfl⟩
        refine ⟨?_, ?_, hcplM', hidA, hidS, hidM⟩
        · show tblCoupled F.accounts D'.accounts
            (setRow Em.accounts apk { acctE with last_movement := last })
          rw [hEmA]
          exact hcplA_write
        · show tblCoupled F.statements D'.statements Em.statements
          rw [hEmS]
          exact hcplS

lemma coupled_self_eq {F E : DB} (hWFF : F.WF) (h : DB.Coupled F F E) : E = F := by
  have ha : E.accounts = F.accounts :=
    eq_of_fst_mem h.1.1 hWFF.1.2 (fun x hx => (h.1.2 x hx).elim id id)
  have hs : E.statements = F.statements :=
    eq_of_fst_mem h.2.1.1 hWFF.2.1.2 (fun x hx => (h.2.1.2 x hx).elim id id)
  have hm : E.movements = F.movements :=
    eq_of_fst_mem h.2.2.1.1 hWFF.2.2.2 (fun x hx => (h.2.2.1.2 x hx).elim id id)
  obtain ⟨Ea, Es, Emv, Ena, Ens, Enm⟩ := E
  obtain ⟨Fa, Fs, Fmv, Fna, Fns, Fnm⟩ := F
  simp only [DB.mk.injEq]
  exact ⟨ha, hs, hm, h.2.2.2.1, h.2.2.2.2.1, h.2.2.2.2.2⟩

lemma importFileLoop_replay (recs : List StmtRecord) :
    ∀ {F D E : DB} {logD logE logF : List LogEvent} {nD uD fD nF uF fF nE uE fE : Nat},
    D.WF → F.WF →
    importFileLoop D logD nD uD fD recs = .ok (F, logF, nF, uF, fF) →
    (∀ r ∈ recs, ∀ mv ∈ r.transactions, mvTextTruthy mv = true) →
    DB.Coupled F D E →
    ∃ logE', importFileLoop E logE nE uE fE recs =
      .ok (F, logE', nE, uE + ((nF + uF) - (nD + uD)), fE + (fF - fD)) := by
  induction recs with
  | nil =>
    intro F D E logD logE logF nD uD fD nF uF fF nE uE fE hWFD hWFF h htru hC
    simp only [importFileLoop, Except.ok.injEq, Prod.mk.injEq] at h
    obtain ⟨hDF, hlog, hn, hu, hf⟩ := h
    have hEF : E = F := coupled_self_eq hWFF (hDF ▸ hC)
    have h1 : uE + ((nF + uF) - (nD + uD)) = uE := by omega
    have h2 : fE + (fF - fD) = fE := by omega
    refine ⟨logE, ?_⟩
    rw [hEF, h1, h2]
    rfl
  | cons r rest ih =>
    intro F D E logD logE logF nD uD fD nF uF fF nE uE fE hWFD hWFF h htru hC
    simp only [importFileLoop] at h
    cases hst : importStatement D logD r with
    | error e => rw [hst] at h; exact absurd h (by simp)
    | ok pr =>
      obtain ⟨D1, logD1, out1⟩ := pr
      rw [hst] at h
      have hWFD1 := (importStatement_WF hWFD hst).1
      have htru_r : ∀ mv ∈ r.transactions, mvTextTruthy mv = true :=
        htru r (List.mem_cons_self _ _)
      have htru_rest : ∀ r' ∈ rest, ∀ mv ∈ r'.transactions, mvTextTruthy mv = true :=
        fun r' hr' => htru r' (List.mem_cons_of_mem _ hr')
      cases out1 with
      | failed =>
        have hsuf := importFileLoop_stable rest hWFD1 h
        obtain ⟨E1, log21, out2, hstep2, hC1, hfail2, -⟩ :=
          importStatement_replay hWFD hWFF hst htru_r hsuf hC
        rw [hfail2 rfl] at hstep2
        obtain ⟨logE', hloop⟩ := ih hWFD1 hWFF h htru_rest hC1
        have hcle := importFileLoop_counters_le rest h
        have harith : fE + 1 + (fF - (fD + 1)) = fE + (fF - fD) := by omega
        refine ⟨logE', ?_⟩
        show importFileLoop E logE nE uE fE (r :: rest) = _
        simp only [importFileLoop]
        rw [hstep2, ← harith]
        exact hloop
      | created =>
        have hsuf := importFileLoop_stable rest hWFD1 h
        obtain ⟨E1, log21, out2, hstep2, hC1, -, hupd2⟩ :=
          importStatement_replay hWFD hWFF hst htru_r hsuf hC
        rw [hupd2 (by simp)] at hstep2
        obtain ⟨logE', hloop⟩ := ih hWFD1 hWFF h htru_rest hC1
        have hcle := importFileLoop_counters_le rest h
        have harith : uE + 1 + ((nF + uF) - (nD + 1 + uD)) =
            uE + ((nF + uF) - (nD + uD)) := by omega
        refine ⟨logE', ?_⟩
        show importFileLoop E logE nE uE fE (r :: rest) = _
        simp only [importFileLoop]
        rw [hstep2, ← harith]
        exact hloop
      | updated =>
        have hsuf := importFileLoop_stable rest hWFD1 h
        obtain ⟨E1, log21, out2, hstep2, hC1, -, hupd2⟩ :=
          importStatement_replay hWFD hWFF hst htru_r hsuf hC
        rw [hupd2 (by simp)] at hstep2
        obtain ⟨logE', hloop⟩ := ih hWFD1 hWFF h htru_rest hC1
        have hcle := importFileLoop_counters_le rest h
        have harith : uE + 1 + ((nF + uF) - (nD + (uD + 1))) =
            uE + ((nF + uF) - (nD + uD)) := by omega
        refine ⟨logE', ?_⟩
        show importFileLoop E logE nE uE fE (r :: rest) = _
        simp only [importFileLoop]
        rw [hstep2, ← harith]
        exact hloop

/-- C1 (amended): reimporting the same parsed file into the store left by a
first successful import succeeds, creates no rows (every statement record
takes the UPDATE branch, so the second run reports zero new statements and
promotes every previously counted statement to the updated counter, while
failed records fail again identically), and — provided every transaction's
nine optional text fields are truthy, so that the movement CREATE and UPDATE
branches write identical rows — leaves the persistent store exactly as the
first run left it, with the same file disposition. -/
theorem C1_idempotent_reimport (db : DB) (recs : List StmtRecord) (flag : Bool)
    (res1 : FileResult) (hWF : db.WF)
    (htru : ∀ r ∈ recs, ∀ mv ∈ r.transactions, mvTextTruthy mv = true)
    (h1 : import_file db recs flag = .ok res1) :
    ∃ res2, import_file res1.db recs flag = .ok res2 ∧
      res2.db = res1.db ∧ res2.new_statements = 0 ∧
      res2.updated_statements = res1.new_statements + res1.updated_statements ∧
      res2.failed_statements = res1.failed_statements ∧
      res2.disposition = res1.disposition := by
  unfold import_file at h1
  cases hloop : importFileLoop db [] 0 0 0 recs with
  | error e => rw [hloop] at h1; exact absurd h1 (by simp)
  | ok pr =>
    obtain ⟨F, logF, n, u, f⟩ := pr
    rw [hloop] at h1
    simp only [Except.ok.injEq] at h1
    have hWFF := importFileLoop_WF recs hWF hloop
    have hC0 : DB.Coupled F db F :=
      ⟨⟨rfl, fun x hx => Or.inl hx⟩, ⟨rfl, fun x hx => Or.inl hx⟩,
       ⟨rfl, fun x hx => Or.inl hx⟩, rfl, rfl, rfl⟩
    obtain ⟨logE', hloop2⟩ := importFileLoop_replay recs hWF hWFF hloop htru hC0
    have ha1 : 0 + ((n + u) - (0 + 0)) = n + u := by omega
    have ha2 : 0 + (f - 0) = f := by omega
    rw [ha1, ha2] at hloop2
    have hdb1 : res1.db = F := by rw [← h1]
    have hn1 : res1.new_statements = n := by rw [← h1]
    have hu1 : res1.updated_statements = u := by rw [← h1]
    have hf1 : res1.failed_statements = f := by rw [← h1]
    have hdisp1 : res1.disposition =
        (if f > 0 then Disposition.keepFile
         else if flag then Disposition.deleteFile else Disposition.keepFile) := by
      rw [← h1]
    refine ⟨⟨F, logE', 0, n + u, f,
      if f > 0 then .keepFile else if flag then .deleteFile else .keepFile⟩,
      ?_, ?_, rfl, ?_, ?_, ?_⟩
    · rw [hdb1]
      unfold import_file
      rw [hloop2]
    · rw [hdb1]
    · rw [hn1, hu1]
    · rw [hf1]
    · rw [hdisp1]

/-- C1, counterexample to exact-state idempotency: reimporting the same
single-record file (whose one transaction carries no optional text fields)
into the store left by the first run succeeds with zero new statements,
but the final store differs from the first run's: the first run's movement
CREATE branch defaulted the falsy text fields to the empty string while
the second run's UPDATE branch defaults them to a single space. -/
theorem C1_counterexample :
    (match import_file emptyDB [C1recFalsy] false with
     | .ok res1 =>
       (match import_file res1.db [C1recFalsy] false with
        | .ok res2 => res2.new_statements == 0 && decide (res2.db ≠ res1.db)
        | .error _ => false)
     | .error _ => false) = true := by decide

theorem C1_idempotent_reimport_witness :
    emptyDB.WF ∧
    (∀ r ∈ [C1recTruthy], ∀ mv ∈ r.transactions, mvTextTruthy mv = true) ∧
    import_file emptyDB [C1recTruthy] true = .ok C1res1 ∧
    (∃ res2, import_file C1res1.db [C1recTruthy] true = .ok res2 ∧
      res2.db = C1res1.db ∧ res2.new_statements = 0 ∧
      res2.updated_statements = C1res1.new_statements + C1res1.updated_statements ∧
      res2.failed_statements = C1res1.failed_statements ∧
      res2.disposition = C1res1.disposition) :=
  ⟨by decide, by decide, by decide,
   C1_idempotent_reimport emptyDB [C1recTruthy] true C1res1 (by decide) (by decide)
     (by decide)⟩

end LinoCosi
